import Mathlib

/-!
GNSS frame parsers of `gnss/src/u_gnss_private.c`.

A shallow embedding of the three ring-buffer message parsers (`parseUbx`,
`parseNmea`, `parseRtcm`) together with the wire formats they accept.

Conventions of the embedding:

* a byte (`uint8_t`, `char`) is a `Nat`; every C assignment to a fixed-width
  variable is written with its explicit reduction (`% 256`, `% 65536`,
  `% 4294967296`);
* the parse handle is passed explicitly and returned in the outcome, the
  message identifier written through `pUserParam` likewise;
* a C `while (l--)` loop over a counter is a structural recursion on that
  counter, a `while (uRingBufferGetByteUnprotected(...))` loop is a structural
  recursion on the unread bytes of the handle.
-/

namespace UGnss

/-! ## Data model -/

/-- The members of `u_error_common.h` that the code returns. -/
inductive uErrorCommon_t where
  | U_ERROR_COMMON_SUCCESS
  | U_ERROR_COMMON_TIMEOUT
  | U_ERROR_COMMON_NOT_FOUND
  | U_ERROR_COMMON_UNKNOWN
  | U_ERROR_COMMON_INVALID_PARAMETER
  | U_ERROR_COMMON_NO_MEMORY
  | U_ERROR_COMMON_PLATFORM
  | U_ERROR_COMMON_NOT_SUPPORTED
  | U_ERROR_COMMON_NOT_INITIALISED
  deriving DecidableEq

/-- The protocol tag `uGnssProtocol_t` of a message identifier. -/
inductive uGnssProtocol_t where
  | U_GNSS_PROTOCOL_UBX
  | U_GNSS_PROTOCOL_NMEA
  | U_GNSS_PROTOCOL_RTCM
  | U_GNSS_PROTOCOL_UNKNOWN
  | U_GNSS_PROTOCOL_ALL
  | U_GNSS_PROTOCOL_ANY
  deriving DecidableEq

open uErrorCommon_t uGnssProtocol_t

/-- Modelled from the spec: the declaration of `uGnssPrivateMessageId_t`
(`u_gnss_private.h`) is not part of the sources at hand.  The structure has the
`type` tag and the `id` union with members `ubx` (16 bit), `nmea` (a character
array) and `rtcm` (16 bit), exactly the members `u_gnss_private.c` accesses.
Each member of the union is kept as a field of its own: a parser only ever
writes the member of its own protocol. -/
structure uGnssPrivateMessageId_t where
  type : uGnssProtocol_t
  ubx : Nat
  nmea : List Nat
  rtcm : Nat
  deriving DecidableEq

/-- Modelled from the spec: the parse context behind `uParseHandle_t`
(`u_ringbuffer.c`) is not part of the sources at hand.  It is the reader cursor
of the spec (section 3): the bytes not yet read by the parser, first byte
first, and the count of bytes that were discarded before the position the
parser was started at. -/
structure uParseHandle_t where
  bytes : List Nat
  bytesDiscard : Nat
  deriving DecidableEq

/-- Modelled from the spec: `uRingBufferGetByteUnprotected()` of
`u_ringbuffer.c`, absent from the sources at hand.  When a byte is available it
is handed over and the cursor moves on by one (`some`); otherwise the call
reports `false` and changes nothing (`none`). -/
def uRingBufferGetByteUnprotected (parseHandle : uParseHandle_t) :
    Option (Nat × uParseHandle_t) :=
  match parseHandle.bytes with
  | [] => none
  | b :: bs => some (b, { parseHandle with bytes := bs })

/-- Modelled from the spec: `uRingBufferBytesAvailableUnprotected()` of
`u_ringbuffer.c`, absent from the sources at hand: the number of bytes the
parser can still read. -/
def uRingBufferBytesAvailableUnprotected (parseHandle : uParseHandle_t) : Nat :=
  parseHandle.bytes.length

/-- Modelled from the spec: `uRingBufferBytesDiscardUnprotected()` of
`u_ringbuffer.c`, absent from the sources at hand: the number of bytes
discarded before the match. -/
def uRingBufferBytesDiscardUnprotected (parseHandle : uParseHandle_t) : Nat :=
  parseHandle.bytesDiscard

/-- A call `uRingBufferGetByteUnprotected(parseHandle, &x)` whose return value
the C code ignores: `x` keeps its old value `old` when no byte is available. -/
def getByteIgnoringResult (parseHandle : uParseHandle_t) (old : Nat) :
    Nat × uParseHandle_t :=
  match uRingBufferGetByteUnprotected parseHandle with
  | none => (old, parseHandle)
  | some r => r

/-- What a parser leaves behind: its return code, the parse handle and the
message identifier behind `pUserParam`. -/
structure ParseOutcome where
  code : uErrorCommon_t
  handle : uParseHandle_t
  msgId : uGnssPrivateMessageId_t
  deriving DecidableEq

/-! ## UBX -/

/-- State of the `while (l--)` body loop of `parseUbx`. -/
structure UbxSum where
  handle : uParseHandle_t
  cka : Nat
  ckb : Nat
  last : Nat
  deriving DecidableEq

/-- The loop `while (l--) { get(&by); cka += by; ckb += cka; }` of `parseUbx`
(`cka`, `ckb` are `uint8_t`). -/
def parseUbxBody : Nat → UbxSum → UbxSum
  | 0, s => s
  | l + 1, s =>
    let r := getByteIgnoringResult s.handle s.last
    let cka := (s.cka + r.1) % 256
    let ckb := (s.ckb + cka) % 256
    parseUbxBody l ⟨r.2, cka, ckb, r.1⟩

/-- The end of `parseUbx`, from `cka = cka & 0xFF` on: the two checksum bytes
and the type tag. -/
def parseUbxTail (s : UbxSum) (pMsgId : uGnssPrivateMessageId_t) : ParseOutcome :=
  let cka := s.cka &&& 0xFF
  let ckb := s.ckb &&& 0xFF
  match uRingBufferGetByteUnprotected s.handle with
  | none => ⟨U_ERROR_COMMON_TIMEOUT, s.handle, pMsgId⟩
  | some (b, h1) =>
    if b ≠ cka then ⟨U_ERROR_COMMON_NOT_FOUND, h1, pMsgId⟩
    else
      match uRingBufferGetByteUnprotected h1 with
      | none => ⟨U_ERROR_COMMON_TIMEOUT, h1, pMsgId⟩
      | some (b, h2) =>
        if b ≠ ckb then ⟨U_ERROR_COMMON_NOT_FOUND, h2, pMsgId⟩
        else if uRingBufferBytesDiscardUnprotected h2 = 0 then
          ⟨U_ERROR_COMMON_SUCCESS, h2, { pMsgId with type := U_GNSS_PROTOCOL_UBX }⟩
        else ⟨U_ERROR_COMMON_SUCCESS, h2, pMsgId⟩

/-- The part of `parseUbx` after the two sync bytes and the check that four
bytes are available: class, id, length, body, then `parseUbxTail`. -/
def parseUbxHeader (h : uParseHandle_t) (pMsgId : uGnssPrivateMessageId_t) :
    ParseOutcome :=
  let r1 := getByteIgnoringResult h 0          -- cls
  let cls := r1.1
  let cka := (0 + cls) % 256
  let ckb := (0 + cka) % 256
  let r2 := getByteIgnoringResult r1.2 0       -- id
  let id := r2.1
  let cka := (cka + id) % 256
  let ckb := (ckb + cka) % 256
  let pMsgId := { pMsgId with ubx := ((cls <<< 8) + id) % 65536 }
  let r3 := getByteIgnoringResult r2.2 0       -- len low
  let cka := (cka + r3.1) % 256
  let ckb := (ckb + cka) % 256
  let l := r3.1 % 65536
  let r4 := getByteIgnoringResult r3.2 r3.1    -- len high
  let cka := (cka + r4.1) % 256
  let ckb := (ckb + cka) % 256
  let l := (l + (r4.1 <<< 8) % 65536) % 65536
  if l > uRingBufferBytesAvailableUnprotected r4.2 then
    ⟨U_ERROR_COMMON_TIMEOUT, r4.2, pMsgId⟩
  else
    parseUbxTail (parseUbxBody l ⟨r4.2, cka, ckb, r4.1⟩) pMsgId

/-- The UBX parser `parseUbx(parseHandle, pUserParam)`. -/
def parseUbx (parseHandle : uParseHandle_t) (pMsgId : uGnssPrivateMessageId_t) :
    ParseOutcome :=
  match uRingBufferGetByteUnprotected parseHandle with
  | none => ⟨U_ERROR_COMMON_TIMEOUT, parseHandle, pMsgId⟩
  | some (b, h1) =>
    if 0xB5 ≠ b then ⟨U_ERROR_COMMON_NOT_FOUND, h1, pMsgId⟩
    else
      match uRingBufferGetByteUnprotected h1 with
      | none => ⟨U_ERROR_COMMON_TIMEOUT, h1, pMsgId⟩
      | some (b, h2) =>
        if 0x62 ≠ b then ⟨U_ERROR_COMMON_NOT_FOUND, h2, pMsgId⟩
        else if 4 > uRingBufferBytesAvailableUnprotected h2 then
          ⟨U_ERROR_COMMON_TIMEOUT, h2, pMsgId⟩
        else parseUbxHeader h2 pMsgId

/-- One step of the UBX running sums of the wire format: `cka += byte;
ckb += cka`, both 8 bit wide. -/
def ubxSumStep (s : Nat × Nat) (x : Nat) : Nat × Nat :=
  ((s.1 + x) % 256, (s.2 + (s.1 + x) % 256) % 256)

/-- The two UBX checksum bytes of the bytes `bs` (class, id, length, body). -/
def ubxChecksum (bs : List Nat) : Nat × Nat :=
  bs.foldl ubxSumStep (0, 0)

/-- The bytes of a UBX frame the checksum runs over: class, id, the body length
as 16 bit little-endian, the body. -/
def ubxCovered (c i : Nat) (body : List Nat) : List Nat :=
  [c, i, body.length % 256, body.length / 256] ++ body

/-- The UBX frame `B5 62 cls id len(u16 LE) body ckA ckB` of the wire format. -/
def ubxFrame (c i : Nat) (body : List Nat) : List Nat :=
  [0xB5, 0x62] ++ ubxCovered c i body ++
    [(ubxChecksum (ubxCovered c i body)).1, (ubxChecksum (ubxCovered c i body)).2]

/-! ## NMEA -/

/-- How a loop of a parser ends: by a `return` out of the parser, or by
falling through to the code after the loop with the state `s`. -/
inductive LoopExit (σ : Type) where
  | ret (o : ParseOutcome)
  | next (s : σ)

/-- The local variables of `parseNmea` that live across its loops, with the
handle and the identifier: `crc` (a `char`) and `i`. -/
structure NmeaState where
  handle : uParseHandle_t
  crc : Nat
  i : Nat
  msgId : uGnssPrivateMessageId_t
  deriving DecidableEq

/-- The string `hex = "0123456789ABCDEF"` of `parseNmea`. -/
def hex : List Nat :=
  [0x30, 0x31, 0x32, 0x33, 0x34, 0x35, 0x36, 0x37, 0x38, 0x39,
   0x41, 0x42, 0x43, 0x44, 0x45, 0x46]

/-- The first loop of `parseNmea`, run on the unread bytes of a handle with
discard count `d`: the sentence tag up to the comma.  `maxLen` is
`U_GNSS_NMEA_MESSAGE_MATCH_LENGTH_CHARACTERS`, whose definition is in a header
that is not part of the sources at hand.  Characters: `,` is 0x2C, `0` 0x30,
`9` 0x39, `A` 0x41, `Z` 0x5A. -/
def parseNmeaTag (maxLen d : Nat) :
    List Nat → Nat → Nat → uGnssPrivateMessageId_t → LoopExit NmeaState
  | [], crc, i, m => .next ⟨⟨[], d⟩, crc, i, m⟩
  | ch :: bs, crc, i, m =>
    let crc := crc ^^^ ch
    if 0x2C = ch then .next ⟨⟨bs, d⟩, crc, i, m⟩
    else if i ≥ maxLen then .ret ⟨U_ERROR_COMMON_NOT_FOUND, ⟨bs, d⟩, m⟩
    else if 0x30 > ch ∨ 0x5A < ch ∨ (0x39 < ch ∧ 0x41 > ch) then
      .ret ⟨U_ERROR_COMMON_NOT_FOUND, ⟨bs, d⟩, m⟩
    else parseNmeaTag maxLen d bs crc (i + 1) { m with nmea := m.nmea.set i ch }

/-- The second loop of `parseNmea`, run on the unread bytes of a handle with
discard count `d`: the payload up to `*` (0x2A); space is 0x20, `~` is 0x7E. -/
def parseNmeaPayload (d : Nat) (i : Nat) (m : uGnssPrivateMessageId_t) :
    List Nat → Nat → LoopExit NmeaState
  | [], crc => .next ⟨⟨[], d⟩, crc, i, m⟩
  | ch :: bs, crc =>
    if 0x20 > ch ∨ 0x7E < ch then .ret ⟨U_ERROR_COMMON_NOT_FOUND, ⟨bs, d⟩, m⟩
    else if 0x2A = ch then .next ⟨⟨bs, d⟩, crc, i, m⟩
    else parseNmeaPayload d i m bs (crc ^^^ ch)

/-- The end of `parseNmea`, after the payload loop: two checksum characters,
carriage return (0x0D), line feed (0x0A), then the type tag. -/
def parseNmeaTail (s : NmeaState) : ParseOutcome :=
  match uRingBufferGetByteUnprotected s.handle with
  | none => ⟨U_ERROR_COMMON_TIMEOUT, s.handle, s.msgId⟩
  | some (ch, h1) =>
    if hex.getD ((s.crc >>> 4) &&& 0xF) 0 ≠ ch then
      ⟨U_ERROR_COMMON_NOT_FOUND, h1, s.msgId⟩
    else
      match uRingBufferGetByteUnprotected h1 with
      | none => ⟨U_ERROR_COMMON_TIMEOUT, h1, s.msgId⟩
      | some (ch, h2) =>
        if hex.getD (s.crc &&& 0xF) 0 ≠ ch then
          ⟨U_ERROR_COMMON_NOT_FOUND, h2, s.msgId⟩
        else
          match uRingBufferGetByteUnprotected h2 with
          | none => ⟨U_ERROR_COMMON_TIMEOUT, h2, s.msgId⟩
          | some (ch, h3) =>
            if 0x0D ≠ ch then ⟨U_ERROR_COMMON_NOT_FOUND, h3, s.msgId⟩
            else
              match uRingBufferGetByteUnprotected h3 with
              | none => ⟨U_ERROR_COMMON_TIMEOUT, h3, s.msgId⟩
              | some (ch, h4) =>
                if 0x0A ≠ ch then ⟨U_ERROR_COMMON_NOT_FOUND, h4, s.msgId⟩
                else if uRingBufferBytesDiscardUnprotected h4 = 0 then
                  ⟨U_ERROR_COMMON_SUCCESS, h4,
                    { s.msgId with type := U_GNSS_PROTOCOL_NMEA }⟩
                else ⟨U_ERROR_COMMON_SUCCESS, h4, s.msgId⟩

/-- The NMEA parser `parseNmea(parseHandle, pUserParam)`; `$` is 0x24.
`maxLen` is `U_GNSS_NMEA_MESSAGE_MATCH_LENGTH_CHARACTERS`. -/
def parseNmea (maxLen : Nat) (parseHandle : uParseHandle_t)
    (pMsgId : uGnssPrivateMessageId_t) : ParseOutcome :=
  match uRingBufferGetByteUnprotected parseHandle with
  | none => ⟨U_ERROR_COMMON_TIMEOUT, parseHandle, pMsgId⟩
  | some (ch, h1) =>
    if 0x24 ≠ ch then ⟨U_ERROR_COMMON_NOT_FOUND, h1, pMsgId⟩
    else
      match parseNmeaTag maxLen h1.bytesDiscard h1.bytes 0 0 pMsgId with
      | .ret o => o
      | .next s1 =>
        -- pMsgId->id.nmea[i] = 0
        let m1 := { s1.msgId with nmea := s1.msgId.nmea.set s1.i 0 }
        match parseNmeaPayload s1.handle.bytesDiscard s1.i m1 s1.handle.bytes s1.crc with
        | .ret o => o
        | .next s2 => parseNmeaTail s2

/-- A character of `[A-Z0-9]`. -/
def isTagChar (ch : Nat) : Prop :=
  (0x30 ≤ ch ∧ ch ≤ 0x39) ∨ (0x41 ≤ ch ∧ ch ≤ 0x5A)

instance (ch : Nat) : Decidable (isTagChar ch) := by
  unfold isTagChar; infer_instance

/-- A printable payload byte, 0x20 to 0x7E. -/
def isPrintable (ch : Nat) : Prop := 0x20 ≤ ch ∧ ch ≤ 0x7E

instance (ch : Nat) : Decidable (isPrintable ch) := by
  unfold isPrintable; infer_instance

/-- The XOR of all bytes of `bs`: the NMEA checksum of the bytes between `$`
and `*`. -/
def nmeaXor (bs : List Nat) : Nat := bs.foldl (· ^^^ ·) 0

/-- The uppercase hexadecimal digit (as a character code) of a nibble. -/
def hexDigit (n : Nat) : Nat := if n < 10 then 0x30 + n else 0x41 + (n - 10)

/-- The NMEA sentence `$ tag , payload * H1 H2 CR LF` of the wire format, with
`H1 H2` the uppercase hex digits, high nibble first, of the XOR of every byte
of `tag , payload`. -/
def nmeaSentence (tag payload : List Nat) : List Nat :=
  0x24 :: (tag ++ 0x2C :: (payload ++
    [0x2A, hexDigit (nmeaXor (tag ++ 0x2C :: payload) / 16 % 16),
      hexDigit (nmeaXor (tag ++ 0x2C :: payload) % 16), 0x0D, 0x0A]))

/-- The writes `pMsgId->id.nmea[i++] = ch` of the tag loop of `parseNmea`, for
the characters of a tag in turn, starting at index `i`. -/
def storeTag (buf : List Nat) (i : Nat) : List Nat → List Nat
  | [] => buf
  | ch :: t => storeTag (buf.set i ch) (i + 1) t

/-! ## RTCM -/

/-- The table `_crc24qTable` of `parseRtcm`. -/
def _crc24qTable : List Nat := [
  /- 00 -/ 0x000000, 0x864cfb, 0x8ad50d, 0x0c99f6, 0x93e6e1, 0x15aa1a, 0x1933ec, 0x9f7f17,
  /- 08 -/ 0xa18139, 0x27cdc2, 0x2b5434, 0xad18cf, 0x3267d8, 0xb42b23, 0xb8b2d5, 0x3efe2e,
  /- 10 -/ 0xc54e89, 0x430272, 0x4f9b84, 0xc9d77f, 0x56a868, 0xd0e493, 0xdc7d65, 0x5a319e,
  /- 18 -/ 0x64cfb0, 0xe2834b, 0xee1abd, 0x685646, 0xf72951, 0x7165aa, 0x7dfc5c, 0xfbb0a7,
  /- 20 -/ 0x0cd1e9, 0x8a9d12, 0x8604e4, 0x00481f, 0x9f3708, 0x197bf3, 0x15e205, 0x93aefe,
  /- 28 -/ 0xad50d0, 0x2b1c2b, 0x2785dd, 0xa1c926, 0x3eb631, 0xb8faca, 0xb4633c, 0x322fc7,
  /- 30 -/ 0xc99f60, 0x4fd39b, 0x434a6d, 0xc50696, 0x5a7981, 0xdc357a, 0xd0ac8c, 0x56e077,
  /- 38 -/ 0x681e59, 0xee52a2, 0xe2cb54, 0x6487af, 0xfbf8b8, 0x7db443, 0x712db5, 0xf7614e,
  /- 40 -/ 0x19a3d2, 0x9fef29, 0x9376df, 0x153a24, 0x8a4533, 0x0c09c8, 0x00903e, 0x86dcc5,
  /- 48 -/ 0xb822eb, 0x3e6e10, 0x32f7e6, 0xb4bb1d, 0x2bc40a, 0xad88f1, 0xa11107, 0x275dfc,
  /- 50 -/ 0xdced5b, 0x5aa1a0, 0x563856, 0xd074ad, 0x4f0bba, 0xc94741, 0xc5deb7, 0x43924c,
  /- 58 -/ 0x7d6c62, 0xfb2099, 0xf7b96f, 0x71f594, 0xee8a83, 0x68c678, 0x645f8e, 0xe21375,
  /- 60 -/ 0x15723b, 0x933ec0, 0x9fa736, 0x19ebcd, 0x8694da, 0x00d821, 0x0c41d7, 0x8a0d2c,
  /- 68 -/ 0xb4f302, 0x32bff9, 0x3e260f, 0xb86af4, 0x2715e3, 0xa15918, 0xadc0ee, 0x2b8c15,
  /- 70 -/ 0xd03cb2, 0x567049, 0x5ae9bf, 0xdca544, 0x43da53, 0xc596a8, 0xc90f5e, 0x4f43a5,
  /- 78 -/ 0x71bd8b, 0xf7f170, 0xfb6886, 0x7d247d, 0xe25b6a, 0x641791, 0x688e67, 0xeec29c,
  /- 80 -/ 0x3347a4, 0xb50b5f, 0xb992a9, 0x3fde52, 0xa0a145, 0x26edbe, 0x2a7448, 0xac38b3,
  /- 88 -/ 0x92c69d, 0x148a66, 0x181390, 0x9e5f6b, 0x01207c, 0x876c87, 0x8bf571, 0x0db98a,
  /- 90 -/ 0xf6092d, 0x7045d6, 0x7cdc20, 0xfa90db, 0x65efcc, 0xe3a337, 0xef3ac1, 0x69763a,
  /- 98 -/ 0x578814, 0xd1c4ef, 0xdd5d19, 0x5b11e2, 0xc46ef5, 0x42220e, 0x4ebbf8, 0xc8f703,
  /- a0 -/ 0x3f964d, 0xb9dab6, 0xb54340, 0x330fbb, 0xac70ac, 0x2a3c57, 0x26a5a1, 0xa0e95a,
  /- a8 -/ 0x9e1774, 0x185b8f, 0x14c279, 0x928e82, 0x0df195, 0x8bbd6e, 0x872498, 0x016863,
  /- b0 -/ 0xfad8c4, 0x7c943f, 0x700dc9, 0xf64132, 0x693e25, 0xef72de, 0xe3eb28, 0x65a7d3,
  /- b8 -/ 0x5b59fd, 0xdd1506, 0xd18cf0, 0x57c00b, 0xc8bf1c, 0x4ef3e7, 0x426a11, 0xc426ea,
  /- c0 -/ 0x2ae476, 0xaca88d, 0xa0317b, 0x267d80, 0xb90297, 0x3f4e6c, 0x33d79a, 0xb59b61,
  /- c8 -/ 0x8b654f, 0x0d29b4, 0x01b042, 0x87fcb9, 0x1883ae, 0x9ecf55, 0x9256a3, 0x141a58,
  /- d0 -/ 0xefaaff, 0x69e604, 0x657ff2, 0xe33309, 0x7c4c1e, 0xfa00e5, 0xf69913, 0x70d5e8,
  /- d8 -/ 0x4e2bc6, 0xc8673d, 0xc4fecb, 0x42b230, 0xddcd27, 0x5b81dc, 0x57182a, 0xd154d1,
  /- e0 -/ 0x26359f, 0xa07964, 0xace092, 0x2aac69, 0xb5d37e, 0x339f85, 0x3f0673, 0xb94a88,
  /- e8 -/ 0x87b4a6, 0x01f85d, 0x0d61ab, 0x8b2d50, 0x145247, 0x921ebc, 0x9e874a, 0x18cbb1,
  /- f0 -/ 0xe37b16, 0x6537ed, 0x69ae1b, 0xefe2e0, 0x709df7, 0xf6d10c, 0xfa48fa, 0x7c0401,
  /- f8 -/ 0x42fa2f, 0xc4b6d4, 0xc82f22, 0x4e63d9, 0xd11cce, 0x575035, 0x5bc9c3, 0xdd8538]

/-- The definition `RTCM_CRC(crc, by)` of `parseRtcm`:
`(crc << 8) ^ _crc24qTable[(by ^ (crc >> 16)) & 0xff]` on a `uint32_t` `crc`. -/
def RTCM_CRC (crc b : Nat) : Nat :=
  ((crc <<< 8) % 4294967296) ^^^ _crc24qTable.getD ((b ^^^ (crc >>> 16)) &&& 0xff) 0

/-- State of the `while (l--)` body loop of `parseRtcm`. -/
structure RtcmSum where
  handle : uParseHandle_t
  crc : Nat
  last : Nat
  deriving DecidableEq

/-- The loop `while (l--) { get(&by); crc = RTCM_CRC(crc, by); }` of
`parseRtcm`; the result of the read is ignored by the C code. -/
def parseRtcmBody : Nat → RtcmSum → RtcmSum
  | 0, s => s
  | l + 1, s =>
    let r := getByteIgnoringResult s.handle s.last
    parseRtcmBody l ⟨r.2, RTCM_CRC s.crc r.1, r.1⟩

/-- The loop `for (x = 2; (x >= 0) && get(&by); x--)` of `parseRtcm` comparing
the CRC bytes; the first argument is `x + 1`.  `ret` is the `return` inside the
loop, `next` is leaving the loop, by `x < 0` or by a failed read. -/
def parseRtcmCompare (crc : Nat) (m : uGnssPrivateMessageId_t) :
    Nat → uParseHandle_t → LoopExit uParseHandle_t
  | 0, h => .next h
  | x + 1, h =>
    match uRingBufferGetByteUnprotected h with
    | none => .next h
    | some (b, h1) =>
      if b ≠ (crc >>> (8 * x)) % 256 then .ret ⟨U_ERROR_COMMON_TIMEOUT, h1, m⟩
      else parseRtcmCompare crc m x h1

/-- The end of `parseRtcm`, from the body loop on. -/
def parseRtcmTail (l : Nat) (s : RtcmSum) (m : uGnssPrivateMessageId_t) : ParseOutcome :=
  let s1 := parseRtcmBody l s
  match parseRtcmCompare s1.crc m 3 s1.handle with
  | .ret o => o
  | .next h =>
    if uRingBufferBytesDiscardUnprotected h = 0 then
      ⟨U_ERROR_COMMON_SUCCESS, h, { m with type := U_GNSS_PROTOCOL_RTCM }⟩
    else ⟨U_ERROR_COMMON_SUCCESS, h, m⟩

/-- The RTCM parser `parseRtcm(parseHandle, pUserParam)`.  `l` is a `uint16_t`:
`l--` is `(l + 65535) % 65536`. -/
def parseRtcm (parseHandle : uParseHandle_t) (pMsgId : uGnssPrivateMessageId_t) :
    ParseOutcome :=
  match uRingBufferGetByteUnprotected parseHandle with
  | none => ⟨U_ERROR_COMMON_TIMEOUT, parseHandle, pMsgId⟩
  | some (b0, h1) =>
    if 0xD3 ≠ b0 then ⟨U_ERROR_COMMON_NOT_FOUND, h1, pMsgId⟩
    else
      let crc := RTCM_CRC 0 b0
      match uRingBufferGetByteUnprotected h1 with
      | none => ⟨U_ERROR_COMMON_TIMEOUT, h1, pMsgId⟩
      | some (b1, h2) =>
        if (0xFC &&& b1) ≠ 0 then ⟨U_ERROR_COMMON_NOT_FOUND, h2, pMsgId⟩
        else
          let l := ((b1 &&& 0x3) <<< 8) % 65536
          let crc := RTCM_CRC crc b1
          match uRingBufferGetByteUnprotected h2 with
          | none => ⟨U_ERROR_COMMON_TIMEOUT, h2, pMsgId⟩
          | some (b2, h3) =>
            let l := (l + b2) % 65536
            if l > uRingBufferBytesAvailableUnprotected h3 + 3 then
              ⟨U_ERROR_COMMON_TIMEOUT, h3, pMsgId⟩
            else
              let crc := RTCM_CRC crc b2
              match uRingBufferGetByteUnprotected h3 with
              | none => ⟨U_ERROR_COMMON_TIMEOUT, h3, pMsgId⟩
              | some (idLo, h4) =>
                let l := (l + 65535) % 65536
                let crc := RTCM_CRC crc idLo
                match uRingBufferGetByteUnprotected h4 with
                | none => ⟨U_ERROR_COMMON_TIMEOUT, h4, pMsgId⟩
                | some (idHi, h5) =>
                  let l := (l + 65535) % 65536
                  let crc := RTCM_CRC crc idHi
                  let m := { pMsgId with rtcm := ((idHi >>> 4) + (idLo <<< 4)) % 65536 }
                  parseRtcmTail l ⟨h5, crc, b2⟩ m

/-- One bit of the CRC-24Q division: shift left by one and, when bit 24 comes
out set, xor with the polynomial 0x1864CFB. -/
def crc24qBit (c : Nat) : Nat :=
  if (c <<< 1) &&& 0x1000000 ≠ 0 then (c <<< 1) ^^^ 0x1864CFB else c <<< 1

/-- One byte of the bit-by-bit CRC-24Q: the byte is xored into the top byte of
the 24-bit remainder, followed by eight shift-and-conditionally-xor steps. -/
def crc24qByte (c b : Nat) : Nat :=
  crc24qBit (crc24qBit (crc24qBit (crc24qBit (crc24qBit (crc24qBit (crc24qBit
    (crc24qBit (c ^^^ (b <<< 16)))))))))

/-- The bit-by-bit CRC-24Q, seed 0, of a byte sequence. -/
def crc24q (bs : List Nat) : Nat := bs.foldl crc24qByte 0

/-- The bytes of an RTCM frame the CRC runs over: the sync byte 0xD3, the
length `L` of the message on 10 bits behind 6 zero bits, the message. -/
def rtcmCovered (msg : List Nat) : List Nat :=
  0xD3 :: (msg.length / 256) :: (msg.length % 256) :: msg

/-- The RTCM frame of the wire format: `rtcmCovered` followed by its CRC-24Q as
three bytes, most significant first. -/
def rtcmFrame (msg : List Nat) : List Nat :=
  rtcmCovered msg ++
    [crc24q (rtcmCovered msg) / 65536 % 256, crc24q (rtcmCovered msg) / 256 % 256,
      crc24q (rtcmCovered msg) % 256]

/-! ## Message-identifier matching -/

/-- Modelled from the spec: `U_GNSS_UBX_MESSAGE_CLASS_ALL`, declared in a header
that is not part of the sources at hand; the all-ones class sentinel of the
spec (section 3), `0xFF` as the comment of `ubxIdMatch` says. -/
def U_GNSS_UBX_MESSAGE_CLASS_ALL : Nat := 0xFF

/-- Modelled from the spec: `U_GNSS_UBX_MESSAGE_ID_ALL`, declared in a header
that is not part of the sources at hand; the all-ones id sentinel of the spec
(section 3), `0xFF` as the comment of `ubxIdMatch` says. -/
def U_GNSS_UBX_MESSAGE_ID_ALL : Nat := 0xFF

/-- Modelled from the spec: `U_GNSS_RTCM_MESSAGE_ID_ALL`, declared in a header
that is not part of the sources at hand; the reserved all-ones sentinel of the
spec (section 3), `0xFFFF` as the comment of `rtcmIdMatch` says. -/
def U_GNSS_RTCM_MESSAGE_ID_ALL : Nat := 0xFFFF

/-- The loop of `nmeaIdMatch(pNmeaIdActual, pNmeaIdWanted)` for two non-NULL
pointers.  A string is the list of the characters stored from the pointer on
(for instance the array `id.nmea`); the character read at the end of the list
is taken to be the terminator 0.  `?` is 0x3F. -/
def nmeaIdMatchLoop : List Nat → List Nat → Bool
  | _, [] => true
  | actual, w :: ws =>
    if w = 0 then true
    else
      match actual with
      | [] => false
      | a :: as =>
        if a = 0 ∨ (w ≠ 0x3F ∧ w ≠ a) then false
        else nmeaIdMatchLoop as ws

/-- The function `nmeaIdMatch(pNmeaIdActual, pNmeaIdWanted)`; `none` is the NULL
pointer. -/
def nmeaIdMatch (pNmeaIdActual pNmeaIdWanted : Option (List Nat)) : Bool :=
  match pNmeaIdWanted with
  | none => true
  | some wanted =>
    match pNmeaIdActual with
    | none => false
    | some actual => nmeaIdMatchLoop actual wanted

/-- The function `ubxIdMatch(ubxIdActual, ubxIdWanted)` on `uint16_t`
values. -/
def ubxIdMatch (ubxIdActual ubxIdWanted : Nat) : Bool :=
  let a1 :=
    if ubxIdWanted &&& U_GNSS_UBX_MESSAGE_ID_ALL = U_GNSS_UBX_MESSAGE_ID_ALL then
      (ubxIdActual ||| U_GNSS_UBX_MESSAGE_ID_ALL) % 65536
    else ubxIdActual
  let a2 :=
    if ubxIdWanted &&& (U_GNSS_UBX_MESSAGE_CLASS_ALL <<< 8) =
        (U_GNSS_UBX_MESSAGE_CLASS_ALL <<< 8) then
      (a1 ||| (U_GNSS_UBX_MESSAGE_CLASS_ALL <<< 8)) % 65536
    else a1
  decide (a2 = ubxIdWanted)

/-- The function `rtcmIdMatch(rtcmIdActual, rtcmIdWanted)`. -/
def rtcmIdMatch (rtcmIdActual rtcmIdWanted : Nat) : Bool :=
  decide (rtcmIdActual = rtcmIdWanted) || decide (rtcmIdWanted = U_GNSS_RTCM_MESSAGE_ID_ALL)

/-- The function `uGnssPrivateMessageIdIsWanted(pMessageId, pMessageIdWanted)`;
both pointers are dereferenced without a check and the arrays `id.nmea` are
never NULL. -/
def uGnssPrivateMessageIdIsWanted (pMessageId pMessageIdWanted : uGnssPrivateMessageId_t) :
    Bool :=
  if pMessageIdWanted.type = U_GNSS_PROTOCOL_ANY then true
  else if pMessageIdWanted.type = U_GNSS_PROTOCOL_ALL ∧
      pMessageId.type ≠ U_GNSS_PROTOCOL_UNKNOWN then true
  else if pMessageIdWanted.type = U_GNSS_PROTOCOL_UNKNOWN ∧
      pMessageId.type = U_GNSS_PROTOCOL_UNKNOWN then true
  else if pMessageIdWanted.type = U_GNSS_PROTOCOL_RTCM ∧
      pMessageId.type = U_GNSS_PROTOCOL_RTCM then
    rtcmIdMatch pMessageId.rtcm pMessageIdWanted.rtcm
  else if pMessageIdWanted.type = U_GNSS_PROTOCOL_NMEA ∧
      pMessageId.type = U_GNSS_PROTOCOL_NMEA then
    nmeaIdMatch (some pMessageId.nmea) (some pMessageIdWanted.nmea)
  else if pMessageIdWanted.type = U_GNSS_PROTOCOL_UBX ∧
      pMessageId.type = U_GNSS_PROTOCOL_UBX then
    ubxIdMatch pMessageId.ubx pMessageIdWanted.ubx
  else false

/-- The C string stored in a character array: the characters before the first
terminator 0. -/
def cString (buf : List Nat) : List Nat := buf.takeWhile (· ≠ 0)

/-! ## Decoder loop -/

/-- The GNSS error codes `U_GNSS_ERROR_...` that the code returns. -/
inductive uGnssErrorCode_t where
  | U_GNSS_ERROR_TRANSPORT
  | U_GNSS_ERROR_NACK
  deriving DecidableEq

/-- A negative error code: a member of `u_error_common.h` other than success,
or a GNSS error code. -/
inductive uError_t where
  | common (e : uErrorCommon_t)
  | gnss (e : uGnssErrorCode_t)
  deriving DecidableEq

/-- The value of an `int32_t` "error code or length": a negative error code or
a non-negative number; `U_ERROR_COMMON_SUCCESS` is `length 0`.  The C tests
`x <= 0` and `x > 0` tell `error e` and `length 0` from `length (n + 1)`. -/
inductive errorCodeOrLength_t where
  | error (e : uError_t)
  | length (n : Nat)
  deriving DecidableEq

/-- Modelled from the spec: `uRingBufferReadHandle()` of `u_ringbuffer.c`,
absent from the sources at hand; `read(id, buf, max)` of the spec (section 6).
Up to `size` bytes are taken from the cursor: the bytes read (their count is
the return value) and the cursor afterwards.  With a NULL buffer the bytes are
thrown away, which is how `u_gnss_private.c` discards. -/
def uRingBufferReadHandle (cursor : List Nat) (size : Nat) : List Nat × List Nat :=
  (cursor.take size, cursor.drop size)

/-- What `uGnssPrivateStreamDecodeRingBuffer` leaves behind: its return value,
the unread bytes of the read handle and the identifier behind
`pPrivateMessageId`. -/
structure DecodeOutcome where
  errorCodeOrLength : errorCodeOrLength_t
  cursor : List Nat
  privateMessageId : uGnssPrivateMessageId_t
  deriving DecidableEq

/-- The loop `while (1)` of `uGnssPrivateStreamDecodeRingBuffer`.  `parse` is
the call `uRingBufferParseHandle(pRingBuffer, readHandle, parserList, &msg)` on
a zeroed `msg` of type UNKNOWN: from the unread bytes of the read handle, which
it leaves in place, to its return value and `msg`.  The first argument bounds
the number of turns of the loop; `none` is the bound being reached. -/
def decodeLoop (parse : List Nat → errorCodeOrLength_t × uGnssPrivateMessageId_t) :
    Nat → List Nat → uGnssPrivateMessageId_t → Option DecodeOutcome
  | 0, _, _ => none
  | fuel + 1, cursor, wanted =>
    match parse cursor with
    | (.error e, _) => some ⟨.error e, cursor, wanted⟩
    | (.length 0, _) => some ⟨.length 0, cursor, wanted⟩
    | (.length (n + 1), msg) =>
      if uGnssPrivateMessageIdIsWanted msg wanted then
        -- memcpy(pPrivateMessageId, &msg, ...)
        some ⟨.length (n + 1), cursor, msg⟩
      else if wanted.type = U_GNSS_PROTOCOL_UBX ∧ msg.type = U_GNSS_PROTOCOL_UBX ∧
          msg.ubx = 0x0500 ∧ n + 1 = 10 then
        let r := uRingBufferReadHandle cursor 10
        if 10 = r.1.length then
          let ubxId := ((r.1.getD 6 0 <<< 8) ||| r.1.getD 7 0) % 65536
          if ubxIdMatch ubxId wanted.ubx then
            some ⟨.error (.gnss .U_GNSS_ERROR_NACK), r.2, wanted⟩
          else decodeLoop parse fuel r.2 wanted
        else decodeLoop parse fuel r.2 wanted
      else
        -- discard what is not wanted by the caller
        decodeLoop parse fuel (uRingBufferReadHandle cursor (n + 1)).2 wanted

/-- The function `uGnssPrivateStreamDecodeRingBuffer(pRingBuffer, readHandle,
pPrivateMessageId)`; `none` for an argument is the NULL pointer, the ring
buffer is given by the unread bytes of the read handle.  The result is `none`
when the bound `fuel` on the turns of the loop is reached. -/
def uGnssPrivateStreamDecodeRingBuffer
    (parse : List Nat → errorCodeOrLength_t × uGnssPrivateMessageId_t) (fuel : Nat)
    (pRingBuffer : Option (List Nat)) (pPrivateMessageId : Option uGnssPrivateMessageId_t) :
    Option (errorCodeOrLength_t × Option (List Nat) × Option uGnssPrivateMessageId_t) :=
  match pRingBuffer, pPrivateMessageId with
  | some cursor, some wanted =>
    (decodeLoop parse fuel cursor wanted).map
      fun o => (o.errorCodeOrLength, some o.cursor, some o.privateMessageId)
  | rb, id => some (.error (.common U_ERROR_COMMON_INVALID_PARAMETER), rb, id)

/-- The frames a call of the decoder loop has consumed between the cursor `c`
and the cursor `c1`: each was at the head of the cursor, reported by `parse`
with a positive length, and not wanted. -/
inductive ConsumedUnwanted (parse : List Nat → errorCodeOrLength_t × uGnssPrivateMessageId_t)
    (wanted : uGnssPrivateMessageId_t) : List Nat → List Nat → Prop where
  | done (c : List Nat) : ConsumedUnwanted parse wanted c c
  | step (c c1 : List Nat) (n : Nat) (msg : uGnssPrivateMessageId_t) :
      parse c = (.length (n + 1), msg) →
      uGnssPrivateMessageIdIsWanted msg wanted = false →
      ConsumedUnwanted parse wanted (c.drop (n + 1)) c1 →
      ConsumedUnwanted parse wanted c c1

/-- The three parsers of `parserList` tried in turn (UBX, NMEA, RTCM) on the
same bytes until one returns something other than NotFound. -/
def tryParserList (maxLen : Nat) (h : uParseHandle_t) (msg : uGnssPrivateMessageId_t) :
    ParseOutcome :=
  let r1 := parseUbx h msg
  if r1.code ≠ U_ERROR_COMMON_NOT_FOUND then r1
  else
    let r2 := parseNmea maxLen h r1.msgId
    if r2.code ≠ U_ERROR_COMMON_NOT_FOUND then r2
    else parseRtcm h r2.msgId

/-- Modelled from the spec: `uRingBufferParseHandle()` of `u_ringbuffer.c`,
absent from the sources at hand, as sections 4.1 and 4.4 of the spec describe
it.  The parsers are run at the head of the unread bytes; while all of them
report NotFound one more byte is counted as discarded and they are run one
byte further on.  A success with nothing discarded is reported by the length
of the frame, with the identifier the parser wrote; once bytes have been
discarded their count is reported as the length, the identifier keeping its
type; a timeout with nothing discarded is reported as such. -/
def parseHandleFrom (maxLen : Nat) :
    List Nat → Nat → uGnssPrivateMessageId_t → errorCodeOrLength_t × uGnssPrivateMessageId_t
  | [], d, msg =>
    if d = 0 then (.error (.common U_ERROR_COMMON_TIMEOUT), msg) else (.length d, msg)
  | b :: bs, d, msg =>
    let r := tryParserList maxLen ⟨b :: bs, d⟩ msg
    if r.code = U_ERROR_COMMON_NOT_FOUND then parseHandleFrom maxLen bs (d + 1) r.msgId
    else if d ≠ 0 then (.length d, r.msgId)
    else if r.code = U_ERROR_COMMON_SUCCESS then
      (.length ((b :: bs).length - r.handle.bytes.length), r.msgId)
    else (.error (.common r.code), r.msgId)

/-- Modelled from the spec: the call `uRingBufferParseHandle(pRingBuffer,
readHandle, parserList, &msg)` of the decoder loop, on the `msg` the loop
prepares (all zero, type UNKNOWN). -/
def uRingBufferParseHandle (maxLen : Nat) (cursor : List Nat) :
    errorCodeOrLength_t × uGnssPrivateMessageId_t :=
  parseHandleFrom maxLen cursor 0 ⟨U_GNSS_PROTOCOL_UNKNOWN, 0, List.replicate (maxLen + 1) 0, 0⟩

/-! ## Acknowledged send -/

/-- The structure `uGnssPrivateUbxReceiveMessage_t`.  For `ppBody`, `none` is a
NULL `ppBody`, `some none` a NULL `*ppBody` and `some (some buf)` the bytes of
the buffer `*ppBody` points to. -/
structure uGnssPrivateUbxReceiveMessage_t where
  cls : Int
  id : Int
  ppBody : Option (Option (List Nat))
  bodySize : Nat
  deriving DecidableEq

/-- The value of a `char` holding the low eight bits of `x`, as a number from 0
to 255: two `char` values are equal exactly when these numbers are. -/
def toChar (x : Int) : Int := x % 256

/-- The function `uGnssPrivateSendUbxMessage()`.  `sendReceiveUbxMessage` is the
call `sendReceiveUbxMessage(pInstance, messageClass, messageId, pMessageBody,
messageBodyLengthBytes, &response)`, from class, id and the response structure
passed in to its return value and the response structure afterwards; `ackBody`
is the buffer behind `response.ppBody`. -/
def uGnssPrivateSendUbxMessage
    (sendReceiveUbxMessage : Int → Int → uGnssPrivateUbxReceiveMessage_t →
      errorCodeOrLength_t × uGnssPrivateUbxReceiveMessage_t)
    (messageClass messageId : Int) : errorCodeOrLength_t :=
  let response : uGnssPrivateUbxReceiveMessage_t := ⟨0x05, -1, some (some [0, 0]), 2⟩
  let r := sendReceiveUbxMessage messageClass messageId response
  let errorCode := r.1
  let response := r.2
  let ackBody : List Nat := (response.ppBody.getD none).getD [0, 0]
  if errorCode = .length 2 ∧ response.cls = 0x05 ∧
      toChar (ackBody.getD 0 0) = toChar messageClass ∧
      toChar (ackBody.getD 1 0) = toChar messageId then
    if response.id = 0x01 then .length 0  -- U_ERROR_COMMON_SUCCESS
    else .error (.gnss .U_GNSS_ERROR_NACK)
  else .error (.common U_ERROR_COMMON_UNKNOWN)

/-! ## Instance and transport -/

/-- Modelled from the spec: the value `U_GNSS_TRANSPORT_NONE` of
`uGnssTransportType_t` (`u_gnss_type.h`, not part of the sources at hand).  The
values of the type are numbered in the order that the comments of the table
`gGnssPrivateTransportTypeToStream` give them in. -/
def U_GNSS_TRANSPORT_NONE : Int := 0

/-- Modelled from the spec: `U_GNSS_TRANSPORT_UART`, second entry of the table. -/
def U_GNSS_TRANSPORT_UART : Int := 1

/-- Modelled from the spec: `U_GNSS_TRANSPORT_AT`, third entry of the table. -/
def U_GNSS_TRANSPORT_AT : Int := 2

/-- Modelled from the spec: `U_GNSS_TRANSPORT_I2C`, fourth entry of the table. -/
def U_GNSS_TRANSPORT_I2C : Int := 3

/-- Modelled from the spec: `U_GNSS_TRANSPORT_SPI`, fifth entry of the table. -/
def U_GNSS_TRANSPORT_SPI : Int := 4

/-- Modelled from the spec: `U_GNSS_TRANSPORT_UBX_UART`, sixth entry of the table. -/
def U_GNSS_TRANSPORT_UBX_UART : Int := 5

/-- Modelled from the spec: `U_GNSS_TRANSPORT_UBX_I2C`, seventh entry of the table. -/
def U_GNSS_TRANSPORT_UBX_I2C : Int := 6

/-- Modelled from the spec: `uGnssPrivateStreamType_t` (`u_gnss_private.h`, not
part of the sources at hand).  Its values are not negative, which is what the
tests `privateStreamTypeOrError >= 0` of the code rely on. -/
inductive uGnssPrivateStreamType_t where
  | U_GNSS_PRIVATE_STREAM_TYPE_NONE
  | U_GNSS_PRIVATE_STREAM_TYPE_UART
  | U_GNSS_PRIVATE_STREAM_TYPE_I2C
  | U_GNSS_PRIVATE_STREAM_TYPE_SPI
  deriving DecidableEq

open uGnssPrivateStreamType_t

/-- The value of an `int32_t` "error code or private stream type": a negative
error code or a stream type. -/
inductive streamTypeOrError_t where
  | error (e : uErrorCommon_t)
  | streamType (t : uGnssPrivateStreamType_t)
  deriving DecidableEq

/-- The test `privateStreamTypeOrError >= 0`. -/
def streamTypeOrError_t.isStream : streamTypeOrError_t → Bool
  | .error _ => false
  | .streamType _ => true

/-- The value of an `int32_t` "error code or stream handle": a negative error
code of the function itself or the `int32_t` member of the transport handle. -/
inductive streamHandleOrError_t where
  | error (e : uErrorCommon_t)
  | handle (h : Int)
  deriving DecidableEq

/-- Modelled from the spec: the fields of `uGnssPrivateInstance_t`
(`u_gnss_private.h`, not part of the sources at hand) that the functions below
read.  `transportHandle` is the union of the `int32_t` handles `uart`, `i2c`,
`spi` and the AT client handle `pAt`, kept as one number; `featureCfgValXxx` is
the value of `U_GNSS_PRIVATE_HAS(pInstance->pModule,
U_GNSS_PRIVATE_FEATURE_CFGVALXXX)`.  The ring buffers of the instance are part
of the state that is passed along separately. -/
structure uGnssPrivateInstance_t where
  transportType : Int
  transportHandle : Int
  portNumber : Int
  timeoutMs : Int
  printUbxMessages : Bool
  spiFillThreshold : Int
  featureCfgValXxx : Bool
  deriving DecidableEq

/-- The table `gGnssPrivateTransportTypeToStream`. -/
def gGnssPrivateTransportTypeToStream : List streamTypeOrError_t :=
  [ .streamType U_GNSS_PRIVATE_STREAM_TYPE_NONE,  -- U_GNSS_TRANSPORT_NONE
    .streamType U_GNSS_PRIVATE_STREAM_TYPE_UART,  -- U_GNSS_TRANSPORT_UART
    .error U_ERROR_COMMON_INVALID_PARAMETER,      -- U_GNSS_TRANSPORT_AT
    .streamType U_GNSS_PRIVATE_STREAM_TYPE_I2C,   -- U_GNSS_TRANSPORT_I2C
    .streamType U_GNSS_PRIVATE_STREAM_TYPE_SPI,   -- U_GNSS_TRANSPORT_SPI
    .streamType U_GNSS_PRIVATE_STREAM_TYPE_UART,  -- U_GNSS_TRANSPORT_UBX_UART
    .streamType U_GNSS_PRIVATE_STREAM_TYPE_I2C ]  -- U_GNSS_TRANSPORT_UBX_I2C

/-- The function `uGnssPrivateGetStreamType(transportType)`. -/
def uGnssPrivateGetStreamType (transportType : Int) : streamTypeOrError_t :=
  if transportType ≥ 0 ∧ transportType < gGnssPrivateTransportTypeToStream.length then
    gGnssPrivateTransportTypeToStream.getD transportType.toNat
      (.error U_ERROR_COMMON_INVALID_PARAMETER)
  else .error U_ERROR_COMMON_INVALID_PARAMETER

/-- The function `uGnssPrivateGetStreamHandle(privateStreamType,
transportHandle)`; the first argument is the `int32_t` that the callers cast
to the stream type, an error code among them falling into `default`. -/
def uGnssPrivateGetStreamHandle (privateStreamType : streamTypeOrError_t)
    (transportHandle : Int) : streamHandleOrError_t :=
  match privateStreamType with
  | .streamType U_GNSS_PRIVATE_STREAM_TYPE_UART => .handle transportHandle
  | .streamType U_GNSS_PRIVATE_STREAM_TYPE_I2C => .handle transportHandle
  | .streamType U_GNSS_PRIVATE_STREAM_TYPE_SPI => .handle transportHandle
  | _ => .error U_ERROR_COMMON_INVALID_PARAMETER

/-- The test `streamHandle >= 0`. -/
def streamHandleOrError_t.isHandle : streamHandleOrError_t → Bool
  | .error _ => false
  | .handle h => decide (h ≥ 0)

/-- The function `uGnssPrivateStreamFillRingBuffer(pInstance, timeoutMs,
maxTimeMs)` on a state `σ` of the transports and the ring buffer.  `fillLoop`
is the loop `do ... while` of the function, which reads from the transport:
from the state to `errorCodeOrLength` and `totalReceiveSize` at the exit of the
loop and the state then.  `none` for `pInstance` is the NULL pointer. -/
def uGnssPrivateStreamFillRingBuffer {σ : Type}
    (fillLoop : σ → uGnssPrivateInstance_t → Int → Int → (errorCodeOrLength_t × Nat) × σ)
    (s : σ) (pInstance : Option uGnssPrivateInstance_t) (timeoutMs maxTimeMs : Int) :
    errorCodeOrLength_t × σ :=
  match pInstance with
  | none => (.error (.common U_ERROR_COMMON_INVALID_PARAMETER), s)
  | some inst =>
    let privateStreamTypeOrError := uGnssPrivateGetStreamType inst.transportType
    let streamHandle := uGnssPrivateGetStreamHandle privateStreamTypeOrError inst.transportHandle
    if streamHandle.isHandle then
      let r := fillLoop s inst timeoutMs maxTimeMs
      if r.1.2 > 0 then (.length r.1.2, r.2) else (r.1.1, r.2)
    else (.error (.common U_ERROR_COMMON_NOT_SUPPORTED), s)

/-! ## Send and receive -/

/-- Modelled from the spec: `U_UBX_PROTOCOL_OVERHEAD_LENGTH_BYTES` of
`u_ubx_protocol.h`, not part of the sources at hand: the bytes of a UBX frame
around its body (two sync bytes, class, id, two length bytes, two checksum
bytes). -/
def U_UBX_PROTOCOL_OVERHEAD_LENGTH_BYTES : Nat := 8

/-- Modelled from the spec: `U_UBX_PROTOCOL_HEADER_LENGTH_BYTES` of
`u_ubx_protocol.h`, not part of the sources at hand: the bytes of a UBX frame
before its body. -/
def U_UBX_PROTOCOL_HEADER_LENGTH_BYTES : Nat := 6

/-- The C library call `memcpy(dst, src, n)` on the contents of the storage at
`dst`: its first `n` bytes become those of `src`. -/
def memcpy (dst src : List Nat) (n : Nat) : List Nat := src.take n ++ dst.drop n

/-- The functions that the send and receive functions call and that are taken
as given; `σ` is the state of what lies outside (heap, transports, ring
buffer).
* `pUPortMalloc s n`: `none` is NULL, otherwise the content of the new storage;
* `uUbxProtocolEncode cls id pBody len`: the return value and the frame
  written to the buffer;
* `sendMessageStream s inst pMessage len printIt`;
* `uGnssPrivateReceiveStreamMessage s inst id timeoutMs`: the call of
  `receiveUbxMessageStream`, with the private read handle, `&pBuffer`, size 0
  and no callback: the return value, the content of the storage `pBuffer`
  points to afterwards and the identifier afterwards;
* `sendReceiveUbxMessageAt s atHandle pSend len response timeoutMs printIt`;
* `uGnssPrivateStreamFillRingBuffer`, `uRingBufferLockReadHandle`,
  `uRingBufferFlushHandle`, `uRingBufferUnlockReadHandle`: the calls of
  `sendReceiveUbxMessage` on the ring buffer of the instance, whose return
  values it does not look at;
* `stack`: the content of the local `privateMessageId` before it is written.
Taking and giving the transport mutex, `uPortFree` and the logging are left
out. -/
structure Env (σ : Type) where
  pUPortMalloc : σ → Nat → Option (List Nat) × σ
  uUbxProtocolEncode : Int → Int → Option (List Nat) → Nat → Int × List Nat
  sendMessageStream : σ → uGnssPrivateInstance_t → List Nat → Int → Bool →
    errorCodeOrLength_t × σ
  uGnssPrivateReceiveStreamMessage : σ → uGnssPrivateInstance_t → uGnssPrivateMessageId_t →
    Int → (errorCodeOrLength_t × List Nat × uGnssPrivateMessageId_t) × σ
  sendReceiveUbxMessageAt : σ → Int → List Nat → Int → uGnssPrivateUbxReceiveMessage_t →
    Int → Bool → (errorCodeOrLength_t × uGnssPrivateUbxReceiveMessage_t) × σ
  uGnssPrivateStreamFillRingBuffer : σ → uGnssPrivateInstance_t → σ
  uRingBufferLockReadHandle : σ → σ
  uRingBufferFlushHandle : σ → σ
  uRingBufferUnlockReadHandle : σ → σ
  stack : uGnssPrivateMessageId_t

/-- The value that `receiveUbxMessageStream` gives to `privateMessageId.id.ubx`
from `pResponse->cls` and `pResponse->id`: all ones, the class byte replaced
when `cls` is not negative and the id byte replaced when `id` is not
negative. -/
def receiveUbxWantedId (cls id : Int) : Nat :=
  let ubx : Nat := (U_GNSS_UBX_MESSAGE_CLASS_ALL <<< 8) ||| U_GNSS_UBX_MESSAGE_ID_ALL
  let ubx : Nat :=
    if cls ≥ 0 then ((ubx &&& 0x00ff) ||| ((cls % 65536).toNat <<< 8)) % 65536 else ubx
  if id ≥ 0 then ((ubx &&& 0xff00) ||| id.toNat) % 65536 else ubx

/-- The cast `(int32_t) x` of a `size_t` value: the low 32 bits of `x`, read as
a two's-complement number. -/
def int32Cast (x : Nat) : Int :=
  if x % 4294967296 < 2147483648 then ((x % 4294967296 : Nat) : Int)
  else ((x % 4294967296 : Nat) : Int) - 4294967296

/-- The function `receiveUbxMessageStream(pInstance, pResponse, timeoutMs,
printIt)`; `none` for a pointer is NULL, `response.ppBody = some none` is a
`ppBody` that points to a NULL pointer.  The result is the return value and
what `pResponse` points to afterwards.  The result is `none` when `memcpy` is
called with a negative `errorCodeOrLength`, which as a `size_t` is a count
beyond any storage and which the C language leaves undefined: this happens
when `(int32_t) pResponse->bodySize` is negative. -/
def receiveUbxMessageStream {σ : Type} (env : Env σ) (s : σ)
    (pInstance : Option uGnssPrivateInstance_t)
    (pResponse : Option uGnssPrivateUbxReceiveMessage_t) (timeoutMs : Int) :
    Option ((errorCodeOrLength_t × Option uGnssPrivateUbxReceiveMessage_t) × σ) :=
  match pInstance, pResponse with
  | some inst, some response =>
    match response.ppBody with
    | none => some ((.length 0, pResponse), s)
    | some pBody =>
      -- Convert uGnssPrivateUbxReceiveMessage_t into uGnssPrivateMessageId_t
      let r := env.uGnssPrivateReceiveStreamMessage s inst
        { env.stack with type := U_GNSS_PROTOCOL_UBX,
                         ubx := receiveUbxWantedId response.cls response.id } timeoutMs
      let pBuffer := r.1.2.1
      let privateMessageId := r.1.2.2
      match r.1.1 with
      | .error e => some ((.error e, pResponse), r.2)
      | .length n =>
        if n ≥ U_UBX_PROTOCOL_OVERHEAD_LENGTH_BYTES then
          -- Convert uGnssPrivateMessageId_t into uGnssPrivateUbxReceiveMessage_t
          let response := { response with cls := (privateMessageId.ubx >>> 8 : Nat),
                                          id := (privateMessageId.ubx &&& 0xFF : Nat) }
          -- Remove the protocol overhead from the length
          let len := n - U_UBX_PROTOCOL_OVERHEAD_LENGTH_BYTES
          match pBody with
          | none =>
            match env.pUPortMalloc r.2 len with
            | (some storage, s1) =>
              some ((.length len, some { response with ppBody := some (some
                (memcpy storage (pBuffer.drop U_UBX_PROTOCOL_HEADER_LENGTH_BYTES) len)) }), s1)
            | (none, s1) =>
              some ((.error (.common U_ERROR_COMMON_NO_MEMORY), some response), s1)
          | some body =>
            let errorCodeOrLength : Int :=
              if (len : Int) > int32Cast response.bodySize then int32Cast response.bodySize
              else (len : Int)
            if errorCodeOrLength < 0 then none
            else
              some ((.length errorCodeOrLength.toNat, some { response with ppBody := some (some
                (memcpy body (pBuffer.drop U_UBX_PROTOCOL_HEADER_LENGTH_BYTES)
                  errorCodeOrLength.toNat)) }), r.2)
        else some ((.length n, pResponse), r.2)
  | _, _ => some ((.length 0, pResponse), s)

/-- The function `sendReceiveUbxMessage(pInstance, messageClass, messageId,
pMessageBody, messageBodyLengthBytes, pResponse)`; `none` for a pointer is
NULL.  `pResponse` is read by the guard before anything else, so that it is
never NULL.  The result is the return value, what `pResponse` points to
afterwards and the state afterwards; it is `none` when the call of
`receiveUbxMessageStream` is left undefined. -/
def sendReceiveUbxMessage {σ : Type} (env : Env σ) (s : σ)
    (pInstance : Option uGnssPrivateInstance_t) (messageClass messageId : Int)
    (pMessageBody : Option (List Nat)) (messageBodyLengthBytes : Nat)
    (pResponse : uGnssPrivateUbxReceiveMessage_t) :
    Option ((errorCodeOrLength_t × uGnssPrivateUbxReceiveMessage_t) × σ) :=
  match pInstance with
  | none => some ((.error (.common U_ERROR_COMMON_INVALID_PARAMETER), pResponse), s)
  | some inst =>
    if ((pMessageBody = none ∧ messageBodyLengthBytes = 0) ∨ messageBodyLengthBytes > 0) ∧
        (pResponse.bodySize = 0 ∨ pResponse.ppBody ≠ none) then
      let privateStreamTypeOrError := uGnssPrivateGetStreamType inst.transportType
      -- Allocate a buffer big enough to encode the outgoing message
      match env.pUPortMalloc s (messageBodyLengthBytes + U_UBX_PROTOCOL_OVERHEAD_LENGTH_BYTES) with
      | (none, s1) => some ((.error (.common U_ERROR_COMMON_NO_MEMORY), pResponse), s1)
      | (some _, s1) =>
        let enc := env.uUbxProtocolEncode messageClass messageId pMessageBody
          messageBodyLengthBytes
        let bytesToSend := enc.1
        let pBuffer := enc.2
        if bytesToSend > 0 then
          let s2 :=
            if pResponse.ppBody ≠ none ∧ privateStreamTypeOrError.isStream then
              env.uRingBufferFlushHandle (env.uRingBufferLockReadHandle
                (env.uGnssPrivateStreamFillRingBuffer s1 inst))
            else s1
          let r : Option ((errorCodeOrLength_t × uGnssPrivateUbxReceiveMessage_t) × σ) :=
            if privateStreamTypeOrError.isStream then
              match env.sendMessageStream s2 inst pBuffer bytesToSend inst.printUbxMessages with
              | (.error e, s3) => some ((errorCodeOrLength_t.error e, pResponse), s3)
              | (.length _, s3) =>
                match receiveUbxMessageStream env s3 (some inst) (some pResponse)
                    inst.timeoutMs with
                | some rr => some ((rr.1.1, rr.1.2.getD pResponse), rr.2)
                | none => none
            else
              -- Not a stream, we are on AT
              some (env.sendReceiveUbxMessageAt s2 inst.transportHandle pBuffer bytesToSend
                pResponse inst.timeoutMs inst.printUbxMessages)
          -- Make sure the read handle is always unlocked afterwards
          match r with
          | some r => some (r.1, env.uRingBufferUnlockReadHandle r.2)
          | none => none
        else some ((.error (.gnss .U_GNSS_ERROR_TRANSPORT), pResponse), s1)
    else some ((.error (.common U_ERROR_COMMON_INVALID_PARAMETER), pResponse), s)

/-- An environment without state, for examples: the receive function reports
`received` whatever it is asked for, every allocation succeeds with zeroed
storage, encoding gives the UBX frame of the body, sending reports the length
it was given and the AT exchange fails. -/
def fixedEnv (received : errorCodeOrLength_t × List Nat × uGnssPrivateMessageId_t) :
    Env Unit where
  pUPortMalloc := fun s n => (some (List.replicate n 0), s)
  uUbxProtocolEncode := fun cls id pBody len =>
    ((len + 8 : Nat), ubxFrame (cls % 256).toNat (id % 256).toNat ((pBody.getD []).take len))
  sendMessageStream := fun s _ _ len _ => (.length len.toNat, s)
  uGnssPrivateReceiveStreamMessage := fun s _ _ _ => (received, s)
  sendReceiveUbxMessageAt := fun s _ _ _ r _ _ => ((.error (.gnss .U_GNSS_ERROR_TRANSPORT), r), s)
  uGnssPrivateStreamFillRingBuffer := fun s _ => s
  uRingBufferLockReadHandle := fun s => s
  uRingBufferFlushHandle := fun s => s
  uRingBufferUnlockReadHandle := fun s => s
  stack := ⟨U_GNSS_PROTOCOL_UNKNOWN, 0, [], 0⟩

/-! ## Protocol output configuration -/

/-- Modelled from the spec: `uUbxProtocolUint16Decode()` of `u_ubx_protocol.c`,
not part of the sources at hand: the little-endian 16-bit number in the two
bytes at `p`. -/
def uUbxProtocolUint16Decode (p : List Nat) : Nat :=
  p.getD 0 0 % 256 + 256 * (p.getD 1 0 % 256)

/-- Modelled from the spec: `uUbxProtocolUint64Decode()` of `u_ubx_protocol.c`,
not part of the sources at hand: the little-endian 64-bit number in the eight
bytes at `p`. -/
def uUbxProtocolUint64Decode (p : List Nat) : Nat :=
  (p.take 8).foldr (fun b acc => b % 256 + 256 * acc) 0

/-- Modelled from the spec: the numbers behind the values of `uGnssProtocol_t`
(`u_gnss_type.h`, not part of the sources at hand).  The comments of the table
`gProtocolTypeToCfgValItemIdOutProt` number UBX 0, NMEA 1 and RTCM 2; the
numbers of the remaining values, which the sources at hand do not show, are
given by `other`. -/
def uGnssProtocolValue (other : uGnssProtocol_t → Nat) : uGnssProtocol_t → Nat
  | U_GNSS_PROTOCOL_UBX => 0
  | U_GNSS_PROTOCOL_NMEA => 1
  | U_GNSS_PROTOCOL_RTCM => 2
  | p => other p

/-- The new value of `mask` in `setProtocolOutUbxCfgPrt` (the statement
`if (protocol == U_GNSS_PROTOCOL_ALL) ... else ...`), from the value decoded
from the polled frame.  `1 << protocol` is an `int`, of which the 32 bits are
kept; `mask` is a `uint16_t`, of which 16 bits are kept. -/
def cfgPrtMask (other : uGnssProtocol_t → Nat) (mask : Nat) (protocol : uGnssProtocol_t)
    (onNotOff : Bool) : Nat :=
  if protocol = U_GNSS_PROTOCOL_ALL then
    0xFFFF -- Everything out
  else
    -- RTCM is the odd one out
    let protocol : Nat :=
      if protocol = U_GNSS_PROTOCOL_RTCM then 5 else uGnssProtocolValue other protocol
    if onNotOff then
      (mask ||| ((1 <<< protocol) % 4294967296)) % 65536
    else
      (mask &&& (0xFFFFFFFF ^^^ ((1 <<< protocol) % 4294967296))) % 65536

/-- The statement `*((uint16_t *) &(message[14])) = uUbxProtocolUint16Encode(mask)`
of `setProtocolOutUbxCfgPrt`: the bytes 14 and 15 of `message` become the
little-endian form of `mask` (`uUbxProtocolUint16Encode()` is modelled from the
spec, `u_ubx_protocol.c` not being part of the sources at hand). -/
def cfgPrtStoreMask (message : List Nat) (mask : Nat) : List Nat :=
  (message.set 14 (mask % 256)).set 15 (mask / 256 % 256)

/-- The end of `setProtocolOutUbxCfgPrt`, from the sending of the updated
frame `message` on: the frame is sent without waiting for a response, the
counter of received messages is polled again and compared with its earlier
value `x` (a `uint64_t`).  The first argument is the call
`uGnssPrivateSendReceiveUbxMessage`, see `setProtocolOutUbxCfgPrt`.
`uPortTaskBlock` is left out. -/
def cfgPrtSendAndCheck {σ : Type}
    (uGnssPrivateSendReceiveUbxMessage : σ → uGnssPrivateInstance_t → Int → Int →
      Option (List Nat) → Nat → Option (List Nat) → Nat → (errorCodeOrLength_t × List Nat) × σ)
    (s : σ) (pInstance : uGnssPrivateInstance_t) (x : Nat) (message : List Nat) :
    errorCodeOrLength_t × σ :=
  -- Send the message and don't wait for response or ack
  let r3 := uGnssPrivateSendReceiveUbxMessage s pInstance 0x06 0x00 (some message) 20 none 0
  let errorCode := r3.1.1
  -- Get the number of received messages again
  let r4 := uGnssPrivateSendReceiveUbxMessage r3.2 pInstance 0x0a 0x06 none 0
    (some message) 120
  if r4.1.1 = .length 120 then
    let message := r4.1.2
    let x := (uUbxProtocolUint64Decode
      (message.drop ((pInstance.portNumber % 4294967296).toNat * 16)) +
        18446744073709551616 - x) % 18446744073709551616
    -- Should be three: UBX-MON-MSGPP, the poll for UBX-CFG-PRT
    -- and then the UBX-CFG-PRT setting command itself.
    if x = 3 then (.length 0, r4.2) -- U_ERROR_COMMON_SUCCESS
    else (errorCode, r4.2)
  else (errorCode, r4.2)

/-- The function `setProtocolOutUbxCfgPrt(pInstance, protocol, onNotOff)` on a
state `σ` of what lies outside.  The first argument is the call
`uGnssPrivateSendReceiveUbxMessage(pInstance, messageClass, messageId,
pMessageBody, messageBodyLengthBytes, pResponseBody,
maxResponseBodyLengthBytes)`: a pointer is given by the content of the storage
it points to (`none` for NULL), the result is the return value and the content
of the storage behind `pResponseBody` afterwards. -/
def setProtocolOutUbxCfgPrt {σ : Type}
    (uGnssPrivateSendReceiveUbxMessage : σ → uGnssPrivateInstance_t → Int → Int →
      Option (List Nat) → Nat → Option (List Nat) → Nat → (errorCodeOrLength_t × List Nat) × σ)
    (other : uGnssProtocol_t → Nat) (s : σ) (pInstance : uGnssPrivateInstance_t)
    (protocol : uGnssProtocol_t) (onNotOff : Bool) : errorCodeOrLength_t × σ :=
  -- Message buffer for the 120-byte UBX-MON-MSGPP message
  let message : List Nat := List.replicate 120 0
  let r1 := uGnssPrivateSendReceiveUbxMessage s pInstance 0x0a 0x06 none 0 (some message) 120
  if r1.1.1 = .length 120 then
    let message := r1.1.2
    -- Get the number of messages received on the port
    let x := uUbxProtocolUint64Decode
      (message.drop ((pInstance.portNumber % 4294967296).toNat * 16))
    -- Now poll the GNSS chip for UBX-CFG-PRT
    let message := message.set 0 (pInstance.portNumber % 256).toNat
    let r2 := uGnssPrivateSendReceiveUbxMessage r1.2 pInstance 0x06 0x00 (some message) 1
      (some message) 20
    if r2.1.1 = .length 20 then
      let message := r2.1.2
      -- Offsets 14 and 15 contain the output protocol bit-map
      let mask := uUbxProtocolUint16Decode (message.drop 14)
      let mask := cfgPrtMask other mask protocol onNotOff
      let message := cfgPrtStoreMask message mask
      cfgPrtSendAndCheck uGnssPrivateSendReceiveUbxMessage r2.2 pInstance x message
    else (.error (.common U_ERROR_COMMON_PLATFORM), r2.2)
  else (.error (.common U_ERROR_COMMON_PLATFORM), r1.2)

/-- The function `uGnssPrivateSetProtocolOut(pInstance, protocol, onNotOff)`;
`none` for `pInstance` is NULL.  `setProtocolOutUbxCfgVal` is the procedure of
that name, taken as given. -/
def uGnssPrivateSetProtocolOut {σ : Type}
    (setProtocolOutUbxCfgVal : σ → uGnssPrivateInstance_t → uGnssProtocol_t → Bool →
      errorCodeOrLength_t × σ)
    (uGnssPrivateSendReceiveUbxMessage : σ → uGnssPrivateInstance_t → Int → Int →
      Option (List Nat) → Nat → Option (List Nat) → Nat → (errorCodeOrLength_t × List Nat) × σ)
    (other : uGnssProtocol_t → Nat) (s : σ) (pInstance : Option uGnssPrivateInstance_t)
    (protocol : uGnssProtocol_t) (onNotOff : Bool) : errorCodeOrLength_t × σ :=
  match pInstance with
  | none => (.error (.common U_ERROR_COMMON_INVALID_PARAMETER), s)
  | some inst =>
    if inst.transportType ≠ U_GNSS_TRANSPORT_AT ∧
        (onNotOff = true ∨
          (protocol ≠ U_GNSS_PROTOCOL_ALL ∧ protocol ≠ U_GNSS_PROTOCOL_UBX)) then
      if inst.featureCfgValXxx then setProtocolOutUbxCfgVal s inst protocol onNotOff
      else setProtocolOutUbxCfgPrt uGnssPrivateSendReceiveUbxMessage other s inst protocol
        onNotOff
    else (.error (.common U_ERROR_COMMON_INVALID_PARAMETER), s)

/-- The function `uGnssPrivateGetProtocolOut(pInstance)`; `none` for
`pInstance` is NULL.  `getProtocolOutUbxCfgVal` and `getProtocolOutUbxCfgPrt`
are the procedures of those names, taken as given; a bit-map is returned as a
length. -/
def uGnssPrivateGetProtocolOut {σ : Type}
    (getProtocolOutUbxCfgVal getProtocolOutUbxCfgPrt : σ → uGnssPrivateInstance_t →
      errorCodeOrLength_t × σ)
    (s : σ) (pInstance : Option uGnssPrivateInstance_t) : errorCodeOrLength_t × σ :=
  match pInstance with
  | none => (.error (.common U_ERROR_COMMON_NOT_INITIALISED), s)
  | some inst =>
    if inst.transportType ≠ U_GNSS_TRANSPORT_AT then
      if inst.featureCfgValXxx then getProtocolOutUbxCfgVal s inst
      else getProtocolOutUbxCfgPrt s inst
    else (.error (.common U_ERROR_COMMON_NOT_SUPPORTED), s)

/-! ## SPI fill -/

/-- Modelled from the spec: `U_GNSS_PRIVATE_SPI_FILL` of `u_gnss_private.h`, not
part of the sources at hand: the filler byte 0xFF. -/
def U_GNSS_PRIVATE_SPI_FILL : Nat := 0xFF

/-- The loop `for (x = 0; (x < size) && (*pTmp == U_GNSS_PRIVATE_SPI_FILL); x++)`
of `uGnssPrivateSpiAddReceivedData`: the number of times `pTmp` is moved on,
from `size` and the bytes at `pTmp`. -/
def spiFillCount : Nat → List Nat → Nat
  | 0, _ => 0
  | _ + 1, [] => 0
  | size + 1, b :: bs => if b = U_GNSS_PRIVATE_SPI_FILL then spiFillCount size bs + 1 else 0

/-- The function `uGnssPrivateSpiAddReceivedData(pInstance, pBuffer, size)`;
`none` for a pointer is NULL.  The SPI ring buffer `pInstance->pSpiRingBuffer`
is the argument `pSpiRingBuffer`, of a type `ρ` on which the three functions of
`u_ringbuffer.c` that are called are taken as given; `uRingBufferForceAdd` gets
the bytes it is asked to add.  The result is the return value and the ring
buffer afterwards. -/
def uGnssPrivateSpiAddReceivedData {ρ : Type}
    (uRingBufferForceAdd : ρ → List Nat → ρ)
    (uRingBufferFlushValue : ρ → Nat → Int → ρ)
    (uRingBufferDataSize : ρ → Nat)
    (pInstance : Option uGnssPrivateInstance_t) (pSpiRingBuffer : Option ρ)
    (pBuffer : Option (List Nat)) (size : Nat) : errorCodeOrLength_t × Option ρ :=
  match pInstance, pSpiRingBuffer, pBuffer with
  | some inst, some ringBuffer, some buffer =>
    if size > 0 then
      let y : Nat :=
        if inst.spiFillThreshold > 0 ∧ (size : Int) ≥ inst.spiFillThreshold then
          -- Check if all we have is fill and chuck stuff away if so
          let y := spiFillCount size buffer
          if (y : Int) ≥ inst.spiFillThreshold then y else 0
        else 0
      -- pBuffer += y; size -= y;
      let buffer := buffer.drop y
      let size := size - y
      -- Do a forced add so we always keep the most recent data
      let ringBuffer := uRingBufferForceAdd ringBuffer (buffer.take size)
      let ringBuffer :=
        if inst.spiFillThreshold > 0 then
          uRingBufferFlushValue ringBuffer U_GNSS_PRIVATE_SPI_FILL inst.spiFillThreshold
        else ringBuffer
      (.length (uRingBufferDataSize ringBuffer), some ringBuffer)
    else (.error (.common U_ERROR_COMMON_INVALID_PARAMETER), pSpiRingBuffer)
  | _, _, _ => (.error (.common U_ERROR_COMMON_INVALID_PARAMETER), pSpiRingBuffer)

/-! ## Inside a cellular module -/

/-- Whether the string `s` begins with the string `t`. -/
def strStartsWith : List Nat → List Nat → Bool
  | _, [] => true
  | [], _ :: _ => false
  | a :: s, b :: t => a = b && strStartsWith s t

/-- The C library call `strstr(haystack, needle) != NULL` on the characters of
the two strings, terminators left out: whether `needle` occurs in `haystack`. -/
def strstr : List Nat → List Nat → Bool
  | [], needle => strStartsWith [] needle
  | a :: haystack, needle => strStartsWith (a :: haystack) needle || strstr haystack needle

/-- The function `uGnssPrivateIsInsideCell(pInstance)`; `none` for `pInstance`
is NULL.  `atiQuery` is the exchange with the AT client, from
`uAtClientLock` to `uAtClientUnlock`, on the handle
`pInstance->transportHandle.pAt`: the value `bytesRead` of
`uAtClientReadBytes`, the return value of `uAtClientUnlock` and the content of
the 64 bytes of `buffer` afterwards. -/
def uGnssPrivateIsInsideCell (atiQuery : Int → Int × Int × List Nat)
    (pInstance : Option uGnssPrivateInstance_t) : Bool :=
  match pInstance with
  | none => false
  | some inst =>
    if inst.transportType = U_GNSS_TRANSPORT_AT then
      -- Simplest way to check is to send ATI and see if it includes an "M8"
      let r := atiQuery inst.transportHandle
      let bytesRead := r.1
      let unlocked := r.2.1
      let buffer := r.2.2
      if unlocked = 0 ∧ bytesRead > 0 then
        -- Add a terminator
        let buffer := buffer.set bytesRead.toNat 0
        strstr [0x4D, 0x38] (cString buffer)
      else false
    else false

/-- For examples: a GNSS chip on port 1 that counts the messages it receives
(the state) and that misses every UBX-CFG-PRT command of 20 bytes.  It answers
UBX-MON-MSGPP (0x0a 0x06) with 120 bytes holding its counter at offset 16 and a
UBX-CFG-PRT poll (0x06 0x00 with a body of one byte) with a 20-byte frame of
bit-map 0x0003; the call that sends the 20-byte command and wants no response
returns 0. -/
def lossyChip (s : Nat) (_ : uGnssPrivateInstance_t) (messageClass messageId : Int)
    (_ : Option (List Nat)) (messageBodyLengthBytes : Nat) (pResponseBody : Option (List Nat))
    (_ : Nat) : (errorCodeOrLength_t × List Nat) × Nat :=
  if messageClass = 0x0a ∧ messageId = 0x06 then
    ((.length 120, (List.replicate 120 0).set 16 ((s + 1) % 256)), s + 1)
  else if messageBodyLengthBytes = 1 then
    ((.length 20, [1, 0, 0, 0, 0xC0, 0x08, 0, 0, 0x80, 0x25, 0, 0, 7, 0, 3, 0, 0, 0, 0, 0] ++
      (pResponseBody.getD []).drop 20), s + 1)
  else ((.length 0, []), s)

/-- For examples: a GNSS chip on port 1 whose state is the list of the messages
sent to it so far (class, id, body).  It answers UBX-MON-MSGPP (0x0a 0x06) with
120 bytes holding the number of messages received at offset 16 and a
UBX-CFG-PRT poll (0x06 0x00 with a body of one byte) with a 20-byte frame of
bit-map 0x0003; any other call, which wants no response, returns 0. -/
def recordingChip (s : List (Int × Int × List Nat)) (_ : uGnssPrivateInstance_t)
    (messageClass messageId : Int) (pMessageBody : Option (List Nat))
    (messageBodyLengthBytes : Nat) (pResponseBody : Option (List Nat)) (_ : Nat) :
    (errorCodeOrLength_t × List Nat) × List (Int × Int × List Nat) :=
  let s1 := s ++ [(messageClass, messageId, (pMessageBody.getD []).take messageBodyLengthBytes)]
  if messageClass = 0x0a ∧ messageId = 0x06 then
    ((.length 120, (List.replicate 120 0).set 16 (s1.length % 256)), s1)
  else if messageBodyLengthBytes = 1 then
    ((.length 20, [1, 0, 0, 0, 0xC0, 0x08, 0, 0, 0x80, 0x25, 0, 0, 7, 0, 3, 0, 0, 0, 0, 0] ++
      (pResponseBody.getD []).drop 20), s1)
  else ((.length 0, []), s1)

/-- The call `uGnssPrivateSendReceiveUbxMessage` with a record kept of what it
is given to send: the state is paired with the list of the messages handed to
the call so far, each as its class, its id and the first
`messageBodyLengthBytes` bytes of its body (none for a NULL body).  The call
itself is made as it is. -/
def recordCalls {σ : Type}
    (uGnssPrivateSendReceiveUbxMessage : σ → uGnssPrivateInstance_t → Int → Int →
      Option (List Nat) → Nat → Option (List Nat) → Nat → (errorCodeOrLength_t × List Nat) × σ)
    (s : σ × List (Int × Int × List Nat)) (pInstance : uGnssPrivateInstance_t)
    (messageClass messageId : Int) (pMessageBody : Option (List Nat))
    (messageBodyLengthBytes : Nat) (pResponseBody : Option (List Nat))
    (maxResponseBodyLengthBytes : Nat) :
    (errorCodeOrLength_t × List Nat) × (σ × List (Int × Int × List Nat)) :=
  let r := uGnssPrivateSendReceiveUbxMessage s.1 pInstance messageClass messageId pMessageBody
    messageBodyLengthBytes pResponseBody maxResponseBodyLengthBytes
  (r.1, (r.2, s.2 ++ [(messageClass, messageId,
    (pMessageBody.getD []).take messageBodyLengthBytes)]))

/-- The bit-map that `getProtocolOutUbxCfgPrt` makes of the 16-bit number
decoded from offsets 14 and 15 of the polled frame (an `int32_t`): bit 5, the
one the chip uses for RTCM, is moved to bit `U_GNSS_PROTOCOL_RTCM`.  `none` is
the branch for a negative number, which sets the platform error. -/
def cfgPrtBitMap (other : uGnssProtocol_t → Nat) (errorCodeOrBitMap : Nat) : Option Nat :=
  if errorCodeOrBitMap < 2147483648 then
    -- Handle RTCM, the odd one out
    if errorCodeOrBitMap &&& (1 <<< 5) ≠ 0 then
      some (((errorCodeOrBitMap &&& (0xFFFFFFFF ^^^ (1 <<< 5))) |||
        (1 <<< uGnssProtocolValue other U_GNSS_PROTOCOL_RTCM)) % 4294967296)
    else some errorCodeOrBitMap
  else none

/-- The function `getProtocolOutUbxCfgPrt(pInstance)` on a state `σ` of what
lies outside; the first argument is the call
`uGnssPrivateSendReceiveUbxMessage`, see `setProtocolOutUbxCfgPrt`.  A bit-map
is returned as a length. -/
def getProtocolOutUbxCfgPrt {σ : Type}
    (uGnssPrivateSendReceiveUbxMessage : σ → uGnssPrivateInstance_t → Int → Int →
      Option (List Nat) → Nat → Option (List Nat) → Nat → (errorCodeOrLength_t × List Nat) × σ)
    (other : uGnssProtocol_t → Nat) (s : σ) (pInstance : uGnssPrivateInstance_t) :
    errorCodeOrLength_t × σ :=
  -- Message buffer for the 20-byte UBX-CFG-PRT message
  let message : List Nat := List.replicate 20 0
  -- Poll the GNSS chip with UBX-CFG-PRT
  let message := message.set 0 (pInstance.portNumber % 256).toNat
  let r := uGnssPrivateSendReceiveUbxMessage s pInstance 0x06 0x00 (some message) 1
    (some message) 20
  if r.1.1 = .length 20 then
    let message := r.1.2
    -- Offsets 14 and 15 contain the output protocol bit-map
    match cfgPrtBitMap other (uUbxProtocolUint16Decode (message.drop 14)) with
    | some errorCodeOrBitMap => (.length errorCodeOrBitMap, r.2)
    | none => (.error (.common U_ERROR_COMMON_PLATFORM), r.2)
  else (.error (.common U_ERROR_COMMON_PLATFORM), r.2)

/-! ## The parser list in any order -/

/-- The parsers of a parser list tried in turn on the same bytes until one
returns something other than NotFound, the way `tryParserList` does for the
list `{parseUbx, parseNmea, parseRtcm}` of
`uGnssPrivateStreamDecodeRingBuffer`; the result of the last parser stands
when all return NotFound. -/
def tryParsers :
    List (uParseHandle_t → uGnssPrivateMessageId_t → ParseOutcome) → uParseHandle_t →
      uGnssPrivateMessageId_t → ParseOutcome
  | [], h, msg => ⟨U_ERROR_COMMON_NOT_FOUND, h, msg⟩
  | [p], h, msg => p h msg
  | p :: q :: ps, h, msg =>
    let r := p h msg
    if r.code ≠ U_ERROR_COMMON_NOT_FOUND then r else tryParsers (q :: ps) h r.msgId

/-! ## Read attempts of the RTCM parser -/

/-- The number of calls of `uRingBufferGetByteUnprotected` that the loop
`for (x = 2; (x >= 0) && get(&by); x--)` of `parseRtcm` makes; the arguments
are those of `parseRtcmCompare`. -/
def parseRtcmCompareReads (crc : Nat) : Nat → uParseHandle_t → Nat
  | 0, _ => 0
  | x + 1, h =>
    match uRingBufferGetByteUnprotected h with
    | none => 1
    | some (b, h1) =>
      if b ≠ (crc >>> (8 * x)) % 256 then 1
      else 1 + parseRtcmCompareReads crc x h1

/-- The number of calls of `uRingBufferGetByteUnprotected` that
`parseRtcm(parseHandle, pUserParam)` makes, a failed call counting like any
other: `parseRtcm` with its return value replaced by the count.  The body loop
`while (l--)` makes one call each time round. -/
def parseRtcmReads (parseHandle : uParseHandle_t) : Nat :=
  match uRingBufferGetByteUnprotected parseHandle with
  | none => 1
  | some (b0, h1) =>
    if 0xD3 ≠ b0 then 1
    else
      let crc := RTCM_CRC 0 b0
      match uRingBufferGetByteUnprotected h1 with
      | none => 2
      | some (b1, h2) =>
        if (0xFC &&& b1) ≠ 0 then 2
        else
          let l := ((b1 &&& 0x3) <<< 8) % 65536
          let crc := RTCM_CRC crc b1
          match uRingBufferGetByteUnprotected h2 with
          | none => 3
          | some (b2, h3) =>
            let l := (l + b2) % 65536
            if l > uRingBufferBytesAvailableUnprotected h3 + 3 then 3
            else
              let crc := RTCM_CRC crc b2
              match uRingBufferGetByteUnprotected h3 with
              | none => 4
              | some (idLo, h4) =>
                let l := (l + 65535) % 65536
                let crc := RTCM_CRC crc idLo
                match uRingBufferGetByteUnprotected h4 with
                | none => 5
                | some (idHi, h5) =>
                  let l := (l + 65535) % 65536
                  let crc := RTCM_CRC crc idHi
                  let s1 := parseRtcmBody l ⟨h5, crc, b2⟩
                  5 + l + parseRtcmCompareReads s1.crc 3 s1.handle

/-- What two runs of a parser list have in common when they give the same
result: the return code, the identifier written and, unless the code is
NotFound, the cursor (a cursor left behind by a parser that returned NotFound
is not looked at: the next parser starts again from the bytes it was given). -/
def sameParseResult (a b : ParseOutcome) : Prop :=
  a.code = b.code ∧ a.msgId = b.msgId ∧
    (a.code ≠ U_ERROR_COMMON_NOT_FOUND → a.handle = b.handle)

instance (a b : ParseOutcome) : Decidable (sameParseResult a b) := by
  unfold sameParseResult; infer_instance

/-! ## Protocol output configuration, key/value -/

/-- Modelled from the spec: the values of `uGnssCfgValKeyGroupId_t`
(`u_gnss_cfg_val_key.h`, not part of the sources at hand) that the table
`gPortToCfgValGroupIdOutProt` holds. -/
inductive uGnssCfgValKeyGroupId_t where
  | U_GNSS_CFG_VAL_KEY_GROUP_ID_I2COUTPROT
  | U_GNSS_CFG_VAL_KEY_GROUP_ID_UART1OUTPROT
  | U_GNSS_CFG_VAL_KEY_GROUP_ID_UART2OUTPROT
  | U_GNSS_CFG_VAL_KEY_GROUP_ID_USBOUTPROT
  | U_GNSS_CFG_VAL_KEY_GROUP_ID_SPIOUTPROT
  deriving DecidableEq

open uGnssCfgValKeyGroupId_t

/-- Modelled from the spec: the numbers behind the constants of
`u_gnss_cfg_val_key.h` and `u_gnss_cfg.h`, not part of the sources at hand,
that the key/value procedures use: the numbers of the group IDs, the layer
`U_GNSS_CFG_VAL_LAYER_RAM`, the wild-card item ID and the five size tags of a
key.  The procedures take them as given. -/
structure CfgValConstants where
  groupId : uGnssCfgValKeyGroupId_t → Nat
  U_GNSS_CFG_VAL_LAYER_RAM : Nat
  U_GNSS_CFG_VAL_KEY_ITEM_ID_ALL : Nat
  U_GNSS_CFG_VAL_KEY_SIZE_ONE_BIT : Nat
  U_GNSS_CFG_VAL_KEY_SIZE_ONE_BYTE : Nat
  U_GNSS_CFG_VAL_KEY_SIZE_TWO_BYTES : Nat
  U_GNSS_CFG_VAL_KEY_SIZE_FOUR_BYTES : Nat
  U_GNSS_CFG_VAL_KEY_SIZE_EIGHT_BYTES : Nat

/-- The table `gPortToCfgValGroupIdOutProt`. -/
def gPortToCfgValGroupIdOutProt : List uGnssCfgValKeyGroupId_t :=
  [ U_GNSS_CFG_VAL_KEY_GROUP_ID_I2COUTPROT,   -- 0: I2C
    U_GNSS_CFG_VAL_KEY_GROUP_ID_UART1OUTPROT, -- 1: UART/UART1
    U_GNSS_CFG_VAL_KEY_GROUP_ID_UART2OUTPROT, -- 2: UART/UART2
    U_GNSS_CFG_VAL_KEY_GROUP_ID_USBOUTPROT,   -- 3: USB
    U_GNSS_CFG_VAL_KEY_GROUP_ID_SPIOUTPROT ]  -- 4: SPI

/-- The table `gProtocolTypeToCfgValItemIdOutProt`. -/
def gProtocolTypeToCfgValItemIdOutProt : List Nat :=
  [ 1, -- 0: U_GNSS_PROTOCOL_UBX
    2, -- 1: U_GNSS_PROTOCOL_NMEA
    4 ] -- 2: U_GNSS_PROTOCOL_RTCM

/-- The table `gCfgValItemIdOutProtToProtocolType`; `none` is the entry -1. -/
def gCfgValItemIdOutProtToProtocolType : List (Option uGnssProtocol_t) :=
  [ none,
    some U_GNSS_PROTOCOL_UBX,    -- 1: UBX
    some U_GNSS_PROTOCOL_NMEA,   -- 2: NMEA
    none,
    some U_GNSS_PROTOCOL_RTCM ]  -- 4: RTCM

/-- Modelled from the spec: `uUbxProtocolUint32Encode()` of `u_ubx_protocol.c`,
not part of the sources at hand, together with the store through
`(uint32_t *)`: the four bytes of the little-endian form of a 32-bit number. -/
def uUbxProtocolUint32Encode (x : Nat) : List Nat :=
  [x % 256, x / 256 % 256, x / 65536 % 256, x / 16777216 % 256]

/-- Modelled from the spec: `uUbxProtocolUint32Decode()` of `u_ubx_protocol.c`,
not part of the sources at hand: the little-endian 32-bit number in the four
bytes at `p`. -/
def uUbxProtocolUint32Decode (p : List Nat) : Nat :=
  (p.take 4).foldr (fun b acc => b % 256 + 256 * acc) 0

/-- The function `packUbxCfgValLogicalEntry(pMessage, groupId, itemId,
onNotOff)`: the five bytes it writes at `pMessage`; its return value is their
number. -/
def packUbxCfgValLogicalEntry (groupId itemId : Nat) (onNotOff : Bool) : List Nat :=
  let keyId := ((0x10 <<< 24) ||| ((groupId &&& 0xFF) <<< 16) ||| (itemId % 65536)) % 4294967296
  uUbxProtocolUint32Encode keyId ++ [if onNotOff then 1 else 0]

/-- The function `setProtocolOutUbxCfgVal(pInstance, protocol, onNotOff)` on a
state `σ` of what lies outside.  `uGnssPrivateSendUbxMessage` is the call of
that function with the instance, the class, the id, the bytes of the body and
its length.  `message` is the part of the local buffer written so far, so that
`pMessage - message` is its length.  The port number is an `int32_t` compared
with a `size_t`: a negative one is not below the size of the table. -/
def setProtocolOutUbxCfgVal {σ : Type} (k : CfgValConstants)
    (uGnssPrivateSendUbxMessage : σ → uGnssPrivateInstance_t → Int → Int → List Nat → Nat →
      errorCodeOrLength_t × σ)
    (other : uGnssProtocol_t → Nat) (s : σ) (pInstance : uGnssPrivateInstance_t)
    (protocol : uGnssProtocol_t) (onNotOff : Bool) : errorCodeOrLength_t × σ :=
  if 0 ≤ pInstance.portNumber ∧ pInstance.portNumber < gPortToCfgValGroupIdOutProt.length then
    let groupId := k.groupId (gPortToCfgValGroupIdOutProt.getD pInstance.portNumber.toNat
      U_GNSS_CFG_VAL_KEY_GROUP_ID_I2COUTPROT)
    -- Assemble the 4-byte UBX-CFG-VALSET message header
    let message : List Nat := [0, k.U_GNSS_CFG_VAL_LAYER_RAM % 256, 0, 0]
    -- Add the key/value pairs
    let r : List Nat × uErrorCommon_t :=
      if protocol = U_GNSS_PROTOCOL_ALL then
        (gProtocolTypeToCfgValItemIdOutProt.foldl
          (fun message itemId => message ++ packUbxCfgValLogicalEntry groupId itemId onNotOff)
          message, U_ERROR_COMMON_PLATFORM)
      else if uGnssProtocolValue other protocol < gProtocolTypeToCfgValItemIdOutProt.length then
        (message ++ packUbxCfgValLogicalEntry groupId
          (gProtocolTypeToCfgValItemIdOutProt.getD (uGnssProtocolValue other protocol) 0)
          onNotOff, U_ERROR_COMMON_INVALID_PARAMETER)
      else (message, U_ERROR_COMMON_INVALID_PARAMETER)
    let message := r.1
    let messageSizeBytes := message.length
    if messageSizeBytes > 4 then
      -- Have something worth sending, send UBX-CFG-VALSET
      uGnssPrivateSendUbxMessage s pInstance 0x06 0x8a message messageSizeBytes
    else (.error (.common r.2), s)
  else (.error (.common U_ERROR_COMMON_PLATFORM), s)

/-- The statement `switch (y >> 28)` of `getProtocolOutUbxCfgVal`: the number
of bytes `pMessage` is moved on by for a size tag. -/
def cfgValSize (k : CfgValConstants) (tag : Nat) : Nat :=
  if tag = k.U_GNSS_CFG_VAL_KEY_SIZE_ONE_BIT then 1
  else if tag = k.U_GNSS_CFG_VAL_KEY_SIZE_ONE_BYTE then 1
  else if tag = k.U_GNSS_CFG_VAL_KEY_SIZE_TWO_BYTES then 2
  else if tag = k.U_GNSS_CFG_VAL_KEY_SIZE_FOUR_BYTES then 4
  else if tag = k.U_GNSS_CFG_VAL_KEY_SIZE_EIGHT_BYTES then 8
  else 0

/-- How the loop `while` of `getProtocolOutUbxCfgVal` ends.  `done` is the
condition of the loop being false, with `errorCodeOrBitMap` and the offsets in
the response at which a key was decoded; `outside` is a turn of the loop about
to decode a key at an offset where the four bytes are not all inside the
received response, which the C language leaves undefined; `bound` is the bound
on the turns being reached. -/
inductive CfgValLoopExit where
  | done (errorCodeOrBitMap : Nat) (visited : List Nat)
  | outside (offset : Nat) (visited : List Nat)
  | bound
  deriving DecidableEq

/-- The loop `while (messageSizeBytes - (pMessage - pMessageIn) >= 4 + 1)` of
`getProtocolOutUbxCfgVal`.  `messageIn` is the storage at `pMessageIn`,
`offset` is `pMessage - pMessageIn`; the subtraction is one of `size_t`, taken
as 32 bits wide.  The first of the numeric arguments bounds the turns. -/
def cfgValLoop (k : CfgValConstants) (other : uGnssProtocol_t → Nat) (keyId : Nat)
    (messageIn : List Nat) (messageSizeBytes : Nat) :
    Nat → Nat → Nat → List Nat → CfgValLoopExit
  | 0, _, _, _ => .bound
  | turns + 1, offset, errorCodeOrBitMap, visited =>
    if (messageSizeBytes + 4294967296 - offset) % 4294967296 ≥ 4 + 1 then
      if offset + 4 > messageSizeBytes then .outside offset visited
      else
        let y := uUbxProtocolUint32Decode (messageIn.drop offset)
        let pMessage := offset + 4
        let item := gCfgValItemIdOutProtToProtocolType.getD (y &&& 0xFF) none
        let errorCodeOrBitMap :=
          if y &&& 0xFFFF0000 = keyId &&& 0xFFFF0000 ∧
              y &&& 0xFF < gCfgValItemIdOutProtToProtocolType.length ∧ item.isSome then
            if messageIn.getD pMessage 0 ≠ 0 then
              errorCodeOrBitMap |||
                (1 <<< uGnssProtocolValue other (item.getD U_GNSS_PROTOCOL_UBX))
            else errorCodeOrBitMap
          else errorCodeOrBitMap
        -- Do a proper increment of the pointer, based on the key ID
        let pMessage := pMessage + cfgValSize k (y >>> 28)
        cfgValLoop k other keyId messageIn messageSizeBytes turns pMessage errorCodeOrBitMap
          (visited ++ [offset])
    else .done errorCodeOrBitMap visited

/-- The function `getProtocolOutUbxCfgVal(pInstance)` on a state `σ` of what
lies outside.  `uGnssPrivateSendReceiveUbxMessageAlloc` is the call of that
function with the instance, the class, the id, the bytes of the body and its
length: its return value and the storage that `pMessageIn` points to
afterwards (`none` for NULL).  A bit-map is returned as a length.  The result
is `none` when the loop leaves the received response, which the C language
leaves undefined; the bound on its turns, the length of the response, is never
reached. -/
def getProtocolOutUbxCfgVal {σ : Type} (k : CfgValConstants)
    (uGnssPrivateSendReceiveUbxMessageAlloc : σ → uGnssPrivateInstance_t → Int → Int →
      List Nat → Nat → (errorCodeOrLength_t × Option (List Nat)) × σ)
    (other : uGnssProtocol_t → Nat) (s : σ) (pInstance : uGnssPrivateInstance_t) :
    Option (errorCodeOrLength_t × σ) :=
  -- The 4-byte message header is all zeroes
  if 0 ≤ pInstance.portNumber ∧ pInstance.portNumber < gPortToCfgValGroupIdOutProt.length then
    let keyId := ((0x10 <<< 24) |||
      ((k.groupId (gPortToCfgValGroupIdOutProt.getD pInstance.portNumber.toNat
        U_GNSS_CFG_VAL_KEY_GROUP_ID_I2COUTPROT) &&& 0xFF) <<< 16) |||
      k.U_GNSS_CFG_VAL_KEY_ITEM_ID_ALL) % 4294967296
    let messageOut := [0, 0, 0, 0] ++ uUbxProtocolUint32Encode keyId
    -- Send it off and wait for the response
    let r := uGnssPrivateSendReceiveUbxMessageAlloc s pInstance 0x06 0x8b messageOut
      messageOut.length
    match r.1.1, r.1.2 with
    | .length n, some messageIn =>
      -- 4 below since there must be at least four bytes of header
      if n > 4 then
        match cfgValLoop k other keyId messageIn n n 4 0 [] with
        | .done errorCodeOrBitMap _ => some (.length errorCodeOrBitMap, r.2)
        | _ => none
      else some (.error (.common U_ERROR_COMMON_PLATFORM), r.2)
    | _, _ => some (.error (.common U_ERROR_COMMON_PLATFORM), r.2)
  else some (.error (.common U_ERROR_COMMON_PLATFORM), s)

/-- For examples: the constants as the u-blox interface description has them:
the group IDs 0x72, 0x74, 0x76, 0x78 and 0x7a of the output protocol keys of
I2C, UART1, UART2, USB and SPI, the layer RAM 1, the wild-card item ID 0xFFFF
and the size tags 1 to 5. -/
def ubloxCfgVal : CfgValConstants where
  groupId
    | U_GNSS_CFG_VAL_KEY_GROUP_ID_I2COUTPROT => 0x72
    | U_GNSS_CFG_VAL_KEY_GROUP_ID_UART1OUTPROT => 0x74
    | U_GNSS_CFG_VAL_KEY_GROUP_ID_UART2OUTPROT => 0x76
    | U_GNSS_CFG_VAL_KEY_GROUP_ID_USBOUTPROT => 0x78
    | U_GNSS_CFG_VAL_KEY_GROUP_ID_SPIOUTPROT => 0x7a
  U_GNSS_CFG_VAL_LAYER_RAM := 1
  U_GNSS_CFG_VAL_KEY_ITEM_ID_ALL := 0xFFFF
  U_GNSS_CFG_VAL_KEY_SIZE_ONE_BIT := 1
  U_GNSS_CFG_VAL_KEY_SIZE_ONE_BYTE := 2
  U_GNSS_CFG_VAL_KEY_SIZE_TWO_BYTES := 3
  U_GNSS_CFG_VAL_KEY_SIZE_FOUR_BYTES := 4
  U_GNSS_CFG_VAL_KEY_SIZE_EIGHT_BYTES := 5

/-- The bytes of a key/value entry of a UBX-CFG-VALGET response: the key in
little-endian order followed by the bytes of the value. -/
def cfgValEntryBytes (e : Nat × List Nat) : List Nat :=
  uUbxProtocolUint32Encode e.1 ++ e.2

/-- The bytes of a list of key/value entries, one after the other. -/
def cfgValEntriesBytes : List (Nat × List Nat) → List Nat
  | [] => []
  | e :: es => cfgValEntryBytes e ++ cfgValEntriesBytes es

/-- The offsets at which the entries of a list start, the first one starting
at `start`. -/
def cfgValOffsets (start : Nat) : List (Nat × List Nat) → List Nat
  | [] => []
  | e :: es => start :: cfgValOffsets (start + 4 + e.2.length) es

/-- What the body of the loop of `getProtocolOutUbxCfgVal` makes of
`errorCodeOrBitMap` for one key/value entry: the key `y` of the entry and the
first byte of its value in place of the bytes read from the response. -/
def cfgValEntryUpdate (other : uGnssProtocol_t → Nat) (keyId : Nat) (errorCodeOrBitMap : Nat)
    (e : Nat × List Nat) : Nat :=
  let y := e.1
  let item := gCfgValItemIdOutProtToProtocolType.getD (y &&& 0xFF) none
  if y &&& 0xFFFF0000 = keyId &&& 0xFFFF0000 ∧
      y &&& 0xFF < gCfgValItemIdOutProtToProtocolType.length ∧ item.isSome then
    if e.2.getD 0 0 ≠ 0 then
      errorCodeOrBitMap ||| (1 <<< uGnssProtocolValue other (item.getD U_GNSS_PROTOCOL_UBX))
    else errorCodeOrBitMap
  else errorCodeOrBitMap

/-- The body that `setProtocolOutUbxCfgVal` hands to
`uGnssPrivateSendUbxMessage`: the function run on a send that returns the
bytes it is given; the empty list when nothing is sent. -/
def cfgValSetBody (k : CfgValConstants) (other : uGnssProtocol_t → Nat)
    (pInstance : uGnssPrivateInstance_t) (protocol : uGnssProtocol_t) (onNotOff : Bool) :
    List Nat :=
  (setProtocolOutUbxCfgVal k (fun (_ : List Nat) _ _ _ body _ => (.length 0, body)) other []
    pInstance protocol onNotOff).2

/-! ## Send and receive over AT -/

/-- The macro `U_GNSS_AT_BUFFER_LENGTH_BYTES`, from the value of
`U_GNSS_MAX_UBX_PROTOCOL_MESSAGE_BODY_LENGTH_BYTES`, which is declared in a
header that is not part of the sources at hand. -/
def U_GNSS_AT_BUFFER_LENGTH_BYTES (U_GNSS_MAX_UBX_PROTOCOL_MESSAGE_BODY_LENGTH_BYTES : Nat) :
    Nat :=
  (U_GNSS_MAX_UBX_PROTOCOL_MESSAGE_BODY_LENGTH_BYTES + U_UBX_PROTOCOL_OVERHEAD_LENGTH_BYTES) * 2

/-- The functions that `sendReceiveUbxMessageAt` calls and that are taken as
given.
* `pUPortMalloc n`: whether the allocation of `n` bytes gives storage (`false`
  is NULL);
* `uBinToHex pBin len`: the characters written to the buffer, their count
  being the return value;
* `atExchange pBuffer timeoutMs size`: the calls on the AT client from
  `uAtClientLock` to `uAtClientUnlock`, in which the command `AT+UGUBX=` is
  sent with the string in `pBuffer` and the response `+UGUBX:` is read back
  into the buffer of `size` bytes: the return value of `uAtClientReadString`,
  the content of the buffer afterwards and the return value of
  `uAtClientUnlock`;
* `uHexToBin pHex len`: the bytes written, their count being the return value;
* `uUbxProtocolDecode pBufferIn len cls id body max`: the call with
  `pMessageClass`, `pMessageId` and `pMessageBody` pointing to `cls`, `id` and
  `body` and with a NULL `ppBufferOut`: the return value and what the three
  point to afterwards.
Switching the printing of the AT client off and on again, the logging and
`uPortFree` are left out. -/
structure AtEnv where
  pUPortMalloc : Int → Bool
  uBinToHex : List Nat → Nat → List Nat
  atExchange : List Nat → Int → Int → Int × List Nat × Int
  uHexToBin : List Nat → Nat → List Nat
  uUbxProtocolDecode : List Nat → Nat → Int → Int → List Nat → Nat →
    errorCodeOrLength_t × Int × Int × List Nat

/-- The value of a plain `char` holding the byte `b` once promoted to `int`:
the byte itself where `char` is unsigned, and the byte less 256 for a byte of
128 or more where `char` is signed. -/
def charValue (charIsSigned : Bool) (b : Nat) : Int :=
  if charIsSigned ∧ b % 256 ≥ 128 then ((b % 256 : Nat) : Int) - 256 else ((b % 256 : Nat) : Int)

/-- The function `sendReceiveUbxMessageAt(atHandle, pSend, sendLengthBytes,
pResponse, timeoutMs, printIt)`: the return value and `*pResponse` afterwards.
`maxBody` is `U_GNSS_MAX_UBX_PROTOCOL_MESSAGE_BODY_LENGTH_BYTES`.  The AT
handle is part of `env.atExchange`; `printIt` governs printing only.
`charIsSigned` tells whether the plain `char` of the platform is signed: the
two `char` of `ackBody` are compared with the `int32_t` class and id without a
cast. -/
def sendReceiveUbxMessageAt (maxBody : Nat) (charIsSigned : Bool) (env : AtEnv)
    (pSend : List Nat)
    (sendLengthBytes : Nat) (pResponse : uGnssPrivateUbxReceiveMessage_t) (timeoutMs : Int) :
    errorCodeOrLength_t × uGnssPrivateUbxReceiveMessage_t :=
  let clsNack : Int := 0x05
  let idNack : Int := 0x00
  let ackBody : List Nat := [0, 0]
  -- Need a buffer to hex encode the message into and receive the response into
  let x : Int := ((sendLengthBytes * 2 : Nat) : Int) + 1
  let x : Int := if x < (U_GNSS_AT_BUFFER_LENGTH_BYTES maxBody : Int) + 1 then
    (U_GNSS_AT_BUFFER_LENGTH_BYTES maxBody : Int) + 1 else x
  if env.pUPortMalloc x then
    -- Add terminator
    let pBuffer := env.uBinToHex pSend sendLengthBytes ++ [0]
    -- Read the hex-coded response back into pBuffer
    let r := env.atExchange pBuffer timeoutMs x
    let bytesRead := r.1
    match pResponse.ppBody with
    | some ppBody =>
      if r.2.2 = 0 ∧ bytesRead ≥ 0 then
        -- Decode the hex into the same buffer
        let pBuffer := env.uHexToBin r.2.1 bytesRead.toNat
        let x := pBuffer.length
        if x > 0 then
          -- Deal with the output buffer
          let captureSize := match ppBody with
            | some _ => if x > pResponse.bodySize then pResponse.bodySize else x
            | none => x
          -- We can just re-use the buffer we already have
          let body := match ppBody with
            | some body => body
            | none => pBuffer
          if captureSize > 0 then
            -- First check if we received a NACK
            let d := env.uUbxProtocolDecode pBuffer x clsNack idNack ackBody 2
            let ackBody := d.2.2.2
            if d.1 = .length 2 ∧ charValue charIsSigned (ackBody.getD 0 0) = pResponse.cls ∧
                charValue charIsSigned (ackBody.getD 1 0) = pResponse.id then
              -- We got a NACK for the message class and ID we are monitoring
              (.error (.gnss .U_GNSS_ERROR_NACK), { pResponse with ppBody := some (some body) })
            else
              -- No NACK, we can decode the message body
              let e := env.uUbxProtocolDecode pBuffer x pResponse.cls pResponse.id body
                captureSize
              let errorCodeOrLength := match e.1 with
                | .length n => if n > captureSize then .length captureSize else .length n
                | .error err => .error err
              (errorCodeOrLength, ⟨e.2.1, e.2.2.1, some (some e.2.2.2), pResponse.bodySize⟩)
          else (.length captureSize, { pResponse with ppBody := some (some body) })
        else (.error (.gnss .U_GNSS_ERROR_TRANSPORT), pResponse)
      else (.error (.gnss .U_GNSS_ERROR_TRANSPORT), pResponse)
    | none => (.error (.gnss .U_GNSS_ERROR_TRANSPORT), pResponse)
  else (.error (.common U_ERROR_COMMON_NO_MEMORY), pResponse)

/-- Modelled from the spec: `uBinToHex()`, which is not part of the sources at
hand: two hexadecimal characters per byte, high nibble first (section 6, the
AT-tunnel encapsulation). -/
def uBinToHex (pBin : List Nat) (lengthBytes : Nat) : List Nat :=
  (pBin.take lengthBytes).flatMap (fun b => [hexDigit (b / 16 % 16), hexDigit (b % 16)])

/-- The value of a hexadecimal character, upper or lower case. -/
def hexValue (c : Nat) : Option Nat :=
  if 0x30 ≤ c ∧ c ≤ 0x39 then some (c - 0x30)
  else if 0x41 ≤ c ∧ c ≤ 0x46 then some (c - 0x41 + 10)
  else if 0x61 ≤ c ∧ c ≤ 0x66 then some (c - 0x61 + 10)
  else none

/-- The bytes of a string of hexadecimal characters, up to the first pair that
is not one of two hexadecimal characters. -/
def hexPairs : List Nat → List Nat
  | a :: b :: rest =>
    match hexValue a, hexValue b with
    | some h, some l => (16 * h + l) :: hexPairs rest
    | _, _ => []
  | _ => []

/-- Modelled from the spec: `uHexToBin()`, which is not part of the sources at
hand: the reply is a single hex string, two hexadecimal characters per byte,
upper or lower case (section 6, the AT-tunnel encapsulation). -/
def uHexToBin (pHex : List Nat) (lengthBytes : Nat) : List Nat :=
  hexPairs (pHex.take lengthBytes)

/-- Modelled from the spec: `uUbxProtocolDecode()` of `u_ubx_protocol.c`, which
is not part of the sources at hand, on a buffer that starts with a frame:
`decode(encode(cls, id, body)) == (cls, id, body)` (section 8).  For a valid
frame the class and the id are stored, the body is copied as far as
`maxBodyLengthBytes` allows and its length is returned; otherwise nothing is
stored.  What `pMessageClass` and `pMessageId` point to beforehand is not
looked at. -/
def uUbxProtocolDecode (pBufferIn : List Nat) (bufferLengthBytes : Nat)
    (messageClass messageId : Int) (pMessageBody : List Nat) (maxBodyLengthBytes : Nat) :
    errorCodeOrLength_t × Int × Int × List Nat :=
  match pBufferIn.take bufferLengthBytes with
  | 0xB5 :: 0x62 :: c :: i :: l0 :: l1 :: rest =>
    let n := l0 + 256 * l1
    if n + 2 ≤ rest.length ∧
        ubxChecksum (c :: i :: l0 :: l1 :: rest.take n) = (rest.getD n 0, rest.getD (n + 1) 0) then
      (.length n, (c : Int), (i : Int),
        (rest.take n).take maxBodyLengthBytes ++
          pMessageBody.drop ((rest.take n).take maxBodyLengthBytes).length)
    else (.error (.common U_ERROR_COMMON_NOT_FOUND), messageClass, messageId, pMessageBody)
  | _ => (.error (.common U_ERROR_COMMON_NOT_FOUND), messageClass, messageId, pMessageBody)

/-- For examples: an AT client that answers every command with the hex string
of the frame `reply`, with the allocation succeeding. -/
def replyingAt (reply : List Nat) : AtEnv where
  pUPortMalloc := fun _ => true
  uBinToHex := uBinToHex
  atExchange := fun _ _ _ =>
    ((2 * reply.length : Nat), uBinToHex reply reply.length ++ [0], 0)
  uHexToBin := uHexToBin
  uUbxProtocolDecode := uUbxProtocolDecode

/-! ## Theorems: UBX -/

theorem getByteIgnoringResult_cons (b : Nat) (bs : List Nat) (d old : Nat) :
    getByteIgnoringResult ⟨b :: bs, d⟩ old = (b, ⟨bs, d⟩) := rfl

theorem getByte_cons (b : Nat) (bs : List Nat) (d : Nat) :
    uRingBufferGetByteUnprotected ⟨b :: bs, d⟩ = some (b, ⟨bs, d⟩) := rfl

theorem getByte_nil (d : Nat) :
    uRingBufferGetByteUnprotected ⟨[], d⟩ = none := rfl

/-- The body loop of `parseUbx` run over exactly the bytes `body` reads them
all and folds them into the running sums. -/
theorem parseUbxBody_append (body rest : List Nat) (d cka ckb x : Nat) :
    (parseUbxBody body.length ⟨⟨body ++ rest, d⟩, cka, ckb, x⟩).handle = ⟨rest, d⟩ ∧
    ((parseUbxBody body.length ⟨⟨body ++ rest, d⟩, cka, ckb, x⟩).cka,
     (parseUbxBody body.length ⟨⟨body ++ rest, d⟩, cka, ckb, x⟩).ckb)
      = body.foldl ubxSumStep (cka, ckb) := by
  induction body generalizing cka ckb x with
  | nil => simp [parseUbxBody]
  | cons b bs ih =>
    simp only [List.length_cons, parseUbxBody, List.cons_append,
      getByteIgnoringResult_cons, List.foldl_cons]
    exact ih _ _ _

theorem ubxChecksum_lt (bs : List Nat) (s : Nat × Nat) (h1 : s.1 < 256) (h2 : s.2 < 256) :
    (bs.foldl ubxSumStep s).1 < 256 ∧ (bs.foldl ubxSumStep s).2 < 256 := by
  induction bs generalizing s with
  | nil => exact ⟨h1, h2⟩
  | cons b bs ih =>
    simp only [List.foldl_cons]
    apply ih
    · simp only [ubxSumStep]; omega
    · simp only [ubxSumStep]; omega

theorem ubx_len_decode (n : Nat) (hn : n ≤ 65535) :
    (n % 256 % 65536 + ((n / 256) <<< 8) % 65536) % 65536 = n := by
  rw [Nat.shiftLeft_eq]
  omega

theorem and_255 (x : Nat) : x &&& 0xFF = x % 256 := by
  have := Nat.and_pow_two_sub_one_eq_mod x 8
  simpa using this

/-- `parseUbxTail` does not look at the stale byte kept in the loop state. -/
theorem parseUbxTail_last (h : uParseHandle_t) (cka ckb x y : Nat)
    (m : uGnssPrivateMessageId_t) :
    parseUbxTail ⟨h, cka, ckb, x⟩ m = parseUbxTail ⟨h, cka, ckb, y⟩ m := rfl

/-- After the sync bytes and a header `c i lo hi` announcing `l` body bytes,
`parseUbx` either reports a timeout (fewer than `l` bytes left) or goes on with
the body loop. -/
theorem parseUbx_header (c i lo hi : Nat) (t : List Nat) (d : Nat)
    (m : uGnssPrivateMessageId_t) :
    parseUbx ⟨0xB5 :: 0x62 :: c :: i :: lo :: hi :: t, d⟩ m =
      if (lo % 65536 + (hi <<< 8) % 65536) % 65536 > t.length then
        ⟨U_ERROR_COMMON_TIMEOUT, ⟨t, d⟩, { m with ubx := ((c <<< 8) + i) % 65536 }⟩
      else
        parseUbxTail
          (parseUbxBody ((lo % 65536 + (hi <<< 8) % 65536) % 65536)
            ⟨⟨t, d⟩, (ubxChecksum [c, i, lo, hi]).1, (ubxChecksum [c, i, lo, hi]).2, hi⟩)
          { m with ubx := ((c <<< 8) + i) % 65536 } := by
  simp [parseUbx, getByte_cons, parseUbxHeader, getByteIgnoringResult_cons,
    uRingBufferBytesAvailableUnprotected, ubxChecksum, ubxSumStep]

theorem ubx_id_eq (c i : Nat) (hc : c < 256) (hi : i < 256) :
    ((c <<< 8) + i) % 65536 = (c <<< 8) ||| i := by
  have h := Nat.mul_add_lt_is_or (show i < 2 ^ 8 by simpa using hi) c
  rw [Nat.shiftLeft_eq, Nat.mul_comm c, ← h]
  omega

/-- A UBX frame whose body is fully present, followed by any bytes `tl` in
place of the checksum: `parseUbx` reaches the checksum comparison with the
running sums of the wire format and `tl` left to read. -/
theorem parseUbx_reaches_tail (c i : Nat) (body tl : List Nat) (d : Nat)
    (m : uGnssPrivateMessageId_t) (hc : c < 256) (hi : i < 256)
    (hn : body.length ≤ 65535) :
    parseUbx ⟨[0xB5, 0x62] ++ ubxCovered c i body ++ tl, d⟩ m =
      parseUbxTail ⟨⟨tl, d⟩, (ubxChecksum (ubxCovered c i body)).1,
        (ubxChecksum (ubxCovered c i body)).2, 0⟩
        { m with ubx := (c <<< 8) ||| i } := by
  have hb := parseUbxBody_append body tl d (ubxChecksum [c, i, body.length % 256,
    body.length / 256]).1 (ubxChecksum [c, i, body.length % 256, body.length / 256]).2
    (body.length / 256)
  have hfold : ubxChecksum (ubxCovered c i body) =
      body.foldl ubxSumStep (ubxChecksum [c, i, body.length % 256, body.length / 256]) := by
    simp [ubxChecksum, ubxCovered]
  simp only [ubxCovered, List.cons_append, List.nil_append, List.append_assoc, parseUbx_header,
    ubx_len_decode _ hn, ubx_id_eq c i hc hi]
  rw [if_neg (by simp)]
  generalize parseUbxBody body.length _ = s at hb ⊢
  obtain ⟨h, a, b, x⟩ := s
  simp only [Prod.mk.injEq] at hb
  obtain ⟨h1, h2⟩ := hb
  have h3 := congrArg Prod.fst h2
  have h4 := congrArg Prod.snd h2
  simp only at h3 h4
  subst h1
  rw [parseUbxTail_last _ _ _ x 0, h3, h4, ← hfold]
  simp [ubxCovered]

/-- C1: a complete, valid UBX frame at the head of the cursor with nothing
discarded before it makes `parseUbx` return success having consumed exactly the
`n + 8` bytes of the frame, with identifier `(c << 8) | i` and type tag UBX. -/
theorem parseUbx_valid_frame (c i : Nat) (body rest : List Nat)
    (m : uGnssPrivateMessageId_t)
    (hc : c < 256) (hi : i < 256) (hn : body.length ≤ 65535) :
    parseUbx ⟨ubxFrame c i body ++ rest, 0⟩ m =
      ⟨U_ERROR_COMMON_SUCCESS, ⟨rest, 0⟩,
        { m with type := U_GNSS_PROTOCOL_UBX, ubx := (c <<< 8) ||| i }⟩ ∧
    (ubxFrame c i body).length = body.length + 8 := by
  refine ⟨?_, by simp [ubxFrame, ubxCovered]⟩
  have hlt := ubxChecksum_lt (ubxCovered c i body) (0, 0) (by decide) (by decide)
  rw [ubxFrame, List.append_assoc, parseUbx_reaches_tail c i body _ 0 m hc hi hn]
  simp only [parseUbxTail, List.cons_append, List.nil_append, getByte_cons, and_255]
  have e1 : (ubxChecksum (ubxCovered c i body)).1 % 256 = (ubxChecksum (ubxCovered c i body)).1 :=
    Nat.mod_eq_of_lt hlt.1
  have e2 : (ubxChecksum (ubxCovered c i body)).2 % 256 = (ubxChecksum (ubxCovered c i body)).2 :=
    Nat.mod_eq_of_lt hlt.2
  simp [e1, e2, uRingBufferBytesDiscardUnprotected]

theorem ubxFrame_set_cka (c i : Nat) (body : List Nat) (x : Nat) :
    (ubxFrame c i body).set (body.length + 6) x =
      [0xB5, 0x62] ++ ubxCovered c i body ++ [x, (ubxChecksum (ubxCovered c i body)).2] := by
  rw [ubxFrame, List.set_append_right _ _ (by simp [ubxCovered])]
  simp [ubxCovered]

theorem ubxFrame_set_ckb (c i : Nat) (body : List Nat) (x : Nat) :
    (ubxFrame c i body).set (body.length + 7) x =
      [0xB5, 0x62] ++ ubxCovered c i body ++ [(ubxChecksum (ubxCovered c i body)).1, x] := by
  rw [ubxFrame, List.set_append_right _ _ (by simp [ubxCovered])]
  simp [ubxCovered]

theorem ubxFrame_get_cka (c i : Nat) (body : List Nat) :
    (ubxFrame c i body)[body.length + 6]? = some (ubxChecksum (ubxCovered c i body)).1 := by
  rw [ubxFrame, List.getElem?_append_right (by simp [ubxCovered])]
  simp [ubxCovered]

theorem ubxFrame_get_ckb (c i : Nat) (body : List Nat) :
    (ubxFrame c i body)[body.length + 7]? = some (ubxChecksum (ubxCovered c i body)).2 := by
  rw [ubxFrame, List.getElem?_append_right (by simp [ubxCovered])]
  simp [ubxCovered]

/-- C2: in a valid, complete UBX frame at the cursor, replacing either of the
two checksum bytes (positions `n + 6` and `n + 7`) by a different value makes
`parseUbx` return NotFound, whatever follows the frame and whatever was
discarded before it. -/
theorem parseUbx_checksum_byte_replaced (c i : Nat) (body rest : List Nat) (d : Nat)
    (m : uGnssPrivateMessageId_t) (k x : Nat)
    (hc : c < 256) (hi : i < 256) (hn : body.length ≤ 65535)
    (hk : k = body.length + 6 ∨ k = body.length + 7)
    (hx : (ubxFrame c i body)[k]? ≠ some x) :
    (parseUbx ⟨(ubxFrame c i body).set k x ++ rest, d⟩ m).code = U_ERROR_COMMON_NOT_FOUND := by
  have hlt := ubxChecksum_lt (ubxCovered c i body) (0, 0) (by decide) (by decide)
  have e1 : (ubxChecksum (ubxCovered c i body)).1 % 256 = (ubxChecksum (ubxCovered c i body)).1 :=
    Nat.mod_eq_of_lt hlt.1
  have e2 : (ubxChecksum (ubxCovered c i body)).2 % 256 = (ubxChecksum (ubxCovered c i body)).2 :=
    Nat.mod_eq_of_lt hlt.2
  rcases hk with hk | hk
  · subst hk
    rw [ubxFrame_get_cka] at hx
    have hx1 : x ≠ (ubxChecksum (ubxCovered c i body)).1 := fun h => hx (by rw [h])
    rw [ubxFrame_set_cka, List.append_assoc, parseUbx_reaches_tail c i body _ d m hc hi hn]
    simp [parseUbxTail, getByte_cons, and_255, e1, hx1]
  · subst hk
    rw [ubxFrame_get_ckb] at hx
    have hx1 : x ≠ (ubxChecksum (ubxCovered c i body)).2 := fun h => hx (by rw [h])
    rw [ubxFrame_set_ckb, List.append_assoc, parseUbx_reaches_tail c i body _ d m hc hi hn]
    simp [parseUbxTail, getByte_cons, and_255, e1, e2, hx1]

/-- Witness of C2: the frame of class 6, id 1 with empty body, its first
checksum byte `7` replaced by `0`. -/
theorem parseUbx_checksum_byte_replaced_witness :
    (parseUbx ⟨(ubxFrame 6 1 []).set 6 0 ++ [], 0⟩
      ⟨U_GNSS_PROTOCOL_UNKNOWN, 0, [], 0⟩).code = U_ERROR_COMMON_NOT_FOUND :=
  parseUbx_checksum_byte_replaced 6 1 [] [] 0 ⟨U_GNSS_PROTOCOL_UNKNOWN, 0, [], 0⟩ 6 0
    (by decide) (by decide) (by decide) (by decide) (by decide)

/-- Witness of C1: the 10-byte UBX-ACK-ACK frame for class 6, id 0x8A. -/
theorem parseUbx_valid_frame_witness :
    parseUbx ⟨ubxFrame 5 1 [0x06, 0x8A] ++ [], 0⟩ ⟨U_GNSS_PROTOCOL_UNKNOWN, 0, [], 0⟩ =
      ⟨U_ERROR_COMMON_SUCCESS, ⟨[], 0⟩,
        { (⟨U_GNSS_PROTOCOL_UNKNOWN, 0, [], 0⟩ : uGnssPrivateMessageId_t) with
          type := U_GNSS_PROTOCOL_UBX, ubx := (5 <<< 8) ||| 1 }⟩ ∧
    (ubxFrame 5 1 [0x06, 0x8A]).length = [0x06, 0x8A].length + 8 :=
  parseUbx_valid_frame 5 1 [0x06, 0x8A] [] ⟨U_GNSS_PROTOCOL_UNKNOWN, 0, [], 0⟩
    (by decide) (by decide) (by decide)

/-- C3: when the cursor holds only a strict initial part of a valid UBX frame
(any length from 0 to the frame length minus 1), `parseUbx` returns Timeout. -/
theorem parseUbx_truncated (c i : Nat) (body : List Nat) (d : Nat)
    (m : uGnssPrivateMessageId_t) (k : Nat)
    (hc : c < 256) (hi : i < 256) (hn : body.length ≤ 65535)
    (hk : k < (ubxFrame c i body).length) :
    (parseUbx ⟨(ubxFrame c i body).take k, d⟩ m).code = U_ERROR_COMMON_TIMEOUT := by
  have hlen : (ubxFrame c i body).length = body.length + 8 := by simp [ubxFrame, ubxCovered]
  rw [hlen] at hk
  have hlt := ubxChecksum_lt (ubxCovered c i body) (0, 0) (by decide) (by decide)
  have e1 : (ubxChecksum (ubxCovered c i body)).1 % 256 = (ubxChecksum (ubxCovered c i body)).1 :=
    Nat.mod_eq_of_lt hlt.1
  by_cases h6 : k < 6
  · -- the cursor ends inside the six header bytes
    have : k = 0 ∨ k = 1 ∨ k = 2 ∨ k = 3 ∨ k = 4 ∨ k = 5 := by omega
    rcases this with h | h | h | h | h | h <;> subst h <;>
      simp [ubxFrame, ubxCovered, parseUbx, uRingBufferGetByteUnprotected,
        uRingBufferBytesAvailableUnprotected]
  · by_cases hb : k < body.length + 6
    · -- the cursor ends inside the body
      obtain ⟨j, rfl⟩ : ∃ j, k = j + 6 := ⟨k - 6, by omega⟩
      have hj : j < body.length := by omega
      have : (ubxFrame c i body).take (j + 6) =
          0xB5 :: 0x62 :: c :: i :: (body.length % 256) :: (body.length / 256) :: body.take j := by
        simp [ubxFrame, ubxCovered, List.take_append_of_le_length (Nat.le_of_lt hj)]
      rw [this, parseUbx_header, ubx_len_decode _ hn, if_pos (by simp; omega)]
    · -- the body is complete, one or both checksum bytes are missing
      have hk2 : k = body.length + 6 ∨ k = body.length + 7 := by omega
      rcases hk2 with h | h <;> subst h
      · have : (ubxFrame c i body).take (body.length + 6) =
            [0xB5, 0x62] ++ ubxCovered c i body ++ [] := by
          simp [ubxFrame, ubxCovered, List.take_append_eq_append_take]
        rw [this, parseUbx_reaches_tail c i body _ d m hc hi hn]
        simp [parseUbxTail, getByte_nil]
      · have : (ubxFrame c i body).take (body.length + 7) =
            [0xB5, 0x62] ++ ubxCovered c i body ++ [(ubxChecksum (ubxCovered c i body)).1] := by
          simp [ubxFrame, ubxCovered, List.take_append_eq_append_take]
        rw [this, parseUbx_reaches_tail c i body _ d m hc hi hn]
        simp [parseUbxTail, getByte_cons, getByte_nil, and_255, e1]

/-- Witness of C3: the first nine bytes of the 10-byte UBX-ACK-ACK frame. -/
theorem parseUbx_truncated_witness :
    (parseUbx ⟨(ubxFrame 5 1 [0x06, 0x8A]).take 9, 0⟩
      ⟨U_GNSS_PROTOCOL_UNKNOWN, 0, [], 0⟩).code = U_ERROR_COMMON_TIMEOUT :=
  parseUbx_truncated 5 1 [0x06, 0x8A] 0 ⟨U_GNSS_PROTOCOL_UNKNOWN, 0, [], 0⟩ 9
    (by decide) (by decide) (by decide) (by decide)

/-! ## Theorems: NMEA -/

theorem isTagChar_pass (ch : Nat) (h : isTagChar ch) :
    ¬ (0x2C = ch) ∧ ¬ (0x30 > ch ∨ 0x5A < ch ∨ (0x39 < ch ∧ 0x41 > ch)) := by
  unfold isTagChar at h
  omega

/-- The tag loop of `parseNmea` reads through a run `t` of tag characters:
they are xored into `crc` and stored from index `i` on. -/
theorem parseNmeaTag_append (maxLen d : Nat) (t r : List Nat) (crc i : Nat)
    (m : uGnssPrivateMessageId_t)
    (ht : ∀ ch ∈ t, isTagChar ch) (hlen : i + t.length ≤ maxLen) :
    parseNmeaTag maxLen d (t ++ r) crc i m =
      parseNmeaTag maxLen d r (t.foldl (· ^^^ ·) crc) (i + t.length)
        { m with nmea := storeTag m.nmea i t } := by
  induction t generalizing crc i m with
  | nil => simp [storeTag]
  | cons ch t ih =>
    have hch := isTagChar_pass ch (ht ch (List.mem_cons_self _ _))
    have hi : ¬ (i ≥ maxLen) := by simp at hlen; omega
    have hlen2 : i + 1 + t.length ≤ maxLen := by simp at hlen; omega
    rw [List.cons_append, parseNmeaTag]
    simp only [if_neg hch.1, if_neg hch.2, if_neg hi, List.foldl_cons, storeTag,
      List.length_cons]
    rw [ih _ _ _ (fun c hc => ht c (List.mem_cons_of_mem _ hc)) hlen2]
    congr 1
    omega

/-- The payload loop of `parseNmea` reads through a run `p` of printable bytes
other than `*`, xoring them into `crc`. -/
theorem parseNmeaPayload_append (d i : Nat) (m : uGnssPrivateMessageId_t)
    (p r : List Nat) (crc : Nat)
    (hp : ∀ ch ∈ p, isPrintable ch ∧ ch ≠ 0x2A) :
    parseNmeaPayload d i m (p ++ r) crc =
      parseNmeaPayload d i m r (p.foldl (· ^^^ ·) crc) := by
  induction p generalizing crc with
  | nil => rfl
  | cons ch p ih =>
    have hch := hp ch (List.mem_cons_self _ _)
    have h1 : ¬ (0x20 > ch ∨ 0x7E < ch) := by unfold isPrintable at hch; omega
    have h2 : ¬ (0x2A = ch) := fun h => hch.2 h.symm
    rw [List.cons_append, parseNmeaPayload]
    simp only [if_neg h1, if_neg h2, List.foldl_cons]
    exact ih _ (fun c hc => hp c (List.mem_cons_of_mem _ hc))

theorem storeTag_eq (buf : List Nat) (i : Nat) (t : List Nat) (h : i + t.length ≤ buf.length) :
    storeTag buf i t = buf.take i ++ t ++ buf.drop (i + t.length) := by
  induction t generalizing buf i with
  | nil => simp [storeTag]
  | cons ch t ih =>
    simp only [List.length_cons] at h
    rw [storeTag, ih _ _ (by simp; omega)]
    have hi : i < buf.length := by omega
    rw [List.set_eq_take_append_cons_drop, if_pos hi]
    have e1 : List.take (i + 1) (List.take i buf ++ ch :: List.drop (i + 1) buf) =
        List.take i buf ++ [ch] := by
      rw [List.take_append_eq_append_take]
      simp [List.length_take, Nat.min_eq_left (Nat.le_of_lt hi)]
    have e2 : List.drop (i + 1 + t.length) (List.take i buf ++ ch :: List.drop (i + 1) buf) =
        List.drop (i + (t.length + 1)) buf := by
      rw [List.drop_append_eq_append_drop]
      simp [List.length_take, Nat.min_eq_left (Nat.le_of_lt hi)]
      have : i + 1 + t.length - i = t.length + 1 := by omega
      rw [List.drop_eq_nil_of_le (by simp; omega), this]
      simp [List.drop_drop]
      congr 1
      omega
    rw [e1, e2]
    simp [List.length_cons]

theorem hex_getD (n : Nat) (h : n < 16) : hex.getD n 0 = hexDigit n := by
  interval_cases n <;> rfl

theorem shiftRight_four (c : Nat) : c >>> 4 = c / 16 := by
  rw [Nat.shiftRight_eq_div_pow]

theorem hex_low (c : Nat) : hex.getD (c &&& 0xF) 0 = hexDigit (c % 16) := by
  have h1 : c &&& 0xF = c % 16 := by
    have := Nat.and_pow_two_sub_one_eq_mod c 4
    simpa using this
  rw [h1]
  exact hex_getD _ (Nat.mod_lt _ (by decide))

theorem hexDigit_inj (a b : Nat) (ha : a < 16) (hb : b < 16) (h : hexDigit a = hexDigit b) :
    a = b := by
  unfold hexDigit at h
  split at h <;> split at h <;> omega

/-- After `$`, a well-formed tag and the comma, `parseNmea` is in its payload
loop with the tag stored and NUL-terminated and `crc` the XOR of tag and
comma. -/
theorem parseNmea_after_tag (maxLen d : Nat) (tag r : List Nat)
    (m : uGnssPrivateMessageId_t)
    (ht : ∀ ch ∈ tag, isTagChar ch) (hlen : tag.length ≤ maxLen) :
    parseNmea maxLen ⟨0x24 :: (tag ++ 0x2C :: r), d⟩ m =
      match parseNmeaPayload d tag.length
          { m with nmea := (storeTag m.nmea 0 tag).set tag.length 0 } r
          (nmeaXor (tag ++ [0x2C])) with
      | .ret o => o
      | .next s2 => parseNmeaTail s2 := by
  rw [parseNmea, getByte_cons]
  simp only [ne_eq, not_true_eq_false, if_false]
  rw [parseNmeaTag_append maxLen d tag _ 0 0 m ht (by omega), parseNmeaTag]
  simp [nmeaXor]

/-- After `$`, a well-formed tag, the comma, a printable payload and `*`,
`parseNmea` is at its checksum comparison with `crc` the XOR of every byte
between `$` and `*`. -/
theorem parseNmea_after_star (maxLen d : Nat) (tag p r : List Nat)
    (m : uGnssPrivateMessageId_t)
    (ht : ∀ ch ∈ tag, isTagChar ch) (hlen : tag.length ≤ maxLen)
    (hp : ∀ ch ∈ p, isPrintable ch ∧ ch ≠ 0x2A) :
    parseNmea maxLen ⟨0x24 :: (tag ++ 0x2C :: (p ++ 0x2A :: r)), d⟩ m =
      parseNmeaTail ⟨⟨r, d⟩, nmeaXor (tag ++ 0x2C :: p), tag.length,
        { m with nmea := (storeTag m.nmea 0 tag).set tag.length 0 }⟩ := by
  rw [parseNmea_after_tag maxLen d tag _ m ht hlen, parseNmeaPayload_append _ _ _ p _ _ hp,
    parseNmeaPayload]
  have : nmeaXor (tag ++ 0x2C :: p) = List.foldl (· ^^^ ·) (nmeaXor (tag ++ [0x2C])) p := by
    simp [nmeaXor, List.foldl_append]
  simp [this]

/-- The cursor ends inside the tag: `parseNmea` reports a timeout. -/
theorem parseNmea_ends_in_tag (maxLen d : Nat) (t : List Nat)
    (m : uGnssPrivateMessageId_t)
    (ht : ∀ ch ∈ t, isTagChar ch) (hlen : t.length ≤ maxLen) :
    (parseNmea maxLen ⟨0x24 :: t, d⟩ m).code = U_ERROR_COMMON_TIMEOUT := by
  rw [parseNmea, getByte_cons]
  simp only [ne_eq, not_true_eq_false, if_false]
  have := parseNmeaTag_append maxLen d t [] 0 0 m ht (by omega)
  rw [List.append_nil] at this
  rw [this, parseNmeaTag]
  simp [parseNmeaPayload, parseNmeaTail, getByte_nil]

/-- The cursor ends inside the payload: `parseNmea` reports a timeout. -/
theorem parseNmea_ends_in_payload (maxLen d : Nat) (tag p : List Nat)
    (m : uGnssPrivateMessageId_t)
    (ht : ∀ ch ∈ tag, isTagChar ch) (hlen : tag.length ≤ maxLen)
    (hp : ∀ ch ∈ p, isPrintable ch ∧ ch ≠ 0x2A) :
    (parseNmea maxLen ⟨0x24 :: (tag ++ 0x2C :: p), d⟩ m).code = U_ERROR_COMMON_TIMEOUT := by
  have := parseNmeaPayload_append d tag.length
    { m with nmea := (storeTag m.nmea 0 tag).set tag.length 0 } p [] (nmeaXor (tag ++ [0x2C])) hp
  rw [List.append_nil] at this
  rw [parseNmea_after_tag maxLen d tag _ m ht hlen, this, parseNmeaPayload]
  simp [parseNmeaTail, getByte_nil]

theorem storeTag_terminated (buf tag : List Nat) (h : tag.length < buf.length) :
    (storeTag buf 0 tag).set tag.length 0 = tag ++ 0 :: buf.drop (tag.length + 1) := by
  rw [storeTag_eq buf 0 tag (by omega)]
  simp only [List.take_zero, List.nil_append, Nat.zero_add]
  rw [List.set_append_right _ _ (Nat.le_refl _)]
  simp only [Nat.sub_self]
  cases hd : buf.drop tag.length with
  | nil =>
    have := congrArg List.length hd
    simp at this
    omega
  | cons x xs =>
    have : buf.drop (tag.length + 1) = xs := by
      rw [← List.drop_drop, hd]
      rfl
    simp [this]

/-- C4: a complete, valid NMEA sentence at the head of the cursor with nothing
discarded before it makes `parseNmea` return success having consumed the whole
sentence, with the tag stored NUL-terminated in the identifier and type tag
NMEA.  `maxLen` is `U_GNSS_NMEA_MESSAGE_MATCH_LENGTH_CHARACTERS`; the array
`id.nmea` has room for `maxLen` characters and the terminator. -/
theorem parseNmea_valid_sentence (maxLen : Nat) (tag payload rest : List Nat)
    (m : uGnssPrivateMessageId_t)
    (ht : ∀ ch ∈ tag, isTagChar ch) (hlen : tag.length ≤ maxLen)
    (hbuf : maxLen < m.nmea.length)
    (hp : ∀ ch ∈ payload, isPrintable ch ∧ ch ≠ 0x2A) :
    parseNmea maxLen ⟨nmeaSentence tag payload ++ rest, 0⟩ m =
      ⟨U_ERROR_COMMON_SUCCESS, ⟨rest, 0⟩,
        { m with type := U_GNSS_PROTOCOL_NMEA,
                 nmea := tag ++ 0 :: m.nmea.drop (tag.length + 1) }⟩ := by
  have e : nmeaSentence tag payload ++ rest =
      0x24 :: (tag ++ 0x2C :: (payload ++ 0x2A ::
        ([hexDigit (nmeaXor (tag ++ 0x2C :: payload) / 16 % 16),
          hexDigit (nmeaXor (tag ++ 0x2C :: payload) % 16), 0x0D, 0x0A] ++ rest))) := by
    simp [nmeaSentence]
  rw [e, parseNmea_after_star maxLen 0 tag payload _ m ht hlen hp,
    storeTag_terminated _ _ (by omega)]
  simp only [parseNmeaTail, List.cons_append, List.nil_append, getByte_cons, hex_low, shiftRight_four,
    ne_eq, not_true_eq_false, if_false, uRingBufferBytesDiscardUnprotected, if_true]

/-- Witness of C4: the sentence `$GPGGA,12,*55` with a limit of 8 characters
and a zeroed 9-byte identifier. -/
theorem parseNmea_valid_sentence_witness :
    parseNmea 8 ⟨nmeaSentence [0x47, 0x50, 0x47, 0x47, 0x41] [0x31, 0x32, 0x2C] ++ [], 0⟩
        ⟨U_GNSS_PROTOCOL_UNKNOWN, 0, List.replicate 9 0, 0⟩ =
      ⟨U_ERROR_COMMON_SUCCESS, ⟨[], 0⟩,
        { (⟨U_GNSS_PROTOCOL_UNKNOWN, 0, List.replicate 9 0, 0⟩ : uGnssPrivateMessageId_t) with
          type := U_GNSS_PROTOCOL_NMEA,
          nmea := [0x47, 0x50, 0x47, 0x47, 0x41] ++ 0 ::
            (List.replicate 9 0).drop ([0x47, 0x50, 0x47, 0x47, 0x41].length + 1) }⟩ :=
  parseNmea_valid_sentence 8 [0x47, 0x50, 0x47, 0x47, 0x41] [0x31, 0x32, 0x2C] []
    ⟨U_GNSS_PROTOCOL_UNKNOWN, 0, List.replicate 9 0, 0⟩
    (by decide) (by decide) (by decide) (by decide)

theorem foldl_xor_lt (l : List Nat) (c : Nat) (hc : c < 128) (hl : ∀ b ∈ l, b < 128) :
    l.foldl (· ^^^ ·) c < 128 := by
  induction l generalizing c with
  | nil => exact hc
  | cons b l ih =>
    rw [List.foldl_cons]
    apply ih
    · exact Nat.xor_lt_two_pow (n := 7) hc (hl b (List.mem_cons_self _ _))
    · exact fun x hx => hl x (List.mem_cons_of_mem _ hx)

theorem foldl_xor_inj (l : List Nat) (a b : Nat)
    (h : l.foldl (· ^^^ ·) a = l.foldl (· ^^^ ·) b) : a = b := by
  induction l generalizing a b with
  | nil => exact h
  | cons x l ih =>
    rw [List.foldl_cons, List.foldl_cons] at h
    exact Nat.xor_left_inj.mp (ih _ _ h)

/-- The XOR over tag, comma and payload of a well-formed sentence fits in
seven bits. -/
theorem nmeaXor_lt (tag p : List Nat)
    (ht : ∀ ch ∈ tag, isTagChar ch) (hp : ∀ ch ∈ p, isPrintable ch ∧ ch ≠ 0x2A) :
    nmeaXor (tag ++ 0x2C :: p) < 128 := by
  apply foldl_xor_lt _ _ (by decide)
  intro b hb
  rcases List.mem_append.mp hb with h | h
  · have := ht b h
    unfold isTagChar at this
    omega
  · rcases List.mem_cons.mp h with h | h
    · omega
    · have := (hp b h).1
      unfold isPrintable at this
      omega

/-- Replacing one payload byte by a different one changes the XOR. -/
theorem nmeaXor_set_ne (tag p : List Nat) (j x : Nat) (hj : j < p.length)
    (hne : p[j]? ≠ some x) :
    nmeaXor (tag ++ 0x2C :: p.set j x) ≠ nmeaXor (tag ++ 0x2C :: p) := by
  intro h
  have hs : p.set j x = p.take j ++ x :: p.drop (j + 1) := by
    rw [List.set_eq_take_append_cons_drop, if_pos hj]
  have hd : p = p.take j ++ p[j] :: p.drop (j + 1) := by
    conv_lhs => rw [← List.take_append_drop j p]
    rw [List.drop_eq_getElem_cons hj]
  rw [hs] at h
  conv_rhs at h => rw [hd]
  simp only [nmeaXor, List.foldl_append, List.foldl_cons] at h
  have := Nat.xor_right_inj.mp (foldl_xor_inj _ _ _ h)
  apply hne
  rw [List.getElem?_eq_getElem hj, this]

/-- Two seven-bit values with the same two hex digits are equal. -/
theorem hexDigits_inj (a b : Nat) (ha : a < 256) (hb : b < 256)
    (h1 : hexDigit (a / 16 % 16) = hexDigit (b / 16 % 16))
    (h2 : hexDigit (a % 16) = hexDigit (b % 16)) : a = b := by
  have e1 := hexDigit_inj _ _ (Nat.mod_lt _ (by decide)) (Nat.mod_lt _ (by decide)) h1
  have e2 := hexDigit_inj _ _ (Nat.mod_lt _ (by decide)) (Nat.mod_lt _ (by decide)) h2
  omega

/-- The checksum comparison of `parseNmea` on two characters `c1 c2` of which
one is not the expected uppercase hex digit ends with NotFound. -/
theorem parseNmeaTail_mismatch (h : uParseHandle_t) (r : List Nat) (d crc i c1 c2 : Nat)
    (m : uGnssPrivateMessageId_t) (hh : h = ⟨c1 :: c2 :: r, d⟩)
    (hne : c1 ≠ hexDigit (crc / 16 % 16) ∨ c2 ≠ hexDigit (crc % 16)) :
    (parseNmeaTail ⟨h, crc, i, m⟩).code = U_ERROR_COMMON_NOT_FOUND := by
  subst hh
  simp only [parseNmeaTail, getByte_cons, hex_low, shiftRight_four, ne_eq]
  by_cases e1 : hexDigit (crc / 16 % 16) = c1
  · have e2 : ¬ hexDigit (crc % 16) = c2 := by
      rcases hne with h | h
      · exact absurd e1.symm h
      · exact fun e => h e.symm
    simp [e1, e2]
  · simp [e1]

theorem nmeaSentence_set (tag p : List Nat) (j x : Nat) (hj : j < p.length) :
    (nmeaSentence tag p).set (tag.length + 2 + j) x =
      0x24 :: (tag ++ 0x2C :: (p.set j x ++ 0x2A ::
        [hexDigit (nmeaXor (tag ++ 0x2C :: p) / 16 % 16),
          hexDigit (nmeaXor (tag ++ 0x2C :: p) % 16), 0x0D, 0x0A])) := by
  have e1 : tag.length + 2 + j = (tag.length + 1 + j) + 1 := by omega
  rw [nmeaSentence, e1, List.set_cons_succ, List.set_append_right _ _ (by omega)]
  have e2 : tag.length + 1 + j - tag.length = j + 1 := by omega
  rw [e2, List.set_cons_succ, List.set_append_left _ _ hj]

/-- C5: in a valid, complete NMEA sentence at the cursor, changing one payload
byte (a byte after the first comma and before `*`) to a different printable
byte other than `*` changes the XOR checksum: `parseNmea` returns NotFound. -/
theorem parseNmea_payload_byte_changed (maxLen d : Nat) (tag payload rest : List Nat)
    (m : uGnssPrivateMessageId_t) (j x : Nat)
    (ht : ∀ ch ∈ tag, isTagChar ch) (hlen : tag.length ≤ maxLen)
    (hp : ∀ ch ∈ payload, isPrintable ch ∧ ch ≠ 0x2A)
    (hj : j < payload.length) (hx : isPrintable x ∧ x ≠ 0x2A)
    (hne : payload[j]? ≠ some x) :
    nmeaXor (tag ++ 0x2C :: payload.set j x) ≠ nmeaXor (tag ++ 0x2C :: payload) ∧
    (parseNmea maxLen ⟨(nmeaSentence tag payload).set (tag.length + 2 + j) x ++ rest, d⟩ m).code
      = U_ERROR_COMMON_NOT_FOUND := by
  have hp2 : ∀ ch ∈ payload.set j x, isPrintable ch ∧ ch ≠ 0x2A := by
    intro ch hch
    rcases List.mem_or_eq_of_mem_set hch with h | h
    · exact hp ch h
    · exact h ▸ hx
  have hxor := nmeaXor_set_ne tag payload j x hj hne
  refine ⟨hxor, ?_⟩
  rw [nmeaSentence_set tag payload j x hj]
  simp only [List.cons_append, List.append_assoc]
  rw [parseNmea_after_star maxLen d tag (payload.set j x) _ m ht hlen hp2]
  apply parseNmeaTail_mismatch _ _ _ _ _ _ _ _ rfl
  by_contra hcon
  simp only [not_or, not_not] at hcon
  exact hxor (hexDigits_inj _ _
    (Nat.lt_trans (nmeaXor_lt tag _ ht hp2) (by decide))
    (Nat.lt_trans (nmeaXor_lt tag _ ht hp) (by decide)) hcon.1.symm hcon.2.symm)

/-- Witness of C5: `$GPGGA,12,*55` with the payload byte `2` changed to `3`. -/
theorem parseNmea_payload_byte_changed_witness :
    nmeaXor ([0x47, 0x50, 0x47, 0x47, 0x41] ++ 0x2C :: [0x31, 0x32, 0x2C].set 1 0x33) ≠
      nmeaXor ([0x47, 0x50, 0x47, 0x47, 0x41] ++ 0x2C :: [0x31, 0x32, 0x2C]) ∧
    (parseNmea 8 ⟨(nmeaSentence [0x47, 0x50, 0x47, 0x47, 0x41] [0x31, 0x32, 0x2C]).set
        ([0x47, 0x50, 0x47, 0x47, 0x41].length + 2 + 1) 0x33 ++ [], 0⟩
      ⟨U_GNSS_PROTOCOL_UNKNOWN, 0, List.replicate 9 0, 0⟩).code = U_ERROR_COMMON_NOT_FOUND :=
  parseNmea_payload_byte_changed 8 0 [0x47, 0x50, 0x47, 0x47, 0x41] [0x31, 0x32, 0x2C] []
    ⟨U_GNSS_PROTOCOL_UNKNOWN, 0, List.replicate 9 0, 0⟩ 1 0x33
    (by decide) (by decide) (by decide) (by decide) (by decide) (by decide)

/-- C6: for a byte sequence at the cursor that starts with `$`, a well-formed
tag and a comma, `parseNmea` returns NotFound when the bytes after the comma
are printable bytes other than `*` followed by a byte outside 0x20..0x7E, and
also when they are a printable payload, `*` and two characters of which one
is not the uppercase hex digit of the computed XOR. -/
theorem parseNmea_invalid_candidate (maxLen d : Nat) (tag bytes : List Nat)
    (m : uGnssPrivateMessageId_t)
    (ht : ∀ ch ∈ tag, isTagChar ch) (hlen : tag.length ≤ maxLen)
    (h : (∃ p b r, bytes = p ++ b :: r ∧ (∀ ch ∈ p, isPrintable ch ∧ ch ≠ 0x2A) ∧
            ¬ isPrintable b) ∨
         (∃ p c1 c2 r, bytes = p ++ 0x2A :: c1 :: c2 :: r ∧
            (∀ ch ∈ p, isPrintable ch ∧ ch ≠ 0x2A) ∧
            (c1 ≠ hexDigit (nmeaXor (tag ++ 0x2C :: p) / 16 % 16) ∨
             c2 ≠ hexDigit (nmeaXor (tag ++ 0x2C :: p) % 16)))) :
    (parseNmea maxLen ⟨0x24 :: (tag ++ 0x2C :: bytes), d⟩ m).code
      = U_ERROR_COMMON_NOT_FOUND := by
  rcases h with ⟨p, b, r, rfl, hp, hb⟩ | ⟨p, c1, c2, r, rfl, hp, hne⟩
  · rw [parseNmea_after_tag maxLen d tag _ m ht hlen, parseNmeaPayload_append _ _ _ p _ _ hp,
      parseNmeaPayload]
    have : 0x20 > b ∨ 0x7E < b := by unfold isPrintable at hb; omega
    simp [this]
  · rw [parseNmea_after_star maxLen d tag p _ m ht hlen hp]
    exact parseNmeaTail_mismatch _ _ _ _ _ _ _ _ rfl hne

/-- Witness of C6: `$GPGGA,12,*5a`, a lowercase digit where `5` is expected. -/
theorem parseNmea_invalid_candidate_witness :
    (parseNmea 8 ⟨0x24 :: ([0x47, 0x50, 0x47, 0x47, 0x41] ++ 0x2C ::
        [0x31, 0x32, 0x2C, 0x2A, 0x35, 0x61, 0x0D, 0x0A]), 0⟩
      ⟨U_GNSS_PROTOCOL_UNKNOWN, 0, List.replicate 9 0, 0⟩).code = U_ERROR_COMMON_NOT_FOUND :=
  parseNmea_invalid_candidate 8 0 [0x47, 0x50, 0x47, 0x47, 0x41]
    [0x31, 0x32, 0x2C, 0x2A, 0x35, 0x61, 0x0D, 0x0A]
    ⟨U_GNSS_PROTOCOL_UNKNOWN, 0, List.replicate 9 0, 0⟩ (by decide) (by decide)
    (Or.inr ⟨[0x31, 0x32, 0x2C], 0x35, 0x61, [0x0D, 0x0A], rfl, by decide, Or.inr (by decide)⟩)

theorem take_append_cons_succ (a : List Nat) (x : Nat) (b : List Nat) (n : Nat) :
    (a ++ x :: b).take (a.length + 1 + n) = a ++ x :: b.take n := by
  rw [List.take_append_eq_append_take, List.take_of_length_le (by omega)]
  have : a.length + 1 + n - a.length = n + 1 := by omega
  rw [this, List.take_succ_cons]

/-- C7: when the cursor holds only a strict initial part of a valid NMEA
sentence (any length from 0 to the sentence length minus 1), `parseNmea`
returns Timeout. -/
theorem parseNmea_truncated (maxLen d : Nat) (tag payload : List Nat)
    (m : uGnssPrivateMessageId_t) (k : Nat)
    (ht : ∀ ch ∈ tag, isTagChar ch) (hlen : tag.length ≤ maxLen)
    (hp : ∀ ch ∈ payload, isPrintable ch ∧ ch ≠ 0x2A)
    (hk : k < (nmeaSentence tag payload).length) :
    (parseNmea maxLen ⟨(nmeaSentence tag payload).take k, d⟩ m).code
      = U_ERROR_COMMON_TIMEOUT := by
  have hl : (nmeaSentence tag payload).length = tag.length + payload.length + 7 := by
    simp [nmeaSentence]; omega
  rw [hl] at hk
  cases k with
  | zero => simp [parseNmea, getByte_nil]
  | succ k1 =>
    rw [nmeaSentence, List.take_succ_cons]
    by_cases h1 : k1 ≤ tag.length
    · -- the cursor ends inside the tag, before the comma
      rw [List.take_append_of_le_length h1]
      exact parseNmea_ends_in_tag maxLen d _ m
        (fun ch hch => ht ch (List.mem_of_mem_take hch))
        (by rw [List.length_take]; omega)
    · obtain ⟨k2, rfl⟩ : ∃ k2, k1 = tag.length + 1 + k2 := ⟨k1 - tag.length - 1, by omega⟩
      rw [take_append_cons_succ]
      by_cases h2 : k2 ≤ payload.length
      · -- the cursor ends inside the payload, before the star
        rw [List.take_append_of_le_length h2]
        exact parseNmea_ends_in_payload maxLen d tag _ m ht hlen
          (fun ch hch => hp ch (List.mem_of_mem_take hch))
      · -- the cursor ends after the star, inside the last four characters
        obtain ⟨k3, rfl⟩ : ∃ k3, k2 = payload.length + 1 + k3 :=
          ⟨k2 - payload.length - 1, by omega⟩
        rw [take_append_cons_succ, parseNmea_after_star maxLen d tag payload _ m ht hlen hp]
        have : k3 = 0 ∨ k3 = 1 ∨ k3 = 2 ∨ k3 = 3 := by omega
        rcases this with h | h | h | h <;> subst h <;>
          simp only [List.take_succ_cons, List.take_zero, parseNmeaTail, getByte_cons,
            getByte_nil, hex_low, shiftRight_four, ne_eq, not_true_eq_false, if_false]

/-- Witness of C7: `$GPGGA,12,*55` cut after its first twelve characters. -/
theorem parseNmea_truncated_witness :
    (parseNmea 8 ⟨(nmeaSentence [0x47, 0x50, 0x47, 0x47, 0x41] [0x31, 0x32, 0x2C]).take 12, 0⟩
      ⟨U_GNSS_PROTOCOL_UNKNOWN, 0, List.replicate 9 0, 0⟩).code = U_ERROR_COMMON_TIMEOUT :=
  parseNmea_truncated 8 0 [0x47, 0x50, 0x47, 0x47, 0x41] [0x31, 0x32, 0x2C]
    ⟨U_GNSS_PROTOCOL_UNKNOWN, 0, List.replicate 9 0, 0⟩ 12
    (by decide) (by decide) (by decide) (by decide)

/-! ## Theorems: CRC-24Q -/

theorem and_two_pow_ne_zero (y n : Nat) : y &&& 2 ^ n ≠ 0 ↔ y.testBit n = true := by
  constructor
  · intro h
    by_contra hb
    apply h
    apply Nat.eq_of_testBit_eq
    intro j
    simp only [Nat.testBit_and, Nat.zero_testBit, Nat.testBit_two_pow]
    by_cases hj : n = j
    · subst hj; simp [hb]
    · simp [hj]
  · intro hb h
    have := congrArg (fun z => z.testBit n) h
    simp [hb, Nat.testBit_two_pow_self] at this

theorem shiftLeft_xor (a x k : Nat) : (a ^^^ x) <<< k = (a <<< k) ^^^ (x <<< k) := by
  apply Nat.eq_of_testBit_eq
  intro j
  simp only [Nat.testBit_shiftLeft, Nat.testBit_xor]
  by_cases hj : j ≥ k <;> simp [hj]

/-- The bit step of CRC-24Q is linear in a part `x` of the remainder that
does not reach bit 23. -/
theorem crc24qBit_xor (a x : Nat) (hx : x < 2 ^ 23) :
    crc24qBit (a ^^^ x) = crc24qBit a ^^^ (x <<< 1) := by
  have hc : ((a ^^^ x) <<< 1) &&& 0x1000000 ≠ 0 ↔ (a <<< 1) &&& 0x1000000 ≠ 0 := by
    have e : (0x1000000 : Nat) = 2 ^ 24 := by norm_num
    rw [e, and_two_pow_ne_zero, and_two_pow_ne_zero]
    simp [Nat.testBit_shiftLeft, Nat.testBit_xor, Nat.testBit_lt_two_pow hx]
  unfold crc24qBit
  by_cases h : (a <<< 1) &&& 0x1000000 ≠ 0
  · rw [if_pos h, if_pos (hc.mpr h), shiftLeft_xor, Nat.xor_assoc, Nat.xor_assoc,
      Nat.xor_comm (x <<< 1)]
  · rw [if_neg h, if_neg (fun h2 => h (hc.mp h2)), shiftLeft_xor]

theorem crc24qByte_split (k lo : Nat) (hlo : lo < 2 ^ 16) :
    crc24qBit (crc24qBit (crc24qBit (crc24qBit (crc24qBit (crc24qBit (crc24qBit
      (crc24qBit ((k <<< 16) ^^^ lo)))))))) = crc24qByte 0 k ^^^ (lo <<< 8) := by
  have h0 : lo < 2 ^ 23 := by omega
  have h1 : lo <<< 1 < 2 ^ 23 := by rw [Nat.shiftLeft_eq]; omega
  have h2 : lo <<< 1 <<< 1 < 2 ^ 23 := by rw [Nat.shiftLeft_eq, Nat.shiftLeft_eq]; omega
  have h3 : lo <<< 1 <<< 1 <<< 1 < 2 ^ 23 := by simp only [Nat.shiftLeft_eq]; omega
  have h4 : lo <<< 1 <<< 1 <<< 1 <<< 1 < 2 ^ 23 := by simp only [Nat.shiftLeft_eq]; omega
  have h5 : lo <<< 1 <<< 1 <<< 1 <<< 1 <<< 1 < 2 ^ 23 := by simp only [Nat.shiftLeft_eq]; omega
  have h6 : lo <<< 1 <<< 1 <<< 1 <<< 1 <<< 1 <<< 1 < 2 ^ 23 := by
    simp only [Nat.shiftLeft_eq]; omega
  have h7 : lo <<< 1 <<< 1 <<< 1 <<< 1 <<< 1 <<< 1 <<< 1 < 2 ^ 23 := by
    simp only [Nat.shiftLeft_eq]; omega
  rw [crc24qBit_xor _ _ h0, crc24qBit_xor _ _ h1, crc24qBit_xor _ _ h2, crc24qBit_xor _ _ h3,
    crc24qBit_xor _ _ h4, crc24qBit_xor _ _ h5, crc24qBit_xor _ _ h6, crc24qBit_xor _ _ h7]
  have e : lo <<< 1 <<< 1 <<< 1 <<< 1 <<< 1 <<< 1 <<< 1 <<< 1 = lo <<< 8 := by
    simp only [Nat.shiftLeft_eq]; omega
  rw [e, crc24qByte, Nat.zero_xor]

theorem testBit_of_lt (x n j : Nat) (hx : x < 2 ^ n) (hj : n ≤ j) : x.testBit j = false :=
  Nat.testBit_lt_two_pow (Nat.lt_of_lt_of_le hx (Nat.pow_le_pow_right (by decide) hj))

set_option maxRecDepth 1000000 in
/-- Every entry of `_crc24qTable` is the remainder of eight bit steps of the
CRC-24Q division started from `k << 16`. -/
theorem crc24qTable_entry : ∀ k, k < 256 → crc24qByte 0 k = _crc24qTable.getD k 0 := by
  decide

set_option maxRecDepth 1000000 in
theorem crc24qTable_lt : ∀ k, k < 256 → _crc24qTable.getD k 0 < 2 ^ 24 := by
  decide

theorem rtcm_index (crc b : Nat) (hb : b < 256) :
    (b ^^^ (crc >>> 16)) &&& 0xff = ((crc >>> 16) % 256) ^^^ b := by
  apply Nat.eq_of_testBit_eq
  intro j
  have e : (0xff : Nat) = 2 ^ 8 - 1 := by norm_num
  have e2 : (256 : Nat) = 2 ^ 8 := by norm_num
  rw [e, e2]
  simp only [Nat.testBit_and, Nat.testBit_xor, Nat.testBit_two_pow_sub_one,
    Nat.testBit_mod_two_pow, Nat.testBit_shiftRight]
  by_cases hj : j < 8
  · simp [hj, Bool.xor_comm]
  · simp [hj, testBit_of_lt b 8 j (by simpa using hb) (by omega)]

theorem rtcm_split (crc b : Nat) :
    (crc % 2 ^ 24) ^^^ (b <<< 16) =
      ((((crc >>> 16) % 256) ^^^ b) <<< 16) ^^^ (crc % 2 ^ 16) := by
  apply Nat.eq_of_testBit_eq
  intro j
  have e2 : (256 : Nat) = 2 ^ 8 := by norm_num
  rw [e2]
  simp only [Nat.testBit_xor, Nat.testBit_mod_two_pow, Nat.testBit_shiftLeft,
    Nat.testBit_shiftRight]
  by_cases h16 : j < 16
  · have : ¬ (j ≥ 16) := by omega
    have h24 : j < 24 := by omega
    simp [h16, this, h24]
  · have hge : j ≥ 16 := by omega
    by_cases h24 : j < 24
    · have h8 : j - 16 < 8 := by omega
      have : 16 + (j - 16) = j := by omega
      simp [h16, hge, h24, h8, this]
    · have h8 : ¬ (j - 16 < 8) := by omega
      simp [h16, hge, h24, h8]

theorem rtcm_low (crc t : Nat) (ht : t < 2 ^ 24) :
    (((crc <<< 8) % 4294967296) ^^^ t) % 2 ^ 24 = t ^^^ ((crc % 2 ^ 16) <<< 8) := by
  apply Nat.eq_of_testBit_eq
  intro j
  have e : (4294967296 : Nat) = 2 ^ 32 := by norm_num
  rw [e]
  simp only [Nat.testBit_xor, Nat.testBit_mod_two_pow, Nat.testBit_shiftLeft]
  by_cases h24 : j < 24
  · have h32 : j < 32 := by omega
    by_cases h8 : j ≥ 8
    · have : j - 8 < 16 := by omega
      simp [h24, h32, h8, this, Bool.xor_comm]
    · simp [h24, h32, h8]
  · have : ¬ (j - 8 < 16) := by omega
    simp [h24, this, testBit_of_lt t 24 j ht (by omega)]

/-- One application of `RTCM_CRC` is, on the low 24 bits, one byte
step of the bit-by-bit CRC-24Q. -/
theorem RTCM_CRC_low (crc b : Nat) (hb : b < 256) :
    RTCM_CRC crc b % 2 ^ 24 = crc24qByte (crc % 2 ^ 24) b := by
  have hk : ((crc >>> 16) % 256) ^^^ b < 256 :=
    Nat.xor_lt_two_pow (n := 8) (Nat.mod_lt _ (by decide)) hb
  rw [RTCM_CRC, rtcm_index crc b hb, rtcm_low _ _ (crc24qTable_lt _ hk),
    ← crc24qTable_entry _ hk, ← crc24qByte_split _ _ (Nat.mod_lt _ (by decide)),
    ← rtcm_split, crc24qByte]

/-- The value accumulated by `RTCM_CRC` over a byte sequence agrees, on its
low 24 bits, with the bit-by-bit CRC-24Q run from the low 24 bits of the
start value. -/
theorem foldl_RTCM_CRC_low (bs : List Nat) (crc : Nat) (hb : ∀ b ∈ bs, b < 256) :
    bs.foldl RTCM_CRC crc % 2 ^ 24 = bs.foldl crc24qByte (crc % 2 ^ 24) := by
  induction bs generalizing crc with
  | nil => rfl
  | cons b bs ih =>
    rw [List.foldl_cons, List.foldl_cons, ih _ (fun x hx => hb x (List.mem_cons_of_mem _ hx)),
      RTCM_CRC_low _ _ (hb b (List.mem_cons_self _ _))]

/-! ## Theorems: RTCM -/

/-- The body loop of `parseRtcm` run over exactly the bytes `body` reads them
all and feeds them to `RTCM_CRC`. -/
theorem parseRtcmBody_append (body tl : List Nat) (d crc x : Nat) :
    (parseRtcmBody body.length ⟨⟨body ++ tl, d⟩, crc, x⟩).handle = ⟨tl, d⟩ ∧
    (parseRtcmBody body.length ⟨⟨body ++ tl, d⟩, crc, x⟩).crc = body.foldl RTCM_CRC crc := by
  induction body generalizing crc x with
  | nil => simp [parseRtcmBody]
  | cons b bs ih =>
    simp only [List.length_cons, parseRtcmBody, List.cons_append,
      getByteIgnoringResult_cons, List.foldl_cons]
    exact ih _ _

theorem and_fc_of_lt (x : Nat) (h : x < 4) : 0xFC &&& x = 0 := by
  interval_cases x <;> rfl

theorem and_three_of_lt (x : Nat) (h : x < 4) : x &&& 0x3 = x := by
  interval_cases x <;> rfl

theorem rtcm_len_decode (n : Nat) (h : n ≤ 1023) :
    ((((n / 256) &&& 0x3) <<< 8) % 65536 + n % 256) % 65536 = n := by
  rw [and_three_of_lt _ (by omega), Nat.shiftLeft_eq]
  omega

/-- An RTCM frame whose message `m0 m1 body` is fully present, followed by any
bytes `tl` in place of the CRC: `parseRtcm` reaches the CRC comparison with the
value accumulated by `RTCM_CRC` over sync byte, length and message, and `tl`
left to read. -/
theorem parseRtcm_reaches_compare (m0 m1 : Nat) (body tl : List Nat) (d : Nat)
    (m : uGnssPrivateMessageId_t) (hL : body.length + 2 ≤ 1023) :
    parseRtcm ⟨rtcmCovered (m0 :: m1 :: body) ++ tl, d⟩ m =
      match parseRtcmCompare ((rtcmCovered (m0 :: m1 :: body)).foldl RTCM_CRC 0)
          { m with rtcm := ((m1 >>> 4) + (m0 <<< 4)) % 65536 } 3 ⟨tl, d⟩ with
      | .ret o => o
      | .next h =>
        if uRingBufferBytesDiscardUnprotected h = 0 then
          ⟨U_ERROR_COMMON_SUCCESS, h,
            { m with rtcm := ((m1 >>> 4) + (m0 <<< 4)) % 65536,
                     type := U_GNSS_PROTOCOL_RTCM }⟩
        else ⟨U_ERROR_COMMON_SUCCESS, h, { m with rtcm := ((m1 >>> 4) + (m0 <<< 4)) % 65536 }⟩ := by
  simp only [parseRtcm, rtcmCovered, List.cons_append, getByte_cons, List.length_cons,
    ne_eq, not_true_eq_false, if_false, and_fc_of_lt _ (show (body.length + 1 + 1) / 256 < 4 by omega),
    rtcm_len_decode _ hL, uRingBufferBytesAvailableUnprotected, List.length_append]
  have hl : ((body.length + 2 + 65535) % 65536 + 65535) % 65536 = body.length := by omega
  rw [if_neg (by omega), hl, parseRtcmTail]
  have hb := parseRtcmBody_append body tl d
    (RTCM_CRC (RTCM_CRC (RTCM_CRC (RTCM_CRC (RTCM_CRC 0 211) ((body.length + 1 + 1) / 256))
      ((body.length + 1 + 1) % 256)) m0) m1) ((body.length + 1 + 1) % 256)
  simp only [hb.1, hb.2, List.foldl_cons]

/-- The three CRC bytes the comparison loop of `parseRtcm` expects are the
bytes, most significant first, of the bit-by-bit CRC-24Q. -/
theorem rtcm_crc_bytes (bs : List Nat) (hb : ∀ b ∈ bs, b < 256) :
    (bs.foldl RTCM_CRC 0 >>> (8 * 2)) % 256 = crc24q bs / 65536 % 256 ∧
    (bs.foldl RTCM_CRC 0 >>> (8 * 1)) % 256 = crc24q bs / 256 % 256 ∧
    (bs.foldl RTCM_CRC 0 >>> (8 * 0)) % 256 = crc24q bs % 256 := by
  have h := foldl_RTCM_CRC_low bs 0 hb
  rw [show (0 : Nat) % 2 ^ 24 = 0 from rfl] at h
  rw [crc24q, ← h]
  simp only [Nat.shiftRight_eq_div_pow]
  omega

theorem rtcmCovered_lt (m0 m1 : Nat) (body : List Nat) (hL : body.length + 2 ≤ 1023)
    (hb : ∀ b ∈ m0 :: m1 :: body, b < 256) :
    ∀ b ∈ rtcmCovered (m0 :: m1 :: body), b < 256 := by
  intro b hmem
  simp only [rtcmCovered, List.length_cons, List.mem_cons] at hmem
  rcases hmem with h | h | h | h | h | h
  · omega
  · omega
  · omega
  · exact hb b (by simp [h])
  · exact hb b (by simp [h])
  · exact hb b (by simp [h])

theorem rtcm_id_eq (m0 m1 : Nat) (h0 : m0 < 256) (h1 : m1 < 256) :
    ((m1 >>> 4) + (m0 <<< 4)) % 65536 = (m0 <<< 4) ||| (m1 >>> 4) := by
  have hlt : m1 >>> 4 < 2 ^ 4 := by rw [Nat.shiftRight_eq_div_pow]; omega
  have h := Nat.mul_add_lt_is_or hlt m0
  rw [Nat.shiftLeft_eq, Nat.mul_comm m0, ← h]
  rw [Nat.shiftRight_eq_div_pow] at hlt ⊢
  omega

/-- C8: a complete, valid RTCM frame (sync byte, 10-bit length `L` with
`2 ≤ L ≤ 1023` behind six zero bits, the `L` message bytes `m0 m1 body`, the
bit-by-bit CRC-24Q of all of these as three bytes, most significant first) at
the head of the cursor with nothing discarded before it makes `parseRtcm`
return success having consumed exactly `L + 6` bytes, with identifier
`(m0 << 4) | (m1 >> 4)` and type tag RTCM. -/
theorem parseRtcm_valid_frame (m0 m1 : Nat) (body rest : List Nat)
    (m : uGnssPrivateMessageId_t)
    (hL : (m0 :: m1 :: body).length ≤ 1023) (hb : ∀ b ∈ m0 :: m1 :: body, b < 256) :
    parseRtcm ⟨rtcmFrame (m0 :: m1 :: body) ++ rest, 0⟩ m =
      ⟨U_ERROR_COMMON_SUCCESS, ⟨rest, 0⟩,
        { m with type := U_GNSS_PROTOCOL_RTCM, rtcm := (m0 <<< 4) ||| (m1 >>> 4) }⟩ ∧
    (rtcmFrame (m0 :: m1 :: body)).length = (m0 :: m1 :: body).length + 6 := by
  refine ⟨?_, by simp [rtcmFrame, rtcmCovered]⟩
  have hL2 : body.length + 2 ≤ 1023 := by simpa using hL
  have hc := rtcm_crc_bytes _ (rtcmCovered_lt m0 m1 body hL2 hb)
  rw [rtcmFrame, List.append_assoc, parseRtcm_reaches_compare m0 m1 body _ 0 m hL2,
    rtcm_id_eq m0 m1 (hb m0 (by simp)) (hb m1 (by simp))]
  simp only [List.cons_append, List.nil_append, parseRtcmCompare, getByte_cons, hc.1, hc.2.1,
    hc.2.2, ne_eq, not_true_eq_false, if_false, uRingBufferBytesDiscardUnprotected, if_true]

/-- Witness of C8: the frame of the 3-byte message `3E D0 07` (type 1005). -/
theorem parseRtcm_valid_frame_witness :
    parseRtcm ⟨rtcmFrame (0x3E :: 0xD0 :: [7]) ++ [], 0⟩ ⟨U_GNSS_PROTOCOL_UNKNOWN, 0, [], 0⟩ =
      ⟨U_ERROR_COMMON_SUCCESS, ⟨[], 0⟩,
        { (⟨U_GNSS_PROTOCOL_UNKNOWN, 0, [], 0⟩ : uGnssPrivateMessageId_t) with
          type := U_GNSS_PROTOCOL_RTCM, rtcm := (0x3E <<< 4) ||| (0xD0 >>> 4) }⟩ ∧
    (rtcmFrame (0x3E :: 0xD0 :: [7])).length = (0x3E :: 0xD0 :: [7]).length + 6 :=
  parseRtcm_valid_frame 0x3E 0xD0 [7] [] ⟨U_GNSS_PROTOCOL_UNKNOWN, 0, [], 0⟩
    (by decide) (by decide)

/-- A valid RTCM frame without its last byte
is accepted by `parseRtcm`; the comparison loop ends on the failed read and
the function goes on to return success. -/
theorem parseRtcm_last_byte_missing (m0 m1 : Nat) (body : List Nat) (d : Nat)
    (m : uGnssPrivateMessageId_t)
    (hL : (m0 :: m1 :: body).length ≤ 1023) (hb : ∀ b ∈ m0 :: m1 :: body, b < 256) :
    (parseRtcm ⟨(rtcmFrame (m0 :: m1 :: body)).take ((m0 :: m1 :: body).length + 5), d⟩ m).code
      = U_ERROR_COMMON_SUCCESS := by
  have hL2 : body.length + 2 ≤ 1023 := by simpa using hL
  have hc := rtcm_crc_bytes _ (rtcmCovered_lt m0 m1 body hL2 hb)
  have e : (rtcmFrame (m0 :: m1 :: body)).take ((m0 :: m1 :: body).length + 5) =
      rtcmCovered (m0 :: m1 :: body) ++
        [crc24q (rtcmCovered (m0 :: m1 :: body)) / 65536 % 256,
          crc24q (rtcmCovered (m0 :: m1 :: body)) / 256 % 256] := by
    rw [rtcmFrame, List.take_append_eq_append_take, List.take_of_length_le
      (by simp [rtcmCovered])]
    simp [rtcmCovered]
  rw [e, parseRtcm_reaches_compare m0 m1 body _ d m hL2]
  simp only [parseRtcmCompare, getByte_cons, getByte_nil, hc.1, hc.2.1,
    ne_eq, not_true_eq_false, if_false]
  split <;> rfl

set_option maxRecDepth 1000000 in
/-- C9, the code at a failing input: the first eight bytes of the valid
nine-byte RTCM frame `D3 00 03 3E D0 07 E5 06 E9` (its last CRC byte is
missing) are reported by `parseRtcm` as a complete RTCM message 1005 of eight
bytes, not as a timeout. -/
theorem parseRtcm_truncated_frame_accepted :
    rtcmFrame [0x3E, 0xD0, 0x07] = [0xD3, 0x00, 0x03, 0x3E, 0xD0, 0x07, 0xE5, 0x06, 0xE9] ∧
    parseRtcm ⟨[0xD3, 0x00, 0x03, 0x3E, 0xD0, 0x07, 0xE5, 0x06], 0⟩
        ⟨U_GNSS_PROTOCOL_UNKNOWN, 0, [], 0⟩ =
      ⟨U_ERROR_COMMON_SUCCESS, ⟨[], 0⟩, ⟨U_GNSS_PROTOCOL_RTCM, 0, [], 1005⟩⟩ := by
  constructor <;> decide

/-- On a complete RTCM-shaped byte sequence
whose three trailing bytes `t2 t1 t0` are not the CRC-24Q of the bytes before
them, `parseRtcm` returns Timeout. -/
theorem parseRtcm_crc_mismatch (m0 m1 : Nat) (body rest : List Nat) (d t2 t1 t0 : Nat)
    (m : uGnssPrivateMessageId_t)
    (hL : (m0 :: m1 :: body).length ≤ 1023) (hb : ∀ b ∈ m0 :: m1 :: body, b < 256)
    (hne : [t2, t1, t0] ≠
      [crc24q (rtcmCovered (m0 :: m1 :: body)) / 65536 % 256,
        crc24q (rtcmCovered (m0 :: m1 :: body)) / 256 % 256,
        crc24q (rtcmCovered (m0 :: m1 :: body)) % 256]) :
    (parseRtcm ⟨rtcmCovered (m0 :: m1 :: body) ++ [t2, t1, t0] ++ rest, d⟩ m).code
      = U_ERROR_COMMON_TIMEOUT := by
  have hL2 : body.length + 2 ≤ 1023 := by simpa using hL
  have hc := rtcm_crc_bytes _ (rtcmCovered_lt m0 m1 body hL2 hb)
  rw [List.append_assoc, parseRtcm_reaches_compare m0 m1 body _ d m hL2]
  simp only [List.cons_append, List.nil_append, parseRtcmCompare, getByte_cons, hc.1, hc.2.1,
    hc.2.2, ne_eq]
  by_cases h2 : t2 = crc24q (rtcmCovered (m0 :: m1 :: body)) / 65536 % 256
  · by_cases h1 : t1 = crc24q (rtcmCovered (m0 :: m1 :: body)) / 256 % 256
    · have h0 : ¬ t0 = crc24q (rtcmCovered (m0 :: m1 :: body)) % 256 := by
        intro h0
        exact hne (by rw [h2, h1, h0])
      simp [h2, h1, h0]
    · simp [h2, h1]
  · simp [h2]

set_option maxRecDepth 1000000 in
/-- C10, the code at a failing input: the nine bytes
`D3 00 03 3E D0 07 E5 06 00`, an RTCM-shaped sequence with all its bytes present
whose last CRC byte is `00` where `E9` is due, make `parseRtcm` return Timeout,
not NotFound. -/
theorem parseRtcm_bad_crc_reports_timeout :
    rtcmFrame [0x3E, 0xD0, 0x07] = [0xD3, 0x00, 0x03, 0x3E, 0xD0, 0x07, 0xE5, 0x06, 0xE9] ∧
    (parseRtcm ⟨[0xD3, 0x00, 0x03, 0x3E, 0xD0, 0x07, 0xE5, 0x06, 0x00], 0⟩
        ⟨U_GNSS_PROTOCOL_UNKNOWN, 0, [], 0⟩).code = U_ERROR_COMMON_TIMEOUT := by
  constructor <;> decide

set_option maxRecDepth 1000000 in
/-- C11: the table-driven CRC of `parseRtcm` is the standard CRC-24Q.  The
table has 256 entries and entry `k` is the remainder left by eight
shift-and-conditionally-xor steps with polynomial 0x1864CFB started from
`k << 16`; for every byte sequence the low 24 bits of the value accumulated by
`RTCM_CRC` from seed 0 are the bit-by-bit CRC-24Q of the sequence; the
accumulated 32-bit value itself is not masked and can exceed 24 bits. -/
theorem rtcm_crc_is_crc24q :
    _crc24qTable.length = 256 ∧
    (∀ k, k < 256 → _crc24qTable.getD k 0 =
      crc24qBit (crc24qBit (crc24qBit (crc24qBit (crc24qBit (crc24qBit (crc24qBit
        (crc24qBit (k <<< 16))))))))) ∧
    (∀ bs : List Nat, (∀ b ∈ bs, b < 256) → bs.foldl RTCM_CRC 0 % 2 ^ 24 = crc24q bs) ∧
    (∃ bs : List Nat, (∀ b ∈ bs, b < 256) ∧ 2 ^ 24 ≤ bs.foldl RTCM_CRC 0) := by
  refine ⟨by decide, ?_, ?_, ⟨[1, 0], by decide, by decide⟩⟩
  · intro k hk
    have h := crc24qTable_entry k hk
    rw [crc24qByte, Nat.zero_xor] at h
    exact h.symm
  · intro bs hb
    exact foldl_RTCM_CRC_low bs 0 hb

/-- Witness of C11: the three header bytes `D3 00 03` of an RTCM frame. -/
theorem rtcm_crc_is_crc24q_witness :
    [0xD3, 0x00, 0x03].foldl RTCM_CRC 0 % 2 ^ 24 = crc24q [0xD3, 0x00, 0x03] :=
  rtcm_crc_is_crc24q.2.2.1 [0xD3, 0x00, 0x03] (by decide)

/-! ## Theorems: the type tag -/

theorem getByte_discard (h h1 : uParseHandle_t) (b : Nat)
    (hg : uRingBufferGetByteUnprotected h = some (b, h1)) :
    h1.bytesDiscard = h.bytesDiscard := by
  rcases h with ⟨bytes, d⟩
  cases bytes with
  | nil => simp [uRingBufferGetByteUnprotected] at hg
  | cons x xs =>
    simp only [uRingBufferGetByteUnprotected, Option.some.injEq, Prod.mk.injEq] at hg
    rw [← hg.2]

theorem getByteIgnoringResult_discard (h : uParseHandle_t) (old : Nat) :
    (getByteIgnoringResult h old).2.bytesDiscard = h.bytesDiscard := by
  rcases h with ⟨bytes, d⟩
  cases bytes <;> rfl

theorem parseUbxBody_discard (l : Nat) (s : UbxSum) :
    (parseUbxBody l s).handle.bytesDiscard = s.handle.bytesDiscard := by
  induction l generalizing s with
  | zero => rfl
  | succ l ih =>
    rw [parseUbxBody, ih]
    exact getByteIgnoringResult_discard _ _

theorem parseUbxTail_type (s : UbxSum) (m : uGnssPrivateMessageId_t)
    (hs : (parseUbxTail s m).code = U_ERROR_COMMON_SUCCESS) :
    (parseUbxTail s m).msgId.type =
      if s.handle.bytesDiscard = 0 then U_GNSS_PROTOCOL_UBX else m.type := by
  rcases s with ⟨⟨bytes, d⟩, cka, ckb, x⟩
  rcases bytes with _ | ⟨b0, _ | ⟨b1, t⟩⟩
  · simp [parseUbxTail, getByte_nil] at hs
  · simp only [parseUbxTail, getByte_cons, getByte_nil] at hs
    split at hs <;> simp at hs
  · simp only [parseUbxTail, getByte_cons, uRingBufferBytesDiscardUnprotected] at hs ⊢
    split at hs
    · simp at hs
    · split at hs
      · simp at hs
      · rename_i h1 h2
        rw [if_neg h1, if_neg h2]
        split <;> rfl

theorem parseUbxHeader_type (h : uParseHandle_t) (m : uGnssPrivateMessageId_t)
    (hs : (parseUbxHeader h m).code = U_ERROR_COMMON_SUCCESS) :
    (parseUbxHeader h m).msgId.type =
      if h.bytesDiscard = 0 then U_GNSS_PROTOCOL_UBX else m.type := by
  simp only [parseUbxHeader] at hs ⊢
  split at hs
  · simp at hs
  · rename_i hl
    rw [if_neg hl]
    rw [parseUbxTail_type _ _ hs, parseUbxBody_discard]
    simp only [getByteIgnoringResult_discard]

theorem parseUbx_type (h : uParseHandle_t) (m : uGnssPrivateMessageId_t)
    (hs : (parseUbx h m).code = U_ERROR_COMMON_SUCCESS) :
    (parseUbx h m).msgId.type =
      if h.bytesDiscard = 0 then U_GNSS_PROTOCOL_UBX else m.type := by
  rcases h with ⟨bytes, d⟩
  rcases bytes with _ | ⟨b0, _ | ⟨b1, t⟩⟩
  · simp [parseUbx, getByte_nil] at hs
  · simp only [parseUbx, getByte_cons, getByte_nil] at hs
    split at hs <;> simp at hs
  · simp only [parseUbx, getByte_cons] at hs ⊢
    split at hs
    · simp at hs
    · split at hs
      · simp at hs
      · split at hs
        · simp at hs
        · rename_i h1 h2 h3
          rw [if_neg h1, if_neg h2, if_neg h3]
          exact parseUbxHeader_type _ _ hs

theorem parseNmeaTag_inv (maxLen d : Nat) (bytes : List Nat) (crc i : Nat)
    (m : uGnssPrivateMessageId_t) :
    match parseNmeaTag maxLen d bytes crc i m with
    | .ret o => o.code = U_ERROR_COMMON_NOT_FOUND
    | .next s => s.handle.bytesDiscard = d ∧ s.msgId.type = m.type := by
  induction bytes generalizing crc i m with
  | nil => simp [parseNmeaTag]
  | cons ch bs ih =>
    rw [parseNmeaTag]
    by_cases h1 : 0x2C = ch
    · simp [h1]
    · by_cases h2 : i ≥ maxLen
      · simp [h1, h2]
      · by_cases h3 : 0x30 > ch ∨ 0x5A < ch ∨ (0x39 < ch ∧ 0x41 > ch)
        · simp only [if_neg h1, if_pos h2, if_pos h3]
          simp
        · simp only [if_neg h1, if_neg h2, if_neg h3]
          exact ih _ _ _

theorem parseNmeaPayload_inv (d i : Nat) (m : uGnssPrivateMessageId_t) (bytes : List Nat)
    (crc : Nat) :
    match parseNmeaPayload d i m bytes crc with
    | .ret o => o.code = U_ERROR_COMMON_NOT_FOUND
    | .next s => s.handle.bytesDiscard = d ∧ s.msgId.type = m.type := by
  induction bytes generalizing crc with
  | nil => simp [parseNmeaPayload]
  | cons ch bs ih =>
    rw [parseNmeaPayload]
    by_cases h1 : 0x20 > ch ∨ 0x7E < ch
    · simp only [if_pos h1]
    · by_cases h2 : 0x2A = ch
      · simp only [if_neg h1, if_pos h2, and_self]
      · simp only [if_neg h1, if_neg h2]
        exact ih _

theorem parseNmeaTail_type (s : NmeaState)
    (hs : (parseNmeaTail s).code = U_ERROR_COMMON_SUCCESS) :
    (parseNmeaTail s).msgId.type =
      if s.handle.bytesDiscard = 0 then U_GNSS_PROTOCOL_NMEA else s.msgId.type := by
  rcases s with ⟨⟨bytes, d⟩, crc, i, m⟩
  rcases bytes with _ | ⟨b0, _ | ⟨b1, _ | ⟨b2, _ | ⟨b3, t⟩⟩⟩⟩
  · simp [parseNmeaTail, getByte_nil] at hs
  · simp only [parseNmeaTail, getByte_cons, getByte_nil] at hs
    split at hs <;> simp at hs
  · simp only [parseNmeaTail, getByte_cons, getByte_nil] at hs
    split at hs
    · simp at hs
    · split at hs <;> simp at hs
  · simp only [parseNmeaTail, getByte_cons, getByte_nil] at hs
    split at hs
    · simp at hs
    · split at hs
      · simp at hs
      · split at hs <;> simp at hs
  · simp only [parseNmeaTail, getByte_cons, uRingBufferBytesDiscardUnprotected] at hs ⊢
    split at hs
    · simp at hs
    · split at hs
      · simp at hs
      · split at hs
        · simp at hs
        · split at hs
          · simp at hs
          · rename_i h1 h2 h3 h4
            rw [if_neg h1, if_neg h2, if_neg h3, if_neg h4]
            split <;> rfl

theorem parseNmea_type (maxLen : Nat) (h : uParseHandle_t) (m : uGnssPrivateMessageId_t)
    (hs : (parseNmea maxLen h m).code = U_ERROR_COMMON_SUCCESS) :
    (parseNmea maxLen h m).msgId.type =
      if h.bytesDiscard = 0 then U_GNSS_PROTOCOL_NMEA else m.type := by
  rcases h with ⟨bytes, d⟩
  cases bytes with
  | nil => simp [parseNmea, getByte_nil] at hs
  | cons b0 t =>
    simp only [parseNmea, getByte_cons] at hs ⊢
    split at hs
    · simp at hs
    · rename_i h1
      rw [if_neg h1]
      have hinv := parseNmeaTag_inv maxLen d t 0 0 m
      cases htag : parseNmeaTag maxLen d t 0 0 m with
      | ret o =>
        rw [htag] at hs hinv
        simp only at hs hinv
        rw [hinv] at hs
        simp at hs
      | next s1 =>
        rw [htag] at hs hinv
        simp only at hs hinv ⊢
        have hinv2 := parseNmeaPayload_inv s1.handle.bytesDiscard s1.i
          { s1.msgId with nmea := s1.msgId.nmea.set s1.i 0 } s1.handle.bytes s1.crc
        cases hpay : parseNmeaPayload s1.handle.bytesDiscard s1.i
            { s1.msgId with nmea := s1.msgId.nmea.set s1.i 0 } s1.handle.bytes s1.crc with
        | ret o =>
          rw [hpay] at hs hinv2
          simp only at hs hinv2
          rw [hinv2] at hs
          simp at hs
        | next s2 =>
          rw [hpay] at hs hinv2
          simp only at hs hinv2 ⊢
          rw [parseNmeaTail_type s2 hs, hinv2.1, hinv2.2, hinv.1]
          simp only [hinv.2]

theorem parseRtcmBody_discard (l : Nat) (s : RtcmSum) :
    (parseRtcmBody l s).handle.bytesDiscard = s.handle.bytesDiscard := by
  induction l generalizing s with
  | zero => rfl
  | succ l ih =>
    rw [parseRtcmBody, ih]
    exact getByteIgnoringResult_discard _ _

theorem parseRtcmCompare_inv (crc : Nat) (m : uGnssPrivateMessageId_t) (x : Nat)
    (h : uParseHandle_t) :
    match parseRtcmCompare crc m x h with
    | .ret o => o.code = U_ERROR_COMMON_TIMEOUT
    | .next h1 => h1.bytesDiscard = h.bytesDiscard := by
  induction x generalizing h with
  | zero => simp [parseRtcmCompare]
  | succ x ih =>
    rw [parseRtcmCompare]
    cases hg : uRingBufferGetByteUnprotected h with
    | none => simp
    | some r =>
      obtain ⟨b, h1⟩ := r
      by_cases hb : b ≠ (crc >>> (8 * x)) % 256
      · simp only [if_pos hb]
      · simp only [if_neg hb]
        have := ih h1
        rw [getByte_discard h h1 b hg] at this
        exact this

theorem parseRtcmTail_type (l : Nat) (s : RtcmSum) (m : uGnssPrivateMessageId_t)
    (hs : (parseRtcmTail l s m).code = U_ERROR_COMMON_SUCCESS) :
    (parseRtcmTail l s m).msgId.type =
      if s.handle.bytesDiscard = 0 then U_GNSS_PROTOCOL_RTCM else m.type := by
  simp only [parseRtcmTail] at hs ⊢
  have hinv := parseRtcmCompare_inv (parseRtcmBody l s).crc m 3 (parseRtcmBody l s).handle
  cases hc : parseRtcmCompare (parseRtcmBody l s).crc m 3 (parseRtcmBody l s).handle with
  | ret o =>
    rw [hc] at hs hinv
    simp only at hs hinv
    rw [hinv] at hs
    simp at hs
  | next h1 =>
    rw [hc] at hinv
    simp only at hinv ⊢
    rw [parseRtcmBody_discard] at hinv
    simp only [uRingBufferBytesDiscardUnprotected, hinv]
    split <;> rfl

theorem parseRtcm_type (h : uParseHandle_t) (m : uGnssPrivateMessageId_t)
    (hs : (parseRtcm h m).code = U_ERROR_COMMON_SUCCESS) :
    (parseRtcm h m).msgId.type =
      if h.bytesDiscard = 0 then U_GNSS_PROTOCOL_RTCM else m.type := by
  rcases h with ⟨bytes, d⟩
  rcases bytes with _ | ⟨b0, _ | ⟨b1, _ | ⟨b2, _ | ⟨b3, _ | ⟨b4, t⟩⟩⟩⟩⟩
  · simp [parseRtcm, getByte_nil] at hs
  · simp only [parseRtcm, getByte_cons, getByte_nil] at hs
    split at hs <;> simp at hs
  · simp only [parseRtcm, getByte_cons, getByte_nil] at hs
    split at hs
    · simp at hs
    · split at hs <;> simp at hs
  · simp only [parseRtcm, getByte_cons, getByte_nil] at hs
    split at hs
    · simp at hs
    · split at hs
      · simp at hs
      · split at hs <;> simp at hs
  · simp only [parseRtcm, getByte_cons, getByte_nil] at hs
    split at hs
    · simp at hs
    · split at hs
      · simp at hs
      · split at hs <;> simp at hs
  · simp only [parseRtcm, getByte_cons] at hs ⊢
    split at hs
    · simp at hs
    · split at hs
      · simp at hs
      · split at hs
        · simp at hs
        · rename_i h1 h2 h3
          rw [if_neg h1, if_neg h2, if_neg h3]
          exact parseRtcmTail_type _ _ _ hs

/-- C12: whenever one of `parseUbx`, `parseNmea`, `parseRtcm` returns success,
the type tag it leaves is its own protocol when the count of bytes discarded
before the match is zero, and the tag the caller put there when the count is
not zero; so for a caller that initialised the tag to another value (UNKNOWN
in the decoder loop) the tag is the one of the protocol if and only if the
discard count is zero. -/
theorem parsers_type_tag (maxLen : Nat) (h : uParseHandle_t)
    (m : uGnssPrivateMessageId_t) :
    ((parseUbx h m).code = U_ERROR_COMMON_SUCCESS →
      (parseUbx h m).msgId.type =
        (if uRingBufferBytesDiscardUnprotected h = 0 then U_GNSS_PROTOCOL_UBX else m.type) ∧
      (m.type ≠ U_GNSS_PROTOCOL_UBX →
        ((parseUbx h m).msgId.type = U_GNSS_PROTOCOL_UBX ↔
          uRingBufferBytesDiscardUnprotected h = 0))) ∧
    ((parseNmea maxLen h m).code = U_ERROR_COMMON_SUCCESS →
      (parseNmea maxLen h m).msgId.type =
        (if uRingBufferBytesDiscardUnprotected h = 0 then U_GNSS_PROTOCOL_NMEA else m.type) ∧
      (m.type ≠ U_GNSS_PROTOCOL_NMEA →
        ((parseNmea maxLen h m).msgId.type = U_GNSS_PROTOCOL_NMEA ↔
          uRingBufferBytesDiscardUnprotected h = 0))) ∧
    ((parseRtcm h m).code = U_ERROR_COMMON_SUCCESS →
      (parseRtcm h m).msgId.type =
        (if uRingBufferBytesDiscardUnprotected h = 0 then U_GNSS_PROTOCOL_RTCM else m.type) ∧
      (m.type ≠ U_GNSS_PROTOCOL_RTCM →
        ((parseRtcm h m).msgId.type = U_GNSS_PROTOCOL_RTCM ↔
          uRingBufferBytesDiscardUnprotected h = 0))) := by
  refine ⟨fun hs => ?_, fun hs => ?_, fun hs => ?_⟩
  · have ht := parseUbx_type h m hs
    refine ⟨ht, fun hm => ?_⟩
    rw [ht]
    simp only [uRingBufferBytesDiscardUnprotected]
    by_cases hd : h.bytesDiscard = 0
    · simp [hd]
    · simp [hd, hm]
  · have ht := parseNmea_type maxLen h m hs
    refine ⟨ht, fun hm => ?_⟩
    rw [ht]
    simp only [uRingBufferBytesDiscardUnprotected]
    by_cases hd : h.bytesDiscard = 0
    · simp [hd]
    · simp [hd, hm]
  · have ht := parseRtcm_type h m hs
    refine ⟨ht, fun hm => ?_⟩
    rw [ht]
    simp only [uRingBufferBytesDiscardUnprotected]
    by_cases hd : h.bytesDiscard = 0
    · simp [hd]
    · simp [hd, hm]

/-- Witness of C12: the 10-byte UBX-ACK-ACK frame at the head of a cursor with
nothing discarded, parsed into an identifier initialised to UNKNOWN. -/
theorem parsers_type_tag_witness :
    (parseUbx ⟨ubxFrame 5 1 [0x06, 0x8A], 0⟩ ⟨U_GNSS_PROTOCOL_UNKNOWN, 0, [], 0⟩).msgId.type =
        (if uRingBufferBytesDiscardUnprotected ⟨ubxFrame 5 1 [0x06, 0x8A], 0⟩ = 0 then
          U_GNSS_PROTOCOL_UBX else U_GNSS_PROTOCOL_UNKNOWN) ∧
      (U_GNSS_PROTOCOL_UNKNOWN ≠ U_GNSS_PROTOCOL_UBX →
        ((parseUbx ⟨ubxFrame 5 1 [0x06, 0x8A], 0⟩
            ⟨U_GNSS_PROTOCOL_UNKNOWN, 0, [], 0⟩).msgId.type = U_GNSS_PROTOCOL_UBX ↔
          uRingBufferBytesDiscardUnprotected ⟨ubxFrame 5 1 [0x06, 0x8A], 0⟩ = 0)) :=
  (parsers_type_tag 8 ⟨ubxFrame 5 1 [0x06, 0x8A], 0⟩ ⟨U_GNSS_PROTOCOL_UNKNOWN, 0, [], 0⟩).1
    (by decide)

/-! ## Theorems: message-identifier matching -/

/-- C13: a wanted identifier of type ANY accepts every actual identifier; one
of type ALL accepts exactly the actual identifiers whose type is not UNKNOWN;
one of type UNKNOWN accepts exactly those whose type is UNKNOWN. -/
theorem isWanted_meta_types (a w : uGnssPrivateMessageId_t) :
    (w.type = U_GNSS_PROTOCOL_ANY → uGnssPrivateMessageIdIsWanted a w = true) ∧
    (w.type = U_GNSS_PROTOCOL_ALL →
      (uGnssPrivateMessageIdIsWanted a w = true ↔ a.type ≠ U_GNSS_PROTOCOL_UNKNOWN)) ∧
    (w.type = U_GNSS_PROTOCOL_UNKNOWN →
      (uGnssPrivateMessageIdIsWanted a w = true ↔ a.type = U_GNSS_PROTOCOL_UNKNOWN)) := by
  refine ⟨fun h => ?_, fun h => ?_, fun h => ?_⟩
  · simp [uGnssPrivateMessageIdIsWanted, h]
  · by_cases ha : a.type = U_GNSS_PROTOCOL_UNKNOWN <;>
      simp [uGnssPrivateMessageIdIsWanted, h, ha]
  · by_cases ha : a.type = U_GNSS_PROTOCOL_UNKNOWN <;>
      simp [uGnssPrivateMessageIdIsWanted, h, ha]

/-- Witness of C13: an RTCM identifier against a wanted identifier of type
ALL. -/
theorem isWanted_meta_types_witness :
    (uGnssPrivateMessageIdIsWanted ⟨U_GNSS_PROTOCOL_RTCM, 0, [], 1005⟩
        ⟨U_GNSS_PROTOCOL_ALL, 0, [], 0⟩ = true ↔
      (⟨U_GNSS_PROTOCOL_RTCM, 0, [], 1005⟩ : uGnssPrivateMessageId_t).type ≠
        U_GNSS_PROTOCOL_UNKNOWN) :=
  (isWanted_meta_types ⟨U_GNSS_PROTOCOL_RTCM, 0, [], 1005⟩ ⟨U_GNSS_PROTOCOL_ALL, 0, [], 0⟩).2.1
    rfl

/-- C14: a wanted identifier of type UBX, NMEA or RTCM never accepts an actual
identifier of another of these three types, whatever the identifier values. -/
theorem isWanted_cross_type (a w : uGnssPrivateMessageId_t)
    (hw : w.type = U_GNSS_PROTOCOL_UBX ∨ w.type = U_GNSS_PROTOCOL_NMEA ∨
      w.type = U_GNSS_PROTOCOL_RTCM)
    (ha : a.type = U_GNSS_PROTOCOL_UBX ∨ a.type = U_GNSS_PROTOCOL_NMEA ∨
      a.type = U_GNSS_PROTOCOL_RTCM)
    (hne : a.type ≠ w.type) :
    uGnssPrivateMessageIdIsWanted a w = false := by
  rcases hw with hw | hw | hw <;> rcases ha with ha | ha | ha <;>
    first
    | exact absurd (ha.trans hw.symm) hne
    | simp [uGnssPrivateMessageIdIsWanted, hw, ha]

/-- Witness of C14: an actual UBX identifier against the all-wildcard wanted
RTCM identifier. -/
theorem isWanted_cross_type_witness :
    uGnssPrivateMessageIdIsWanted ⟨U_GNSS_PROTOCOL_UBX, 0x0102, [], 0⟩
      ⟨U_GNSS_PROTOCOL_RTCM, 0, [], 0xFFFF⟩ = false :=
  isWanted_cross_type ⟨U_GNSS_PROTOCOL_UBX, 0x0102, [], 0⟩ ⟨U_GNSS_PROTOCOL_RTCM, 0, [], 0xFFFF⟩
    (by decide) (by decide) (by decide)

/-- C17: `rtcmIdMatch` is true exactly when the wanted identifier equals the
actual one or is the sentinel `U_GNSS_RTCM_MESSAGE_ID_ALL`; actual 1005 matches
wanted ALL. -/
theorem rtcmIdMatch_iff (rtcmIdActual rtcmIdWanted : Nat) :
    (rtcmIdMatch rtcmIdActual rtcmIdWanted = true ↔
      (rtcmIdWanted = rtcmIdActual ∨ rtcmIdWanted = U_GNSS_RTCM_MESSAGE_ID_ALL)) ∧
    rtcmIdMatch 1005 U_GNSS_RTCM_MESSAGE_ID_ALL = true := by
  refine ⟨?_, by decide⟩
  simp only [rtcmIdMatch, Bool.or_eq_true, decide_eq_true_eq]
  constructor
  · rintro (h | h)
    · exact Or.inl h.symm
    · exact Or.inr h
  · rintro (h | h)
    · exact Or.inl h.symm
    · exact Or.inr h

theorem or_low_byte (a m : Nat) : (a ||| m) % 256 = (a % 256) ||| (m % 256) := by
  apply Nat.eq_of_testBit_eq
  intro j
  have e : (256 : Nat) = 2 ^ 8 := by norm_num
  rw [e]
  simp only [Nat.testBit_mod_two_pow, Nat.testBit_or]
  by_cases hj : j < 8 <;> simp [hj]

theorem or_high_bytes (a m : Nat) : (a ||| m) / 256 = (a / 256) ||| (m / 256) := by
  apply Nat.eq_of_testBit_eq
  intro j
  have e : ∀ x : Nat, x / 256 = x >>> 8 := fun x => by rw [Nat.shiftRight_eq_div_pow]
  rw [e, e, e]
  simp only [Nat.testBit_shiftRight, Nat.testBit_or]

theorem and_low_byte (a m : Nat) : (a &&& m) % 256 = (a % 256) &&& (m % 256) := by
  apply Nat.eq_of_testBit_eq
  intro j
  have e : (256 : Nat) = 2 ^ 8 := by norm_num
  rw [e]
  simp only [Nat.testBit_mod_two_pow, Nat.testBit_and]
  by_cases hj : j < 8 <;> simp [hj]

theorem and_high_bytes (a m : Nat) : (a &&& m) / 256 = (a / 256) &&& (m / 256) := by
  apply Nat.eq_of_testBit_eq
  intro j
  have e : ∀ x : Nat, x / 256 = x >>> 8 := fun x => by rw [Nat.shiftRight_eq_div_pow]
  rw [e, e, e]
  simp only [Nat.testBit_shiftRight, Nat.testBit_and]

set_option maxRecDepth 1000000 in
theorem byte_or_255 : ∀ x, x < 256 → x ||| 255 = 255 := by decide

/-- What `ubxIdMatch` makes of the actual identifier: the low byte is forced to
0xFF when the wanted id byte is 0xFF, the high byte when the wanted class byte
is 0xFF. -/
theorem ubxIdMatch_bytes (a w : Nat) (ha : a < 65536) (hw : w < 65536) :
    ubxIdMatch a w = true ↔
      ((if w / 256 = 255 then 255 else a / 256) = w / 256 ∧
       (if w % 256 = 255 then 255 else a % 256) = w % 256) := by
  have c1 : (w &&& 0xFF = 0xFF) ↔ w % 256 = 255 := by rw [and_255]
  have c2 : (w &&& (0xFF <<< 8) = 0xFF <<< 8) ↔ w / 256 = 255 := by
    have h1 := and_low_byte w (0xFF <<< 8)
    have h2 := and_high_bytes w (0xFF <<< 8)
    have e1 : (0xFF <<< 8) % 256 = 0 := by decide
    have e2 : (0xFF <<< 8) / 256 = 255 := by decide
    have e3 : (0xFF <<< 8 : Nat) = 65280 := by decide
    rw [e1, Nat.and_zero] at h1
    rw [e2, and_255, Nat.mod_eq_of_lt (by omega)] at h2
    rw [e3] at h1 h2 ⊢
    omega
  have o1 : (a ||| 0xFF) % 256 = 255 ∧ (a ||| 0xFF) / 256 = a / 256 := by
    have h1 := or_low_byte a 0xFF
    have h2 := or_high_bytes a 0xFF
    rw [show (0xFF : Nat) % 256 = 255 from rfl, show (255 : Nat) = 0xFF from rfl] at h1
    rw [show (0xFF : Nat) / 256 = 0 from rfl, Nat.or_zero] at h2
    rw [byte_or_255 _ (Nat.mod_lt _ (by decide))] at h1
    exact ⟨h1, h2⟩
  have o2 : ∀ x, x < 65536 →
      (x ||| (0xFF <<< 8)) % 256 = x % 256 ∧ (x ||| (0xFF <<< 8)) / 256 = 255 := by
    intro x hx
    have h1 := or_low_byte x (0xFF <<< 8)
    have h2 := or_high_bytes x (0xFF <<< 8)
    rw [show (0xFF <<< 8 : Nat) % 256 = 0 from by decide, Nat.or_zero] at h1
    rw [show (0xFF <<< 8 : Nat) / 256 = 255 from by decide,
      byte_or_255 _ (by omega)] at h2
    exact ⟨h1, h2⟩
  simp only [ubxIdMatch, U_GNSS_UBX_MESSAGE_ID_ALL, U_GNSS_UBX_MESSAGE_CLASS_ALL,
    decide_eq_true_eq]
  by_cases h1 : w % 256 = 255 <;> by_cases h2 : w / 256 = 255
  · have := o2 ((a ||| 0xFF) % 65536) (Nat.mod_lt _ (by decide))
    rw [if_pos (c1.mpr h1), if_pos (c2.mpr h2), if_pos h1, if_pos h2]
    omega
  · rw [if_pos (c1.mpr h1), if_neg (fun h => h2 (c2.mp h)), if_pos h1, if_neg h2]
    omega
  · have := o2 a ha
    rw [if_neg (fun h => h1 (c1.mp h)), if_pos (c2.mpr h2), if_neg h1, if_pos h2]
    omega
  · rw [if_neg (fun h => h1 (c1.mp h)), if_neg (fun h => h2 (c2.mp h)), if_neg h1, if_neg h2]
    omega

/-- C15: for 16-bit UBX identifiers `ubxIdMatch` is true exactly when the wanted
class byte is 0xFF or equals the actual class byte, and the wanted id byte is
0xFF or equals the actual id byte; actual (0x01, 0x02) matches wanted
(ALL, 0x02). -/
theorem ubxIdMatch_iff (ubxIdActual ubxIdWanted : Nat)
    (ha : ubxIdActual < 65536) (hw : ubxIdWanted < 65536) :
    (ubxIdMatch ubxIdActual ubxIdWanted = true ↔
      ((ubxIdWanted / 256 = 0xFF ∨ ubxIdWanted / 256 = ubxIdActual / 256) ∧
       (ubxIdWanted % 256 = 0xFF ∨ ubxIdWanted % 256 = ubxIdActual % 256))) ∧
    ubxIdMatch ((0x01 <<< 8) ||| 0x02) ((U_GNSS_UBX_MESSAGE_CLASS_ALL <<< 8) ||| 0x02) = true := by
  refine ⟨?_, by decide⟩
  rw [ubxIdMatch_bytes _ _ ha hw]
  by_cases h1 : ubxIdWanted % 256 = 255 <;> by_cases h2 : ubxIdWanted / 256 = 255
  · rw [if_pos h1, if_pos h2]; omega
  · rw [if_pos h1, if_neg h2]; omega
  · rw [if_neg h1, if_pos h2]; omega
  · rw [if_neg h1, if_neg h2]; omega

/-- Witness of C15: actual (0x06, 0x8A) against wanted (0x06, ALL). -/
theorem ubxIdMatch_iff_witness :
    (ubxIdMatch 0x068A 0x06FF = true ↔
      (((0x06FF : Nat) / 256 = 0xFF ∨ (0x06FF : Nat) / 256 = 0x068A / 256) ∧
       ((0x06FF : Nat) % 256 = 0xFF ∨ (0x06FF : Nat) % 256 = 0x068A % 256))) ∧
    ubxIdMatch ((0x01 <<< 8) ||| 0x02) ((U_GNSS_UBX_MESSAGE_CLASS_ALL <<< 8) ||| 0x02) = true :=
  ubxIdMatch_iff 0x068A 0x06FF (by decide) (by decide)

theorem cString_cons (x : Nat) (xs : List Nat) :
    cString (x :: xs) = if x = 0 then [] else x :: cString xs := by
  by_cases h : x = 0 <;> simp [cString, List.takeWhile, h]

/-- The per-character rule of `nmeaIdMatch` on two strings: the wanted string
is no longer than the actual one and each of its characters is `?` or the
character of the actual string at the same place. -/
theorem nmea_rule_cons (x y : Nat) (W A : List Nat) :
    ((x :: W).length ≤ (y :: A).length ∧
      ∀ i, i < (x :: W).length → (x :: W).getD i 0 = 0x3F ∨ (x :: W).getD i 0 = (y :: A).getD i 0)
    ↔ ((x = 0x3F ∨ x = y) ∧ (W.length ≤ A.length ∧
      ∀ i, i < W.length → W.getD i 0 = 0x3F ∨ W.getD i 0 = A.getD i 0)) := by
  constructor
  · rintro ⟨hl, h⟩
    refine ⟨?_, ?_, ?_⟩
    · simpa using h 0 (by simp)
    · simpa using hl
    · intro i hi
      simpa using h (i + 1) (by simpa using hi)
  · rintro ⟨h0, hl, h⟩
    refine ⟨by simpa using hl, ?_⟩
    intro i hi
    cases i with
    | zero => simpa using h0
    | succ i => simpa using h i (by simpa using hi)

theorem nmeaIdMatchLoop_iff (actual wanted : List Nat) :
    nmeaIdMatchLoop actual wanted = true ↔
      ((cString wanted).length ≤ (cString actual).length ∧
        ∀ i, i < (cString wanted).length →
          (cString wanted).getD i 0 = 0x3F ∨
            (cString wanted).getD i 0 = (cString actual).getD i 0) := by
  induction wanted generalizing actual with
  | nil => simp [nmeaIdMatchLoop, cString]
  | cons w ws ih =>
    by_cases hw : w = 0
    · cases actual <;> simp [nmeaIdMatchLoop, hw, cString_cons]
    · cases actual with
      | nil => simp [nmeaIdMatchLoop, cString_cons, hw, cString]
      | cons a as =>
        simp only [nmeaIdMatchLoop, if_neg hw]
        by_cases ha : a = 0
        · simp [ha, cString_cons, hw]
        · rw [cString_cons w, cString_cons a, if_neg hw, if_neg ha, nmea_rule_cons, ← ih]
          by_cases hc : w ≠ 0x3F ∧ w ≠ a
          · have : ¬ (w = 0x3F ∨ w = a) := by
              rintro (h | h)
              · exact hc.1 h
              · exact hc.2 h
            simp [ha, hc, this]
          · have : w = 0x3F ∨ w = a := by
              by_cases h1 : w = 0x3F
              · exact Or.inl h1
              · by_cases h2 : w = a
                · exact Or.inr h2
                · exact absurd ⟨h1, h2⟩ hc
            rw [if_neg (by simp only [ha, false_or]; exact hc)]
            simp [this]

/-- C16: for NUL-terminated strings `nmeaIdMatch` is true exactly when the
wanted string is no longer than the actual one and each character of the
wanted string is `?` or equals the character of the actual string at the same
position; wanted `GP??A` matches actual `GPGGA`, the wanted `GP` matches it
too, and the wanted `GPGGA` does not match the shorter actual `GPGG`. -/
theorem nmeaIdMatch_iff (actual wanted : List Nat) :
    (nmeaIdMatch (some actual) (some wanted) = true ↔
      ((cString wanted).length ≤ (cString actual).length ∧
        ∀ i, i < (cString wanted).length →
          (cString wanted).getD i 0 = 0x3F ∨
            (cString wanted).getD i 0 = (cString actual).getD i 0)) ∧
    nmeaIdMatch (some [0x47, 0x50, 0x47, 0x47, 0x41, 0])
      (some [0x47, 0x50, 0x3F, 0x3F, 0x41, 0]) = true ∧
    nmeaIdMatch (some [0x47, 0x50, 0x47, 0x47, 0x41, 0]) (some [0x47, 0x50, 0]) = true ∧
    nmeaIdMatch (some [0x47, 0x50, 0x47, 0x47, 0])
      (some [0x47, 0x50, 0x47, 0x47, 0x41, 0]) = false := by
  refine ⟨?_, by decide, by decide, by decide⟩
  rw [nmeaIdMatch]
  exact nmeaIdMatchLoop_iff actual wanted

/-! ## Theorems: decoder loop -/

/-- One turn of the decoder loop on an unwanted frame of positive length that
is not a matching UBX ACK-NACK: the frame is read off the cursor and the loop
goes round again. -/
theorem decodeLoop_discard (parse : List Nat → errorCodeOrLength_t × uGnssPrivateMessageId_t)
    (fuel : Nat) (cursor : List Nat) (wanted msg : uGnssPrivateMessageId_t) (n : Nat)
    (hp : parse cursor = (.length (n + 1), msg))
    (hw : uGnssPrivateMessageIdIsWanted msg wanted = false)
    (hn : ¬ (wanted.type = U_GNSS_PROTOCOL_UBX ∧ msg.type = U_GNSS_PROTOCOL_UBX ∧
      msg.ubx = 0x0500 ∧ n + 1 = 10 ∧ 10 ≤ cursor.length ∧
      ubxIdMatch (((cursor.getD 6 0 <<< 8) ||| cursor.getD 7 0) % 65536) wanted.ubx = true)) :
    decodeLoop parse (fuel + 1) cursor wanted =
      decodeLoop parse fuel (cursor.drop (n + 1)) wanted := by
  rw [decodeLoop, hp]
  simp only [hw, Bool.false_eq_true, if_false, uRingBufferReadHandle]
  by_cases hs : wanted.type = U_GNSS_PROTOCOL_UBX ∧ msg.type = U_GNSS_PROTOCOL_UBX ∧
      msg.ubx = 0x0500 ∧ n + 1 = 10
  · rw [if_pos hs, hs.2.2.2]
    by_cases hl : 10 = (cursor.take 10).length
    · rw [if_pos hl]
      have hlen : 10 ≤ cursor.length := by
        rw [List.length_take] at hl
        omega
      have h6 : (cursor.take 10).getD 6 0 = cursor.getD 6 0 := by
        simp [List.getD_eq_getElem?_getD, List.getElem?_take]
      have h7 : (cursor.take 10).getD 7 0 = cursor.getD 7 0 := by
        simp [List.getD_eq_getElem?_getD, List.getElem?_take]
      rw [h6, h7]
      have hm : ¬ ubxIdMatch (((cursor.getD 6 0 <<< 8) ||| cursor.getD 7 0) % 65536)
          wanted.ubx = true := fun h => hn ⟨hs.1, hs.2.1, hs.2.2.1, hs.2.2.2, hlen, h⟩
      rw [if_neg hm]
    · rw [if_neg hl]
  · rw [if_neg hs]

/-- One turn of the decoder loop on an unwanted 10-byte UBX ACK-NACK frame
whose body matches the wanted UBX identifier: the frame is read off the cursor
and the loop ends with the negative-acknowledgement error. -/
theorem decodeLoop_nack (parse : List Nat → errorCodeOrLength_t × uGnssPrivateMessageId_t)
    (fuel : Nat) (cursor : List Nat) (wanted msg : uGnssPrivateMessageId_t)
    (hp : parse cursor = (.length 10, msg))
    (hw : uGnssPrivateMessageIdIsWanted msg wanted = false)
    (hs : wanted.type = U_GNSS_PROTOCOL_UBX ∧ msg.type = U_GNSS_PROTOCOL_UBX ∧
      msg.ubx = 0x0500)
    (hlen : 10 ≤ cursor.length)
    (hm : ubxIdMatch (((cursor.getD 6 0 <<< 8) ||| cursor.getD 7 0) % 65536) wanted.ubx = true) :
    decodeLoop parse (fuel + 1) cursor wanted =
      some ⟨.error (.gnss .U_GNSS_ERROR_NACK), cursor.drop 10, wanted⟩ := by
  rw [decodeLoop, hp]
  simp only [hw, Bool.false_eq_true, if_false, uRingBufferReadHandle]
  have h6 : (cursor.take 10).getD 6 0 = cursor.getD 6 0 := by
    simp [List.getD_eq_getElem?_getD, List.getElem?_take]
  have h7 : (cursor.take 10).getD 7 0 = cursor.getD 7 0 := by
    simp [List.getD_eq_getElem?_getD, List.getElem?_take]
  have hl : 10 = (cursor.take 10).length := by
    rw [List.length_take]
    omega
  rw [if_pos ⟨hs.1, hs.2.1, hs.2.2, trivial⟩, if_pos hl, h6, h7, if_pos hm]

/-- A positive length returned by the decoder loop is the one `parse` reports
for the cursor as the loop leaves it, with an identifier that is wanted; the
bytes consumed before were unwanted frames. -/
theorem decodeLoop_positive (parse : List Nat → errorCodeOrLength_t × uGnssPrivateMessageId_t)
    (fuel : Nat) (cursor : List Nat) (wanted : uGnssPrivateMessageId_t) (o : DecodeOutcome)
    (n : Nat) (h : decodeLoop parse fuel cursor wanted = some o)
    (ho : o.errorCodeOrLength = .length n) (hn : 0 < n) :
    parse o.cursor = (.length n, o.privateMessageId) ∧
    uGnssPrivateMessageIdIsWanted o.privateMessageId wanted = true ∧
    ConsumedUnwanted parse wanted cursor o.cursor := by
  induction fuel generalizing cursor with
  | zero => simp [decodeLoop] at h
  | succ fuel ih =>
    rcases hp : parse cursor with ⟨r, msg⟩
    cases r with
    | error e =>
      rw [decodeLoop, hp] at h
      simp only [Option.some.injEq] at h
      rw [← h] at ho
      simp at ho
    | length k =>
      cases k with
      | zero =>
        rw [decodeLoop, hp] at h
        simp only [Option.some.injEq] at h
        rw [← h] at ho
        simp only [errorCodeOrLength_t.length.injEq] at ho
        omega
      | succ k =>
        by_cases hw : uGnssPrivateMessageIdIsWanted msg wanted = true
        · rw [decodeLoop, hp] at h
          simp only [hw, if_true, Option.some.injEq] at h
          rw [← h] at ho ⊢
          simp only [errorCodeOrLength_t.length.injEq] at ho
          rw [← ho]
          exact ⟨hp, hw, ConsumedUnwanted.done _⟩
        · have hw2 : uGnssPrivateMessageIdIsWanted msg wanted = false := by
            simpa using hw
          by_cases hs : wanted.type = U_GNSS_PROTOCOL_UBX ∧ msg.type = U_GNSS_PROTOCOL_UBX ∧
              msg.ubx = 0x0500 ∧ k + 1 = 10 ∧ 10 ≤ cursor.length ∧
              ubxIdMatch (((cursor.getD 6 0 <<< 8) ||| cursor.getD 7 0) % 65536)
                wanted.ubx = true
          · have hk : k + 1 = 10 := hs.2.2.2.1
            rw [hk] at hp
            rw [decodeLoop_nack parse fuel cursor wanted msg hp hw2
              ⟨hs.1, hs.2.1, hs.2.2.1⟩ hs.2.2.2.2.1 hs.2.2.2.2.2] at h
            simp only [Option.some.injEq] at h
            rw [← h] at ho
            simp at ho
          · rw [decodeLoop_discard parse fuel cursor wanted msg k hp hw2 hs] at h
            obtain ⟨h1, h2, h3⟩ := ih _ h
            exact ⟨h1, h2, ConsumedUnwanted.step _ _ k msg hp hw2 h3⟩

/-- The decoder loop ends within as many turns as the cursor has bytes, plus
one, when `parse` reports a positive length only on a cursor that is not
empty. -/
theorem decodeLoop_enough_fuel
    (parse : List Nat → errorCodeOrLength_t × uGnssPrivateMessageId_t)
    (hparse : ∀ c n msg, parse c = (.length (n + 1), msg) → c ≠ [])
    (fuel : Nat) (cursor : List Nat) (wanted : uGnssPrivateMessageId_t)
    (hf : cursor.length < fuel) :
    ∃ o, decodeLoop parse fuel cursor wanted = some o := by
  induction fuel generalizing cursor with
  | zero => omega
  | succ fuel ih =>
    rcases hp : parse cursor with ⟨r, msg⟩
    cases r with
    | error e => exact ⟨_, by rw [decodeLoop, hp]⟩
    | length k =>
      cases k with
      | zero => exact ⟨_, by rw [decodeLoop, hp]⟩
      | succ k =>
        by_cases hw : uGnssPrivateMessageIdIsWanted msg wanted = true
        · refine ⟨⟨.length (k + 1), cursor, msg⟩, ?_⟩
          rw [decodeLoop, hp]
          simp only [hw, if_true]
        · have hw2 : uGnssPrivateMessageIdIsWanted msg wanted = false := by
            simpa using hw
          by_cases hs : wanted.type = U_GNSS_PROTOCOL_UBX ∧ msg.type = U_GNSS_PROTOCOL_UBX ∧
              msg.ubx = 0x0500 ∧ k + 1 = 10 ∧ 10 ≤ cursor.length ∧
              ubxIdMatch (((cursor.getD 6 0 <<< 8) ||| cursor.getD 7 0) % 65536)
                wanted.ubx = true
          · have hk : k + 1 = 10 := hs.2.2.2.1
            rw [hk] at hp
            exact ⟨_, decodeLoop_nack parse fuel cursor wanted msg hp hw2
              ⟨hs.1, hs.2.1, hs.2.2.1⟩ hs.2.2.2.2.1 hs.2.2.2.2.2⟩
          · rw [decodeLoop_discard parse fuel cursor wanted msg k hp hw2 hs]
            apply ih
            have hne := hparse cursor k msg hp
            have : 0 < cursor.length := List.length_pos.mpr hne
            rw [List.length_drop]
            omega

/-- C18: when `uGnssPrivateStreamDecodeRingBuffer` returns a positive length,
that length and the identifier written to the caller are the ones
`uRingBufferParseHandle` reports at the head of the cursor as the call leaves
it (the frame is not consumed), that identifier is accepted by
`uGnssPrivateMessageIdIsWanted` against the identifier the caller wanted, and
everything the call consumed from the cursor were frames that were not
wanted. -/
theorem decode_positive_is_wanted
    (parse : List Nat → errorCodeOrLength_t × uGnssPrivateMessageId_t) (fuel : Nat)
    (pRingBuffer : Option (List Nat)) (pPrivateMessageId : Option uGnssPrivateMessageId_t)
    (n : Nat) (rb : Option (List Nat)) (id : Option uGnssPrivateMessageId_t)
    (hr : uGnssPrivateStreamDecodeRingBuffer parse fuel pRingBuffer pPrivateMessageId =
      some (.length n, rb, id))
    (hn : 0 < n) :
    ∃ cursor wanted cursor1 msg,
      pRingBuffer = some cursor ∧ pPrivateMessageId = some wanted ∧
      rb = some cursor1 ∧ id = some msg ∧
      parse cursor1 = (.length n, msg) ∧
      uGnssPrivateMessageIdIsWanted msg wanted = true ∧
      ConsumedUnwanted parse wanted cursor cursor1 := by
  cases pRingBuffer with
  | none =>
    cases pPrivateMessageId <;> simp [uGnssPrivateStreamDecodeRingBuffer] at hr
  | some cursor =>
    cases pPrivateMessageId with
    | none => simp [uGnssPrivateStreamDecodeRingBuffer] at hr
    | some wanted =>
      simp only [uGnssPrivateStreamDecodeRingBuffer, Option.map_eq_some', Prod.mk.injEq] at hr
      obtain ⟨o, ho, h1, h2, h3⟩ := hr
      obtain ⟨p1, p2, p3⟩ := decodeLoop_positive parse fuel cursor wanted o n ho h1 hn
      exact ⟨cursor, wanted, o.cursor, o.privateMessageId, rfl, rfl, h2.symm, h3.symm,
        p1, p2, p3⟩

/-- Witness of C18: the cursor holds the UBX-ACK-ACK frame for (0x06, 0x8A), the
caller wants a UBX message of class 0x05 with any id; the parse is the model of
`uRingBufferParseHandle` with a limit of 8 tag characters. -/
theorem decode_positive_is_wanted_witness :
    ∃ cursor wanted cursor1 msg,
      some (ubxFrame 5 1 [0x06, 0x8A]) = some cursor ∧
      some (⟨U_GNSS_PROTOCOL_UBX, 0x05FF, [], 0⟩ : uGnssPrivateMessageId_t) = some wanted ∧
      some (ubxFrame 5 1 [0x06, 0x8A]) = some cursor1 ∧
      some (⟨U_GNSS_PROTOCOL_UBX, 0x0501, List.replicate 9 0, 0⟩ : uGnssPrivateMessageId_t)
        = some msg ∧
      uRingBufferParseHandle 8 cursor1 = (.length 10, msg) ∧
      uGnssPrivateMessageIdIsWanted msg wanted = true ∧
      ConsumedUnwanted (uRingBufferParseHandle 8) wanted cursor cursor1 :=
  decode_positive_is_wanted (uRingBufferParseHandle 8) 11
    (some (ubxFrame 5 1 [0x06, 0x8A])) (some ⟨U_GNSS_PROTOCOL_UBX, 0x05FF, [], 0⟩) 10
    (some (ubxFrame 5 1 [0x06, 0x8A]))
    (some ⟨U_GNSS_PROTOCOL_UBX, 0x0501, List.replicate 9 0, 0⟩)
    (by decide) (by decide)

/-- C19: in the decoder loop, when the wanted identifier is UBX-typed and the
frame at the head of the cursor is an unwanted 10-byte UBX ACK-NACK frame
(identifier 0x0500) whose body bytes, at offsets 6 and 7, match the wanted UBX
identifier under `ubxIdMatch`, the call ends with the negative-acknowledgement
error; any other unwanted frame of positive length is taken off the cursor and
the loop goes on with what follows it. -/
theorem decode_unwanted_frame
    (parse : List Nat → errorCodeOrLength_t × uGnssPrivateMessageId_t) (fuel : Nat)
    (cursor : List Nat) (wanted msg : uGnssPrivateMessageId_t) (n : Nat)
    (hp : parse cursor = (.length (n + 1), msg))
    (hw : uGnssPrivateMessageIdIsWanted msg wanted = false) :
    ((wanted.type = U_GNSS_PROTOCOL_UBX ∧ msg.type = U_GNSS_PROTOCOL_UBX ∧
        msg.ubx = 0x0500 ∧ n + 1 = 10 ∧ 10 ≤ cursor.length ∧
        ubxIdMatch (((cursor.getD 6 0 <<< 8) ||| cursor.getD 7 0) % 65536) wanted.ubx = true) →
      uGnssPrivateStreamDecodeRingBuffer parse (fuel + 1) (some cursor) (some wanted) =
        some (.error (.gnss .U_GNSS_ERROR_NACK), some (cursor.drop 10), some wanted)) ∧
    (¬ (wanted.type = U_GNSS_PROTOCOL_UBX ∧ msg.type = U_GNSS_PROTOCOL_UBX ∧
        msg.ubx = 0x0500 ∧ n + 1 = 10 ∧ 10 ≤ cursor.length ∧
        ubxIdMatch (((cursor.getD 6 0 <<< 8) ||| cursor.getD 7 0) % 65536) wanted.ubx = true) →
      uGnssPrivateStreamDecodeRingBuffer parse (fuel + 1) (some cursor) (some wanted) =
        uGnssPrivateStreamDecodeRingBuffer parse fuel (some (cursor.drop (n + 1)))
          (some wanted)) := by
  constructor
  · intro hs
    have hk : n + 1 = 10 := hs.2.2.2.1
    rw [hk] at hp
    simp only [uGnssPrivateStreamDecodeRingBuffer]
    rw [decodeLoop_nack parse fuel cursor wanted msg hp hw ⟨hs.1, hs.2.1, hs.2.2.1⟩
      hs.2.2.2.2.1 hs.2.2.2.2.2]
    rfl
  · intro hs
    simp only [uGnssPrivateStreamDecodeRingBuffer]
    rw [decodeLoop_discard parse fuel cursor wanted msg n hp hw hs]

set_option maxRecDepth 1000000 in
/-- Witness of C19: the cursor holds the UBX-ACK-NACK frame for (0x06, 0x8A) and
the caller wants the UBX message (0x06, 0x8A); the parse is the model of
`uRingBufferParseHandle` with a limit of 8 tag characters. -/
theorem decode_unwanted_frame_witness :
    uGnssPrivateStreamDecodeRingBuffer (uRingBufferParseHandle 8) (0 + 1)
        (some (ubxFrame 5 0 [0x06, 0x8A])) (some ⟨U_GNSS_PROTOCOL_UBX, 0x068A, [], 0⟩) =
      some (.error (.gnss .U_GNSS_ERROR_NACK), some ((ubxFrame 5 0 [0x06, 0x8A]).drop 10),
        some ⟨U_GNSS_PROTOCOL_UBX, 0x068A, [], 0⟩) :=
  (decode_unwanted_frame (uRingBufferParseHandle 8) 0 (ubxFrame 5 0 [0x06, 0x8A])
    ⟨U_GNSS_PROTOCOL_UBX, 0x068A, [], 0⟩
    ⟨U_GNSS_PROTOCOL_UBX, 0x0500, List.replicate 9 0, 0⟩ 9 (by decide) (by decide)).1
    (by decide)

/-! ## Theorems: acknowledged send -/

/-- C20: for a sent class `c` and id `i`, when the reply handed back by
`sendReceiveUbxMessage` is the UBX frame (0x05, 0x01) with the 2-byte body
`[c, i]` (body length 2 returned, class and id of the reply in the response
structure, the body in `ackBody`), `uGnssPrivateSendUbxMessage` returns
success, and when it is the UBX frame (0x05, 0x00) with body `[c, i]` it
returns the negative-acknowledgement error. -/
theorem sendUbxMessage_ack_nack
    (sendReceiveUbxMessage : Int → Int → uGnssPrivateUbxReceiveMessage_t →
      errorCodeOrLength_t × uGnssPrivateUbxReceiveMessage_t)
    (c i : Nat) (id : Int)
    (hlen : (sendReceiveUbxMessage c i ⟨0x05, -1, some (some [0, 0]), 2⟩).1 = .length 2)
    (hcls : (sendReceiveUbxMessage c i ⟨0x05, -1, some (some [0, 0]), 2⟩).2.cls = 0x05)
    (hid : (sendReceiveUbxMessage c i ⟨0x05, -1, some (some [0, 0]), 2⟩).2.id = id)
    (hbody : (sendReceiveUbxMessage c i ⟨0x05, -1, some (some [0, 0]), 2⟩).2.ppBody =
      some (some [c, i])) :
    (id = 0x01 → uGnssPrivateSendUbxMessage sendReceiveUbxMessage c i = .length 0) ∧
    (id = 0x00 → uGnssPrivateSendUbxMessage sendReceiveUbxMessage c i =
      .error (.gnss .U_GNSS_ERROR_NACK)) := by
  constructor
  · intro h
    simp [uGnssPrivateSendUbxMessage, hlen, hcls, hid, hbody, h]
  · intro h
    simp [uGnssPrivateSendUbxMessage, hlen, hcls, hid, hbody, h]

/-- Witness of C20: class 0x06, id 0x8A, acknowledged by the frame (0x05, 0x01)
with body `06 8A`. -/
theorem sendUbxMessage_ack_nack_witness :
    uGnssPrivateSendUbxMessage
      (fun _ _ _ => (.length 2, ⟨0x05, 0x01, some (some [0x06, 0x8A]), 2⟩))
      ((0x06 : Nat) : Int) ((0x8A : Nat) : Int) = .length 0 :=
  (sendUbxMessage_ack_nack
    (fun _ _ _ => (.length 2, ⟨0x05, 0x01, some (some [0x06, 0x8A]), 2⟩))
    0x06 0x8A 1 rfl rfl rfl rfl).1 rfl

/-- C21, as stated, fails: a reply of class 0x05 and id 0x00 whose 2-byte body
`06 00` does not name the sent class and id (0x06, 0x8A) is classified as the
unknown failure, not as a negative acknowledgement. -/
theorem sendUbxMessage_class5_other_body :
    uGnssPrivateSendUbxMessage
        (fun _ _ _ => (.length 2, ⟨0x05, 0x00, some (some [0x06, 0x00]), 2⟩)) 0x06 0x8A =
      .error (.common U_ERROR_COMMON_UNKNOWN) ∧
    uGnssPrivateSendUbxMessage
        (fun _ _ _ => (.length 2, ⟨0x05, 0x00, some (some [0x06, 0x00]), 2⟩)) 0x06 0x8A ≠
      .error (.gnss .U_GNSS_ERROR_NACK) := by
  constructor <;> decide

/-- C21, amended: `uGnssPrivateSendUbxMessage` classifies what
`sendReceiveUbxMessage` hands back as follows.  When it is a reply of class
0x05 with a 2-byte body whose bytes are the sent class and id: id 0x01 gives
success and any other id gives the negative acknowledgement.  Anything else
(a reply of another class, a body of another length, a class-0x05 reply whose
body does not name the sent class and id, an error) gives the unknown
failure. -/
theorem sendUbxMessage_classification
    (sendReceiveUbxMessage : Int → Int → uGnssPrivateUbxReceiveMessage_t →
      errorCodeOrLength_t × uGnssPrivateUbxReceiveMessage_t)
    (messageClass messageId : Int) (r : errorCodeOrLength_t × uGnssPrivateUbxReceiveMessage_t)
    (ackBody : List Nat)
    (hr : sendReceiveUbxMessage messageClass messageId ⟨0x05, -1, some (some [0, 0]), 2⟩ = r)
    (hb : ackBody = (r.2.ppBody.getD none).getD [0, 0]) :
    ((r.1 = .length 2 ∧ r.2.cls = 0x05 ∧ toChar (ackBody.getD 0 0) = toChar messageClass ∧
        toChar (ackBody.getD 1 0) = toChar messageId) →
      (r.2.id = 0x01 →
        uGnssPrivateSendUbxMessage sendReceiveUbxMessage messageClass messageId = .length 0) ∧
      (r.2.id ≠ 0x01 →
        uGnssPrivateSendUbxMessage sendReceiveUbxMessage messageClass messageId =
          .error (.gnss .U_GNSS_ERROR_NACK))) ∧
    (¬ (r.1 = .length 2 ∧ r.2.cls = 0x05 ∧ toChar (ackBody.getD 0 0) = toChar messageClass ∧
        toChar (ackBody.getD 1 0) = toChar messageId) →
      uGnssPrivateSendUbxMessage sendReceiveUbxMessage messageClass messageId =
        .error (.common U_ERROR_COMMON_UNKNOWN)) ∧
    (r.2.cls ≠ 0x05 →
      uGnssPrivateSendUbxMessage sendReceiveUbxMessage messageClass messageId =
        .error (.common U_ERROR_COMMON_UNKNOWN)) := by
  subst hr hb
  refine ⟨fun h => ⟨fun hid => ?_, fun hid => ?_⟩, fun h => ?_, fun h => ?_⟩
  · simp only [uGnssPrivateSendUbxMessage]
    rw [if_pos h, if_pos hid]
  · simp only [uGnssPrivateSendUbxMessage]
    rw [if_pos h, if_neg hid]
  · simp only [uGnssPrivateSendUbxMessage]
    rw [if_neg h]
  · simp only [uGnssPrivateSendUbxMessage]
    rw [if_neg (fun hc => h hc.2.1)]

/-- Witness of C21, amended: the reply (0x05, 0x00) with body `06 8A` to the
sent (0x06, 0x8A) is a negative acknowledgement. -/
theorem sendUbxMessage_classification_witness :
    uGnssPrivateSendUbxMessage
        (fun _ _ _ => (.length 2, ⟨0x05, 0x00, some (some [0x06, 0x8A]), 2⟩)) 0x06 0x8A =
      .error (.gnss .U_GNSS_ERROR_NACK) :=
  ((sendUbxMessage_classification
    (fun _ _ _ => (.length 2, ⟨0x05, 0x00, some (some [0x06, 0x8A]), 2⟩)) 0x06 0x8A
    (.length 2, ⟨0x05, 0x00, some (some [0x06, 0x8A]), 2⟩) [0x06, 0x8A] rfl rfl).1
    (by decide)).2 (by decide)

/-- C22, as stated, fails: when `sendReceiveUbxMessage` ends with Timeout,
`uGnssPrivateSendUbxMessage` returns the unknown failure, not Timeout. -/
theorem sendUbxMessage_timeout_lost :
    uGnssPrivateSendUbxMessage
        (fun _ _ r => (.error (.common U_ERROR_COMMON_TIMEOUT), r)) 0x06 0x8A =
      .error (.common U_ERROR_COMMON_UNKNOWN) ∧
    uGnssPrivateSendUbxMessage
        (fun _ _ r => (.error (.common U_ERROR_COMMON_TIMEOUT), r)) 0x06 0x8A ≠
      .error (.common U_ERROR_COMMON_TIMEOUT) := by
  constructor <;> decide

/-- C22, amended: when the underlying send-and-await step
`sendReceiveUbxMessage` ends with Timeout (or with any other error),
`uGnssPrivateSendUbxMessage` reports the unknown failure
`U_ERROR_COMMON_UNKNOWN` to its caller. -/
theorem sendUbxMessage_error_is_unknown
    (sendReceiveUbxMessage : Int → Int → uGnssPrivateUbxReceiveMessage_t →
      errorCodeOrLength_t × uGnssPrivateUbxReceiveMessage_t)
    (messageClass messageId : Int) (e : uError_t)
    (h : (sendReceiveUbxMessage messageClass messageId ⟨0x05, -1, some (some [0, 0]), 2⟩).1 =
      .error e) :
    uGnssPrivateSendUbxMessage sendReceiveUbxMessage messageClass messageId =
      .error (.common U_ERROR_COMMON_UNKNOWN) := by
  simp only [uGnssPrivateSendUbxMessage]
  rw [if_neg]
  rw [h]
  simp

/-- Witness of C22, amended: a send-and-await step that ends with Timeout. -/
theorem sendUbxMessage_error_is_unknown_witness :
    uGnssPrivateSendUbxMessage
        (fun _ _ r => (.error (.common U_ERROR_COMMON_TIMEOUT), r)) 0x06 0x8A =
      .error (.common U_ERROR_COMMON_UNKNOWN) :=
  sendUbxMessage_error_is_unknown
    (fun _ _ r => (.error (.common U_ERROR_COMMON_TIMEOUT), r)) 0x06 0x8A
    (.common U_ERROR_COMMON_TIMEOUT) rfl

/-! ## Theorems: receiving a UBX response -/

/-- The cast to `int32_t` keeps a number below 2^31. -/
theorem int32Cast_of_lt (x : Nat) (hx : x < 2147483648) : int32Cast x = (x : Int) := by
  have h : x % 4294967296 = x := Nat.mod_eq_of_lt (by omega)
  simp only [int32Cast, h, if_pos hx]

set_option maxRecDepth 100000 in
/-- C23, as stated, fails for a capacity that an `int32_t` cannot hold.  With a
body buffer of capacity 2147483648 (2^31) and the frame
`B5 62 0A 06 03 00 11 22 33 ..` of a 3-byte body, `(int32_t)
pResponse->bodySize` is -2147483648, the test `errorCodeOrLength > (int32_t)
pResponse->bodySize` holds for the body length 3 and `errorCodeOrLength`
becomes negative instead of `min 3 2147483648 = 3`; `memcpy` is then called
with that count and the call has no defined result. -/
theorem receiveUbxMessageStream_capacity_cast :
    int32Cast 2147483648 = -2147483648 ∧
    receiveUbxMessageStream
        (fixedEnv (.length 11, [0xB5, 0x62, 0x0A, 0x06, 0x03, 0x00, 0x11, 0x22, 0x33, 0x79, 0x23],
          ⟨U_GNSS_PROTOCOL_UBX, 0x0A06, [], 0⟩)) ()
        (some ⟨U_GNSS_TRANSPORT_UART, 0, 1, 1000, false, 0, false⟩)
        (some ⟨0x0A, 0x06, some (some [0, 0, 0]), 2147483648⟩) 1000 = none := by
  constructor <;> decide

/-- C23, amended: in `receiveUbxMessageStream`, when the receive function
reports a UBX frame of `m + 8` bytes, that is one with an `m`-byte body, two
things hold.  With a body buffer `buf` from the caller whose capacity
`bodySize` is below 2^31, the function returns `min m bodySize` and the buffer
holds the first `min m bodySize` body bytes (the bytes of the frame from
offset 6 on) followed by what it held before beyond them.  With a `ppBody`
that points to NULL and an allocation that succeeds, it returns `m` and the
new storage starts with the `m` body bytes.  In both cases `cls` and `id` are
the two bytes of the identifier received. -/
theorem receiveUbxMessageStream_body {σ : Type} (env : Env σ) (s s1 : σ)
    (inst : uGnssPrivateInstance_t) (response : uGnssPrivateUbxReceiveMessage_t)
    (timeoutMs : Int) (m : Nat) (frame : List Nat) (msg : uGnssPrivateMessageId_t)
    (hrecv : env.uGnssPrivateReceiveStreamMessage s inst
      { env.stack with type := U_GNSS_PROTOCOL_UBX,
                       ubx := receiveUbxWantedId response.cls response.id } timeoutMs =
        ((.length (m + 8), frame, msg), s1))
    (hframe : frame.length = m + 8) :
    (∀ buf : List Nat, response.ppBody = some (some buf) → response.bodySize < 2147483648 →
      receiveUbxMessageStream env s (some inst) (some response) timeoutMs =
        some ((.length (min m response.bodySize),
          some ⟨(msg.ubx >>> 8 : Nat), (msg.ubx &&& 0xFF : Nat),
            some (some ((frame.drop 6).take (min m response.bodySize) ++
              buf.drop (min m response.bodySize))), response.bodySize⟩), s1) ∧
      ((frame.drop 6).take (min m response.bodySize)).length = min m response.bodySize) ∧
    (response.ppBody = some none → ∀ (storage : List Nat) (s2 : σ),
      env.pUPortMalloc s1 m = (some storage, s2) →
      receiveUbxMessageStream env s (some inst) (some response) timeoutMs =
        some ((.length m,
          some ⟨(msg.ubx >>> 8 : Nat), (msg.ubx &&& 0xFF : Nat),
            some (some ((frame.drop 6).take m ++ storage.drop m)), response.bodySize⟩), s2) ∧
      ((frame.drop 6).take m).length = m) := by
  refine ⟨fun buf hbuf hsize => ⟨?_, ?_⟩, fun hnone storage s2 hmalloc => ⟨?_, ?_⟩⟩
  · have hcast := int32Cast_of_lt response.bodySize hsize
    have hlen : (if ((m : Nat) : Int) > int32Cast response.bodySize then
        int32Cast response.bodySize else ((m : Nat) : Int)) =
        ((min m response.bodySize : Nat) : Int) := by
      rw [hcast]
      by_cases h : m > response.bodySize
      · rw [if_pos (by omega), Nat.min_eq_right (Nat.le_of_lt h)]
      · rw [if_neg (by omega), Nat.min_eq_left (Nat.le_of_not_gt h)]
    simp only [receiveUbxMessageStream, hbuf, hrecv, U_UBX_PROTOCOL_OVERHEAD_LENGTH_BYTES,
      U_UBX_PROTOCOL_HEADER_LENGTH_BYTES, memcpy, Nat.add_sub_cancel, ge_iff_le,
      Nat.le_add_left, if_true, hlen, Int.toNat_ofNat]
    rw [if_neg (by omega)]
  · simp only [List.length_take, List.length_drop, hframe]
    omega
  · simp only [receiveUbxMessageStream, hnone, hrecv, U_UBX_PROTOCOL_OVERHEAD_LENGTH_BYTES,
      U_UBX_PROTOCOL_HEADER_LENGTH_BYTES, memcpy, Nat.add_sub_cancel, ge_iff_le,
      Nat.le_add_left, if_true, hmalloc]
  · simp only [List.length_take, List.length_drop, hframe]
    omega

/-- Witness of C23, amended: the frame `B5 62 0A 06 03 00 11 22 33 ..` received
into a buffer of two bytes gives 2 and the bytes `11 22`. -/
theorem receiveUbxMessageStream_body_witness :
    receiveUbxMessageStream
        (fixedEnv (.length 11, [0xB5, 0x62, 0x0A, 0x06, 0x03, 0x00, 0x11, 0x22, 0x33, 0x79, 0x23],
          ⟨U_GNSS_PROTOCOL_UBX, 0x0A06, [], 0⟩)) ()
        (some ⟨U_GNSS_TRANSPORT_UART, 0, 1, 1000, false, 0, false⟩)
        (some ⟨0x0A, 0x06, some (some [0, 0]), 2⟩) 1000 =
      some ((.length 2, some ⟨0x0A, 0x06, some (some [0x11, 0x22]), 2⟩), ()) :=
  ((receiveUbxMessageStream_body
    (fixedEnv (.length 11, [0xB5, 0x62, 0x0A, 0x06, 0x03, 0x00, 0x11, 0x22, 0x33, 0x79, 0x23],
      ⟨U_GNSS_PROTOCOL_UBX, 0x0A06, [], 0⟩)) () ()
    ⟨U_GNSS_TRANSPORT_UART, 0, 1, 1000, false, 0, false⟩
    ⟨0x0A, 0x06, some (some [0, 0]), 2⟩ 1000 3
    [0xB5, 0x62, 0x0A, 0x06, 0x03, 0x00, 0x11, 0x22, 0x33, 0x79, 0x23]
    ⟨U_GNSS_PROTOCOL_UBX, 0x0A06, [], 0⟩ rfl rfl).1 [0, 0] rfl (by decide)).1

/-- C26, as stated, fails: on an instance whose transport is AT,
`uGnssPrivateSetProtocolOut` returns InvalidParameter, not NotSupported. -/
theorem setProtocolOut_at_invalid_parameter :
    uGnssPrivateSetProtocolOut (fun (s : Unit) _ _ _ => (.length 0, s))
        (fun s _ _ _ _ _ _ _ => ((.length 0, []), s)) (fun _ => 3) ()
        (some ⟨U_GNSS_TRANSPORT_AT, 0, 1, 1000, false, 0, false⟩) U_GNSS_PROTOCOL_NMEA true =
      (.error (.common U_ERROR_COMMON_INVALID_PARAMETER), ()) ∧
    (uGnssPrivateSetProtocolOut (fun (s : Unit) _ _ _ => (.length 0, s))
        (fun s _ _ _ _ _ _ _ => ((.length 0, []), s)) (fun _ => 3) ()
        (some ⟨U_GNSS_TRANSPORT_AT, 0, 1, 1000, false, 0, false⟩) U_GNSS_PROTOCOL_NMEA true).1 ≠
      .error (.common U_ERROR_COMMON_NOT_SUPPORTED) := by
  constructor <;> decide

/-- C26, amended: on an instance whose transport is AT,
`uGnssPrivateStreamFillRingBuffer` and `uGnssPrivateGetProtocolOut` return
NotSupported and `uGnssPrivateSetProtocolOut` returns InvalidParameter; none of
the three reads from or writes to the transport (the state is unchanged). -/
theorem at_transport_operations {σ : Type}
    (fillLoop : σ → uGnssPrivateInstance_t → Int → Int → (errorCodeOrLength_t × Nat) × σ)
    (getProtocolOutUbxCfgVal getProtocolOutUbxCfgPrt : σ → uGnssPrivateInstance_t →
      errorCodeOrLength_t × σ)
    (setProtocolOutUbxCfgVal : σ → uGnssPrivateInstance_t → uGnssProtocol_t → Bool →
      errorCodeOrLength_t × σ)
    (uGnssPrivateSendReceiveUbxMessage : σ → uGnssPrivateInstance_t → Int → Int →
      Option (List Nat) → Nat → Option (List Nat) → Nat → (errorCodeOrLength_t × List Nat) × σ)
    (other : uGnssProtocol_t → Nat) (s : σ) (inst : uGnssPrivateInstance_t)
    (timeoutMs maxTimeMs : Int) (protocol : uGnssProtocol_t) (onNotOff : Bool)
    (hat : inst.transportType = U_GNSS_TRANSPORT_AT) :
    uGnssPrivateStreamFillRingBuffer fillLoop s (some inst) timeoutMs maxTimeMs =
      (.error (.common U_ERROR_COMMON_NOT_SUPPORTED), s) ∧
    uGnssPrivateGetProtocolOut getProtocolOutUbxCfgVal getProtocolOutUbxCfgPrt s (some inst) =
      (.error (.common U_ERROR_COMMON_NOT_SUPPORTED), s) ∧
    uGnssPrivateSetProtocolOut setProtocolOutUbxCfgVal uGnssPrivateSendReceiveUbxMessage other
        s (some inst) protocol onNotOff =
      (.error (.common U_ERROR_COMMON_INVALID_PARAMETER), s) := by
  refine ⟨?_, ?_, ?_⟩
  · have h : (uGnssPrivateGetStreamHandle (uGnssPrivateGetStreamType inst.transportType)
        inst.transportHandle).isHandle = false := by
      rw [hat]
      rfl
    simp only [uGnssPrivateStreamFillRingBuffer, h]
    rfl
  · simp only [uGnssPrivateGetProtocolOut, hat, ne_eq, not_true_eq_false, if_false]
  · simp only [uGnssPrivateSetProtocolOut, hat, ne_eq, not_true_eq_false, false_and, if_false]

/-- Witness of C26, amended: an AT instance. -/
theorem at_transport_operations_witness :
    uGnssPrivateStreamFillRingBuffer (fun (s : Unit) _ _ _ => ((.length 5, 5), s)) ()
        (some ⟨U_GNSS_TRANSPORT_AT, 0, 1, 1000, false, 0, false⟩) 100 0 =
      (.error (.common U_ERROR_COMMON_NOT_SUPPORTED), ()) :=
  (at_transport_operations (fun (s : Unit) _ _ _ => ((.length 5, 5), s))
    (fun s _ => (.length 0, s)) (fun s _ => (.length 0, s)) (fun s _ _ _ => (.length 0, s))
    (fun s _ _ _ _ _ _ _ => ((.length 0, []), s)) (fun _ => 3) ()
    ⟨U_GNSS_TRANSPORT_AT, 0, 1, 1000, false, 0, false⟩ 100 0 U_GNSS_PROTOCOL_NMEA true rfl).1

/-! ## Theorems: SPI fill -/

/-- On a block made of filler bytes only the loop of
`uGnssPrivateSpiAddReceivedData` counts every byte. -/
theorem spiFillCount_replicate (n : Nat) :
    spiFillCount n (List.replicate n U_GNSS_PRIVATE_SPI_FILL) = n := by
  induction n with
  | zero => rfl
  | succ k ih => simp [List.replicate_succ, spiFillCount, ih]

/-- On a block that starts with `k` filler bytes followed by another byte the
loop of `uGnssPrivateSpiAddReceivedData` counts `k`, when `size` reaches beyond
them. -/
theorem spiFillCount_run (k j r : Nat) (rest : List Nat) (hr : r ≠ U_GNSS_PRIVATE_SPI_FILL) :
    spiFillCount (k + j + 1) (List.replicate k U_GNSS_PRIVATE_SPI_FILL ++ r :: rest) = k := by
  induction k with
  | zero => simp [spiFillCount, hr]
  | succ k ih =>
    have e : k + 1 + j + 1 = (k + j + 1) + 1 := by omega
    rw [e, List.replicate_succ, List.cons_append, spiFillCount, if_pos rfl, ih]

/-- C27, as stated, fails: with the fill threshold 4 the block `FF FF` is
force-added to the SPI ring buffer as it is.  The ring buffer of the example
is the list of the blocks force-added to it. -/
theorem spiAdd_short_fill_block_added :
    uGnssPrivateSpiAddReceivedData (fun (rb : List (List Nat)) b => rb ++ [b])
        (fun rb _ _ => rb) (fun rb => (rb.map List.length).sum)
        (some ⟨U_GNSS_TRANSPORT_SPI, 0, 4, 1000, false, 4, false⟩) (some [])
        (some [0xFF, 0xFF]) 2 =
      (.length 2, some [[0xFF, 0xFF]]) := by
  decide

/-- C27, amended: for a block of `n > 0` filler bytes 0xFF given to
`uGnssPrivateSpiAddReceivedData` with a fill threshold `t > 0`: when `n` is at
least `t` no byte of the block is force-added (the forced add is of zero
bytes); when `n` is below `t` the whole block is force-added, and it is left to
`uRingBufferFlushValue`, called next on the ring buffer, to take fill out. -/
theorem spiAdd_fill_only_block {ρ : Type}
    (uRingBufferForceAdd : ρ → List Nat → ρ) (uRingBufferFlushValue : ρ → Nat → Int → ρ)
    (uRingBufferDataSize : ρ → Nat) (inst : uGnssPrivateInstance_t) (rb : ρ) (n : Nat)
    (hn : 0 < n) (ht : 0 < inst.spiFillThreshold) :
    (inst.spiFillThreshold ≤ n →
      uGnssPrivateSpiAddReceivedData uRingBufferForceAdd uRingBufferFlushValue
          uRingBufferDataSize (some inst) (some rb) (some (List.replicate n 0xFF)) n =
        (.length (uRingBufferDataSize (uRingBufferFlushValue (uRingBufferForceAdd rb [])
            0xFF inst.spiFillThreshold)),
          some (uRingBufferFlushValue (uRingBufferForceAdd rb []) 0xFF
            inst.spiFillThreshold))) ∧
    ((n : Int) < inst.spiFillThreshold →
      uGnssPrivateSpiAddReceivedData uRingBufferForceAdd uRingBufferFlushValue
          uRingBufferDataSize (some inst) (some rb) (some (List.replicate n 0xFF)) n =
        (.length (uRingBufferDataSize (uRingBufferFlushValue
            (uRingBufferForceAdd rb (List.replicate n 0xFF)) 0xFF inst.spiFillThreshold)),
          some (uRingBufferFlushValue (uRingBufferForceAdd rb (List.replicate n 0xFF)) 0xFF
            inst.spiFillThreshold))) := by
  have hc := spiFillCount_replicate n
  simp only [U_GNSS_PRIVATE_SPI_FILL] at hc
  constructor
  · intro hle
    simp only [uGnssPrivateSpiAddReceivedData, U_GNSS_PRIVATE_SPI_FILL, hc, gt_iff_lt, hn,
      ht, ge_iff_le, hle, and_self, if_true, List.drop_replicate, Nat.sub_self,
      List.replicate_zero, List.take_nil, true_and]
  · intro hlt
    have h1 : ¬ (inst.spiFillThreshold ≤ (n : Int)) := by omega
    simp only [uGnssPrivateSpiAddReceivedData, U_GNSS_PRIVATE_SPI_FILL, gt_iff_lt, hn,
      ht, ge_iff_le, h1, if_true, if_false, List.drop_zero, Nat.sub_zero, List.take_replicate,
      Nat.min_self, and_false, true_and]

/-- Witness of C27, amended: three filler bytes against the threshold 2 are
dropped. -/
theorem spiAdd_fill_only_block_witness :
    uGnssPrivateSpiAddReceivedData (fun (rb : List (List Nat)) b => rb ++ [b])
        (fun rb _ _ => rb) (fun rb => (rb.map List.length).sum)
        (some ⟨U_GNSS_TRANSPORT_SPI, 0, 4, 1000, false, 2, false⟩) (some [])
        (some (List.replicate 3 0xFF)) 3 =
      (.length 0, some [[]]) :=
  (spiAdd_fill_only_block (fun (rb : List (List Nat)) b => rb ++ [b])
    (fun rb _ _ => rb) (fun rb => (rb.map List.length).sum)
    ⟨U_GNSS_TRANSPORT_SPI, 0, 4, 1000, false, 2, false⟩ [] 3 (by decide) (by decide)).1
    (by decide)

/-- C28, as stated, fails: with the fill threshold 2 the block `FF FF 01 FF`
has its two leading filler bytes dropped, but the trailing filler byte is
force-added with the data (first part); and the block `FF 01 02`, whose leading
run of fill is shorter than the threshold, is force-added whole (second
part). -/
theorem spiAdd_mixed_block_keeps_fill :
    uGnssPrivateSpiAddReceivedData (fun (rb : List (List Nat)) b => rb ++ [b])
        (fun rb _ _ => rb) (fun rb => (rb.map List.length).sum)
        (some ⟨U_GNSS_TRANSPORT_SPI, 0, 4, 1000, false, 2, false⟩) (some [])
        (some [0xFF, 0xFF, 0x01, 0xFF]) 4 =
      (.length 2, some [[0x01, 0xFF]]) ∧
    uGnssPrivateSpiAddReceivedData (fun (rb : List (List Nat)) b => rb ++ [b])
        (fun rb _ _ => rb) (fun rb => (rb.map List.length).sum)
        (some ⟨U_GNSS_TRANSPORT_SPI, 0, 4, 1000, false, 2, false⟩) (some [])
        (some [0xFF, 0x01, 0x02]) 3 =
      (.length 3, some [[0xFF, 0x01, 0x02]]) := by
  constructor <;> decide

/-- C28, amended: for a block given to `uGnssPrivateSpiAddReceivedData` that
starts with `k` filler bytes 0xFF followed by a byte `r` that is not filler
and by any bytes `rest`, and whose length is at least the fill threshold
`t > 0`: when `k` is at least `t` the bytes force-added are the block without
its leading run of fill, `r :: rest`; otherwise they are the whole block.
Filler bytes in `rest`, in the middle or at the end of the block, are
force-added in both cases. -/
theorem spiAdd_mixed_block {ρ : Type}
    (uRingBufferForceAdd : ρ → List Nat → ρ) (uRingBufferFlushValue : ρ → Nat → Int → ρ)
    (uRingBufferDataSize : ρ → Nat) (inst : uGnssPrivateInstance_t) (rb : ρ) (k r : Nat)
    (rest : List Nat) (hr : r ≠ 0xFF) (ht : 0 < inst.spiFillThreshold)
    (hsize : inst.spiFillThreshold ≤ ((List.replicate k 0xFF ++ r :: rest).length : Int)) :
    (inst.spiFillThreshold ≤ k →
      uGnssPrivateSpiAddReceivedData uRingBufferForceAdd uRingBufferFlushValue
          uRingBufferDataSize (some inst) (some rb)
          (some (List.replicate k 0xFF ++ r :: rest))
          (List.replicate k 0xFF ++ r :: rest).length =
        (.length (uRingBufferDataSize (uRingBufferFlushValue
            (uRingBufferForceAdd rb (r :: rest)) 0xFF inst.spiFillThreshold)),
          some (uRingBufferFlushValue (uRingBufferForceAdd rb (r :: rest)) 0xFF
            inst.spiFillThreshold))) ∧
    ((k : Int) < inst.spiFillThreshold →
      uGnssPrivateSpiAddReceivedData uRingBufferForceAdd uRingBufferFlushValue
          uRingBufferDataSize (some inst) (some rb)
          (some (List.replicate k 0xFF ++ r :: rest))
          (List.replicate k 0xFF ++ r :: rest).length =
        (.length (uRingBufferDataSize (uRingBufferFlushValue
            (uRingBufferForceAdd rb (List.replicate k 0xFF ++ r :: rest)) 0xFF
            inst.spiFillThreshold)),
          some (uRingBufferFlushValue
            (uRingBufferForceAdd rb (List.replicate k 0xFF ++ r :: rest)) 0xFF
            inst.spiFillThreshold))) := by
  have hlen : (List.replicate k 0xFF ++ r :: rest).length = k + rest.length + 1 := by
    simp only [List.length_append, List.length_replicate, List.length_cons]
    omega
  have hc := spiFillCount_run k rest.length r rest hr
  simp only [U_GNSS_PRIVATE_SPI_FILL] at hc
  have hpos : 0 < k + rest.length + 1 := by omega
  rw [hlen] at hsize ⊢
  constructor
  · intro hle
    have hd : List.drop k (List.replicate k 255 ++ r :: rest) = r :: rest := by
      rw [List.drop_append_of_le_length (by simp)]
      simp
    have ht2 : List.take (k + rest.length + 1 - k) (r :: rest) = r :: rest := by
      apply List.take_of_length_le
      simp only [List.length_cons]
      omega
    simp only [uGnssPrivateSpiAddReceivedData, U_GNSS_PRIVATE_SPI_FILL, hc, gt_iff_lt, hpos,
      ht, ge_iff_le, hsize, hle, if_true, hd, ht2, and_self]
  · intro hlt
    have h1 : ¬ (inst.spiFillThreshold ≤ (k : Int)) := by omega
    have ht2 : List.take (k + rest.length + 1) (List.replicate k 255 ++ r :: rest) =
        List.replicate k 255 ++ r :: rest := by
      apply List.take_of_length_le
      rw [hlen]
    simp only [uGnssPrivateSpiAddReceivedData, U_GNSS_PRIVATE_SPI_FILL, hc, gt_iff_lt, hpos,
      ht, ge_iff_le, hsize, h1, if_true, if_false, List.drop_zero, Nat.sub_zero, ht2,
      and_self]

/-- Witness of C28, amended: the block `FF FF 01 FF` against the threshold 2. -/
theorem spiAdd_mixed_block_witness :
    uGnssPrivateSpiAddReceivedData (fun (rb : List (List Nat)) b => rb ++ [b])
        (fun rb _ _ => rb) (fun rb => (rb.map List.length).sum)
        (some ⟨U_GNSS_TRANSPORT_SPI, 0, 4, 1000, false, 2, false⟩) (some [])
        (some [0xFF, 0xFF, 0x01, 0xFF]) 4 =
      (.length 2, some [[0x01, 0xFF]]) :=
  (spiAdd_mixed_block (fun (rb : List (List Nat)) b => rb ++ [b])
    (fun rb _ _ => rb) (fun rb => (rb.map List.length).sum)
    ⟨U_GNSS_TRANSPORT_SPI, 0, 4, 1000, false, 2, false⟩ [] 2 0x01 [0xFF] (by decide)
    (by decide) (by decide)).1 (by decide)

/-! ## Theorems: inside a cellular module -/

set_option maxRecDepth 100000 in
/-- C29: the code at the ATI response `SARA-R510M8S` (12 bytes read, the AT
client unlocked with 0): the response includes the text `M8`, and
`uGnssPrivateIsInsideCell` returns false; at the response `M`, which does not
include `M8`, it returns true.  The call is `strstr("M8", buffer)`, which looks
for the response inside `M8`. -/
theorem isInsideCell_looks_for_response_in_M8 :
    uGnssPrivateIsInsideCell
        (fun _ => (12, 0, [0x53, 0x41, 0x52, 0x41, 0x2D, 0x52, 0x35, 0x31, 0x30, 0x4D, 0x38, 0x53] ++
          List.replicate 52 0xAA))
        (some ⟨U_GNSS_TRANSPORT_AT, 0, 1, 1000, false, 0, false⟩) = false ∧
    strstr [0x53, 0x41, 0x52, 0x41, 0x2D, 0x52, 0x35, 0x31, 0x30, 0x4D, 0x38, 0x53]
        [0x4D, 0x38] = true ∧
    uGnssPrivateIsInsideCell (fun _ => (1, 0, [0x4D] ++ List.replicate 63 0xAA))
        (some ⟨U_GNSS_TRANSPORT_AT, 0, 1, 1000, false, 0, false⟩) = true ∧
    strstr [0x4D] [0x4D, 0x38] = false := by
  refine ⟨?_, ?_, ?_, ?_⟩ <;> decide

/-! ## Theorems: the legacy protocol output procedure -/

set_option maxRecDepth 100000 in
/-- C24: the code at a chip that misses the UBX-CFG-PRT command: every call of
`uGnssPrivateSendReceiveUbxMessage` succeeds, the counter of received messages
is 1 at the first poll and 3 at the second, a difference of 2, and
`setProtocolOutUbxCfgPrt` returns 0, success: `errorCode` holds the return
value of the call that sent the command and is not set back to the platform
error before the difference is tested.  The second part shows where the 0
comes from: `sendReceiveUbxMessage` with no response wanted (`ppBody` NULL)
returns 0 once the frame is sent. -/
theorem setProtocolOutUbxCfgPrt_success_without_three :
    setProtocolOutUbxCfgPrt lossyChip (fun _ => 3) 0
        ⟨U_GNSS_TRANSPORT_UART, 0, 1, 1000, false, 0, false⟩ U_GNSS_PROTOCOL_NMEA false =
      (.length 0, 3) ∧
    (sendReceiveUbxMessage (fixedEnv (.error (.common U_ERROR_COMMON_TIMEOUT), [],
        ⟨U_GNSS_PROTOCOL_UNKNOWN, 0, [], 0⟩)) ()
      (some ⟨U_GNSS_TRANSPORT_UART, 0, 1, 1000, false, 0, false⟩) 0x06 0x00
      (some [1, 0, 0, 0, 0xC0, 0x08, 0, 0, 0x80, 0x25, 0, 0, 7, 0, 1, 0, 0, 0, 0, 0]) 20
      ⟨0x06, 0x00, none, 0⟩).map (fun r => r.1.1) = some (.length 0) := by
  constructor <;> decide

/-- The 16-bit number decoded from two bytes is below 65536. -/
theorem uUbxProtocolUint16Decode_lt (p : List Nat) : uUbxProtocolUint16Decode p < 65536 := by
  unfold uUbxProtocolUint16Decode
  omega

/-- Storing a 16-bit number at offsets 14 and 15 and decoding it gives the
number back. -/
theorem decode_cfgPrtStoreMask (message : List Nat) (mask : Nat) (hm : mask < 65536)
    (hlen : 16 ≤ message.length) :
    uUbxProtocolUint16Decode ((cfgPrtStoreMask message mask).drop 14) = mask := by
  have h14 : 14 < message.length := by omega
  have h15 : 15 < message.length := by omega
  simp only [uUbxProtocolUint16Decode, cfgPrtStoreMask, List.getD_eq_getElem?_getD,
    List.getElem?_drop, Nat.add_zero, List.getElem?_set, List.length_set, h14, h15]
  simp
  omega

/-- A number below 65536 has no bit set from bit 16 on. -/
theorem testBit_high (mask : Nat) (hm : mask < 65536) (i : Nat) (hi : 16 ≤ i) :
    mask.testBit i = false := by
  apply Nat.testBit_lt_two_pow
  have h : 2 ^ 16 ≤ 2 ^ i := Nat.pow_le_pow_right (by norm_num) hi
  have e : (2 : Nat) ^ 16 = 65536 := by norm_num
  omega

/-- Clearing bit `b` of a 16-bit number, the way `mask &= ~(1 << b)` does. -/
theorem testBit_clear_bit (mask b j : Nat) (hm : mask < 65536) (hb16 : b < 16) :
    ((mask &&& ((2 ^ 32 - 1) ^^^ 2 ^ b)) % 2 ^ 16).testBit j =
      if j = b then false else mask.testBit j := by
  simp only [Nat.testBit_mod_two_pow, Nat.testBit_and, Nat.testBit_xor, Nat.testBit_two_pow,
    Nat.testBit_two_pow_sub_one]
  by_cases hj : j = b
  · subst hj
    simp [hb16]
    omega
  · have hj2 : ¬ b = j := fun h => hj h.symm
    by_cases h16 : j < 16
    · have h32 : j < 32 := by omega
      simp [hj, hj2, h16, h32]
    · simp [hj, h16, testBit_high mask hm j (by omega)]

/-- Setting bit `b` of a 16-bit number, the way `mask |= 1 << b` does. -/
theorem testBit_set_bit (mask b j : Nat) (hm : mask < 65536) (hb16 : b < 16) :
    ((mask ||| 2 ^ b) % 2 ^ 16).testBit j = if j = b then true else mask.testBit j := by
  simp only [Nat.testBit_mod_two_pow, Nat.testBit_or, Nat.testBit_two_pow]
  by_cases hj : j = b
  · subst hj
    simp [hb16]
  · have hj2 : ¬ b = j := fun h => hj h.symm
    by_cases h16 : j < 16
    · simp [hj, hj2, h16]
    · simp [hj, h16, testBit_high mask hm j (by omega)]

/-- The new mask of `setProtocolOutUbxCfgPrt` for the bit number `b` of the
protocol, as a bit operation on the old one. -/
theorem cfgPrtMask_eq (other : uGnssProtocol_t → Nat) (mask : Nat)
    (protocol : uGnssProtocol_t) (onNotOff : Bool) (b : Nat)
    (hb : (protocol = U_GNSS_PROTOCOL_UBX ∧ b = 0) ∨ (protocol = U_GNSS_PROTOCOL_NMEA ∧ b = 1) ∨
      (protocol = U_GNSS_PROTOCOL_RTCM ∧ b = 5)) :
    cfgPrtMask other mask protocol onNotOff =
      if onNotOff then (mask ||| 2 ^ b) % 2 ^ 16
      else (mask &&& ((2 ^ 32 - 1) ^^^ 2 ^ b)) % 2 ^ 16 := by
  rcases hb with ⟨hp, hb⟩ | ⟨hp, hb⟩ | ⟨hp, hb⟩ <;> subst hp <;> subst hb <;>
    cases onNotOff <;> simp only [cfgPrtMask, uGnssProtocolValue] <;> simp

/-- The bits of the new mask of `setProtocolOutUbxCfgPrt` for the bit number
`b` of the protocol: bit `b` is the requested state, every other bit is the
one of the old mask. -/
theorem cfgPrtMask_testBit (other : uGnssProtocol_t → Nat) (mask : Nat)
    (protocol : uGnssProtocol_t) (onNotOff : Bool) (b j : Nat) (hm : mask < 65536)
    (hb : (protocol = U_GNSS_PROTOCOL_UBX ∧ b = 0) ∨ (protocol = U_GNSS_PROTOCOL_NMEA ∧ b = 1) ∨
      (protocol = U_GNSS_PROTOCOL_RTCM ∧ b = 5)) :
    (cfgPrtMask other mask protocol onNotOff).testBit j =
      if j = b then onNotOff else mask.testBit j := by
  have hb16 : b < 16 := by
    rcases hb with ⟨_, hb⟩ | ⟨_, hb⟩ | ⟨_, hb⟩ <;> omega
  rw [cfgPrtMask_eq other mask protocol onNotOff b hb]
  cases onNotOff
  · exact testBit_clear_bit mask b j hm hb16
  · exact testBit_set_bit mask b j hm hb16

/-- The new mask of `setProtocolOutUbxCfgPrt` is a 16-bit number. -/
theorem cfgPrtMask_lt (other : uGnssProtocol_t → Nat) (mask : Nat)
    (protocol : uGnssProtocol_t) (onNotOff : Bool) :
    cfgPrtMask other mask protocol onNotOff < 65536 := by
  unfold cfgPrtMask
  dsimp only
  split_ifs <;> omega

/-- Keeping the record of the calls changes neither the return value of
`setProtocolOutUbxCfgPrt` nor the state the calls leave behind. -/
theorem setProtocolOutUbxCfgPrt_recordCalls {σ : Type}
    (uGnssPrivateSendReceiveUbxMessage : σ → uGnssPrivateInstance_t → Int → Int →
      Option (List Nat) → Nat → Option (List Nat) → Nat → (errorCodeOrLength_t × List Nat) × σ)
    (other : uGnssProtocol_t → Nat) (s : σ) (log : List (Int × Int × List Nat))
    (inst : uGnssPrivateInstance_t) (protocol : uGnssProtocol_t) (onNotOff : Bool) :
    (setProtocolOutUbxCfgPrt (recordCalls uGnssPrivateSendReceiveUbxMessage) other (s, log) inst
        protocol onNotOff).1 =
      (setProtocolOutUbxCfgPrt uGnssPrivateSendReceiveUbxMessage other s inst protocol
        onNotOff).1 ∧
    (setProtocolOutUbxCfgPrt (recordCalls uGnssPrivateSendReceiveUbxMessage) other (s, log) inst
        protocol onNotOff).2.1 =
      (setProtocolOutUbxCfgPrt uGnssPrivateSendReceiveUbxMessage other s inst protocol
        onNotOff).2 := by
  simp only [setProtocolOutUbxCfgPrt, cfgPrtSendAndCheck, recordCalls]
  constructor <;> split_ifs <;> rfl

/-- The messages that `setProtocolOutUbxCfgPrt` hands to the call
`uGnssPrivateSendReceiveUbxMessage`, in order, when the counter poll returns
120 bytes `m1` and the poll of the port configuration returns 20 bytes in
`m2`: the counter poll, the poll of the port configuration, the first 20 bytes
of `m2` with the new mask stored at offsets 14 and 15, and the counter poll
again. -/
theorem setProtocolOutUbxCfgPrt_calls {σ : Type}
    (uGnssPrivateSendReceiveUbxMessage : σ → uGnssPrivateInstance_t → Int → Int →
      Option (List Nat) → Nat → Option (List Nat) → Nat → (errorCodeOrLength_t × List Nat) × σ)
    (other : uGnssProtocol_t → Nat) (s s1 s2 : σ) (inst : uGnssPrivateInstance_t)
    (protocol : uGnssProtocol_t) (onNotOff : Bool) (m1 m2 : List Nat)
    (h1 : uGnssPrivateSendReceiveUbxMessage s inst 0x0a 0x06 none 0
      (some (List.replicate 120 0)) 120 = ((.length 120, m1), s1))
    (h2 : uGnssPrivateSendReceiveUbxMessage s1 inst 0x06 0x00
      (some (m1.set 0 (inst.portNumber % 256).toNat)) 1
      (some (m1.set 0 (inst.portNumber % 256).toNat)) 20 = ((.length 20, m2), s2)) :
    (setProtocolOutUbxCfgPrt (recordCalls uGnssPrivateSendReceiveUbxMessage) other (s, []) inst
        protocol onNotOff).2.2 =
      [(0x0a, 0x06, []),
       (0x06, 0x00, (m1.set 0 (inst.portNumber % 256).toNat).take 1),
       (0x06, 0x00, (cfgPrtStoreMask m2 (cfgPrtMask other (uUbxProtocolUint16Decode (m2.drop 14))
         protocol onNotOff)).take 20),
       (0x0a, 0x06, [])] := by
  simp only [setProtocolOutUbxCfgPrt, cfgPrtSendAndCheck, recordCalls, h1, h2, if_true]
  split_ifs <;> simp

/-- The first 20 bytes of a frame of at least 20 bytes with a 16-bit mask
stored at offsets 14 and 15: the length, the bytes apart from the two of the
mask, the two bytes of the mask and the mask read back. -/
theorem cfgPrtStoreMask_take (message : List Nat) (mask : Nat) (hm : mask < 65536)
    (hlen : 20 ≤ message.length) :
    ((cfgPrtStoreMask message mask).take 20).length = 20 ∧
    (∀ i, i < 20 → i ≠ 14 → i ≠ 15 →
      ((cfgPrtStoreMask message mask).take 20).getD i 0 = message.getD i 0) ∧
    ((cfgPrtStoreMask message mask).take 20).getD 14 0 = mask % 256 ∧
    ((cfgPrtStoreMask message mask).take 20).getD 15 0 = mask / 256 % 256 ∧
    uUbxProtocolUint16Decode (((cfgPrtStoreMask message mask).take 20).drop 14) = mask := by
  have h14 : 14 < message.length := by omega
  have h15 : 15 < message.length := by omega
  have hget : ∀ i, i < 20 → ((cfgPrtStoreMask message mask).take 20).getD i 0 =
      (cfgPrtStoreMask message mask).getD i 0 := by
    intro i hi
    simp only [List.getD_eq_getElem?_getD, List.getElem?_take, if_pos hi]
  refine ⟨?_, ?_, ?_, ?_, ?_⟩
  · simp only [List.length_take, cfgPrtStoreMask, List.length_set]
    omega
  · intro i hi hi14 hi15
    have e14 : ¬ 14 = i := fun h => hi14 h.symm
    have e15 : ¬ 15 = i := fun h => hi15 h.symm
    rw [hget i hi]
    simp only [cfgPrtStoreMask, List.getD_eq_getElem?_getD, List.getElem?_set, e14, e15,
      if_false]
  · rw [hget 14 (by norm_num)]
    simp only [cfgPrtStoreMask, List.getD_eq_getElem?_getD, List.getElem?_set, List.length_set,
      h14]
    simp
  · rw [hget 15 (by norm_num)]
    simp only [cfgPrtStoreMask, List.getD_eq_getElem?_getD, List.getElem?_set, List.length_set,
      h15]
    simp
  · have hdec := decode_cfgPrtStoreMask message mask hm (by omega)
    have hsame : uUbxProtocolUint16Decode (((cfgPrtStoreMask message mask).take 20).drop 14) =
        uUbxProtocolUint16Decode ((cfgPrtStoreMask message mask).drop 14) := by
      simp only [uUbxProtocolUint16Decode, List.getD_eq_getElem?_getD, List.getElem?_drop,
        List.getElem?_take]
      simp
    rw [hsame, hdec]

/-- C30: in `setProtocolOutUbxCfgPrt`, for the protocol UBX, NMEA or RTCM (bit
number `b` 0, 1 or 5), when the counter poll returns 120 bytes `m1` and the
poll of the port configuration returns the 20-byte frame at the start of
`m2`, the messages handed to the call `uGnssPrivateSendReceiveUbxMessage` are,
in order, the counter poll, the poll of the port configuration, the message of
class 0x06 and id 0x00 with the 20-byte body `frame`, and the counter poll
again, the record of the calls changing nothing of what the function returns.
The body `frame` sent back has 20 bytes, every byte of it other than those at
14 and 15 is the one polled, and the 16-bit number in its bytes 14 and 15 has
bit `b` in the requested state (set for on, cleared for off) and every other
bit as in the polled bit-map. -/
theorem setProtocolOutUbxCfgPrt_frame {σ : Type}
    (uGnssPrivateSendReceiveUbxMessage : σ → uGnssPrivateInstance_t → Int → Int →
      Option (List Nat) → Nat → Option (List Nat) → Nat → (errorCodeOrLength_t × List Nat) × σ)
    (other : uGnssProtocol_t → Nat) (s s1 s2 : σ) (inst : uGnssPrivateInstance_t)
    (protocol : uGnssProtocol_t) (onNotOff : Bool) (b : Nat) (m1 m2 : List Nat)
    (hb : (protocol = U_GNSS_PROTOCOL_UBX ∧ b = 0) ∨ (protocol = U_GNSS_PROTOCOL_NMEA ∧ b = 1) ∨
      (protocol = U_GNSS_PROTOCOL_RTCM ∧ b = 5))
    (h1 : uGnssPrivateSendReceiveUbxMessage s inst 0x0a 0x06 none 0
      (some (List.replicate 120 0)) 120 = ((.length 120, m1), s1))
    (h2 : uGnssPrivateSendReceiveUbxMessage s1 inst 0x06 0x00
      (some (m1.set 0 (inst.portNumber % 256).toNat)) 1
      (some (m1.set 0 (inst.portNumber % 256).toNat)) 20 = ((.length 20, m2), s2))
    (hlen : 20 ≤ m2.length) :
    ∃ frame : List Nat,
      (setProtocolOutUbxCfgPrt (recordCalls uGnssPrivateSendReceiveUbxMessage) other (s, [])
          inst protocol onNotOff).2.2 =
        [(0x0a, 0x06, []),
         (0x06, 0x00, (m1.set 0 (inst.portNumber % 256).toNat).take 1),
         (0x06, 0x00, frame),
         (0x0a, 0x06, [])] ∧
      (setProtocolOutUbxCfgPrt (recordCalls uGnssPrivateSendReceiveUbxMessage) other (s, [])
          inst protocol onNotOff).1 =
        (setProtocolOutUbxCfgPrt uGnssPrivateSendReceiveUbxMessage other s inst protocol
          onNotOff).1 ∧
      frame.length = 20 ∧
      (∀ i, i < 20 → i ≠ 14 → i ≠ 15 → frame.getD i 0 = m2.getD i 0) ∧
      frame.getD 14 0 < 256 ∧ frame.getD 15 0 < 256 ∧
      (∀ j, (uUbxProtocolUint16Decode (frame.drop 14)).testBit j =
        if j = b then onNotOff else (uUbxProtocolUint16Decode (m2.drop 14)).testBit j) := by
  have hmask := cfgPrtMask_lt other (uUbxProtocolUint16Decode (m2.drop 14)) protocol onNotOff
  obtain ⟨f1, f2, f3, f4, f5⟩ := cfgPrtStoreMask_take m2
    (cfgPrtMask other (uUbxProtocolUint16Decode (m2.drop 14)) protocol onNotOff) hmask hlen
  refine ⟨(cfgPrtStoreMask m2
    (cfgPrtMask other (uUbxProtocolUint16Decode (m2.drop 14)) protocol onNotOff)).take 20,
    setProtocolOutUbxCfgPrt_calls uGnssPrivateSendReceiveUbxMessage other s s1 s2 inst protocol
      onNotOff m1 m2 h1 h2,
    (setProtocolOutUbxCfgPrt_recordCalls uGnssPrivateSendReceiveUbxMessage other s [] inst
      protocol onNotOff).1,
    f1, f2, ?_, ?_, ?_⟩
  · rw [f3]
    omega
  · rw [f4]
    omega
  · intro j
    rw [f5]
    exact cfgPrtMask_testBit other _ protocol onNotOff b j (uUbxProtocolUint16Decode_lt _) hb

set_option maxRecDepth 100000 in
/-- Witness of C30: NMEA switched off at the example chip, whose polled bit-map
is 0x0003. -/
theorem setProtocolOutUbxCfgPrt_frame_witness :
    ∃ frame : List Nat,
      (setProtocolOutUbxCfgPrt (recordCalls lossyChip) (fun _ => 3) (0, [])
          ⟨U_GNSS_TRANSPORT_UART, 0, 1, 1000, false, 0, false⟩ U_GNSS_PROTOCOL_NMEA false).2.2 =
        [(0x0a, 0x06, []),
         (0x06, 0x00, (((List.replicate 120 0).set 16 1).set 0 ((1 : Int) % 256).toNat).take 1),
         (0x06, 0x00, frame),
         (0x0a, 0x06, [])] ∧
      (setProtocolOutUbxCfgPrt (recordCalls lossyChip) (fun _ => 3) (0, [])
          ⟨U_GNSS_TRANSPORT_UART, 0, 1, 1000, false, 0, false⟩ U_GNSS_PROTOCOL_NMEA false).1 =
        (setProtocolOutUbxCfgPrt lossyChip (fun _ => 3) 0
          ⟨U_GNSS_TRANSPORT_UART, 0, 1, 1000, false, 0, false⟩ U_GNSS_PROTOCOL_NMEA false).1 ∧
      frame.length = 20 ∧
      (∀ i, i < 20 → i ≠ 14 → i ≠ 15 → frame.getD i 0 =
        ([1, 0, 0, 0, 0xC0, 0x08, 0, 0, 0x80, 0x25, 0, 0, 7, 0, 3, 0, 0, 0, 0, 0] ++
          List.replicate 100 0).getD i 0) ∧
      frame.getD 14 0 < 256 ∧ frame.getD 15 0 < 256 ∧
      (∀ j, (uUbxProtocolUint16Decode (frame.drop 14)).testBit j =
        if j = 1 then false else (uUbxProtocolUint16Decode
          (([1, 0, 0, 0, 0xC0, 0x08, 0, 0, 0x80, 0x25, 0, 0, 7, 0, 3, 0, 0, 0, 0, 0] ++
            List.replicate 100 0).drop 14)).testBit j) :=
  setProtocolOutUbxCfgPrt_frame lossyChip (fun _ => 3) 0 1 2
    ⟨U_GNSS_TRANSPORT_UART, 0, 1, 1000, false, 0, false⟩ U_GNSS_PROTOCOL_NMEA false 1
    ((List.replicate 120 0).set 16 1)
    ([1, 0, 0, 0, 0xC0, 0x08, 0, 0, 0x80, 0x25, 0, 0, 7, 0, 3, 0, 0, 0, 0, 0] ++
      List.replicate 100 0)
    (Or.inr (Or.inl ⟨rfl, rfl⟩)) (by decide) (by decide) (by decide)

/-! ## Theorems: the pseudo-protocol ALL in the legacy procedure -/

set_option maxRecDepth 100000 in
/-- C31, as stated, fails: for ALL with the state off, the new mask of
`setProtocolOutUbxCfgPrt` is 0xFFFF, not 0, and the third message the
procedure sends to the example chip is the polled frame with `FF FF` at
offsets 14 and 15; through `uGnssPrivateSetProtocolOut` the request is rejected
and nothing is sent. -/
theorem setProtocolOutUbxCfgPrt_all_off_sets_all :
    cfgPrtMask (fun _ => 3) 0x0003 U_GNSS_PROTOCOL_ALL false = 0xFFFF ∧
    (setProtocolOutUbxCfgPrt recordingChip (fun _ => 3) []
        ⟨U_GNSS_TRANSPORT_UART, 0, 1, 1000, false, 0, false⟩ U_GNSS_PROTOCOL_ALL false).2.getD 2
        (0, 0, []) =
      (0x06, 0x00, [1, 0, 0, 0, 0xC0, 0x08, 0, 0, 0x80, 0x25, 0, 0, 7, 0, 0xFF, 0xFF, 0, 0, 0, 0]) ∧
    uGnssPrivateSetProtocolOut (fun s _ _ _ => (.length 0, s)) recordingChip (fun _ => 3) []
        (some ⟨U_GNSS_TRANSPORT_UART, 0, 1, 1000, false, 0, false⟩) U_GNSS_PROTOCOL_ALL false =
      (.error (.common U_ERROR_COMMON_INVALID_PARAMETER), []) := by
  refine ⟨?_, ?_, ?_⟩ <;> decide

/-- C31, amended: in `setProtocolOutUbxCfgPrt`, for the pseudo-protocol ALL,
whether the requested state is on or off, the messages handed to the call
`uGnssPrivateSendReceiveUbxMessage` are the counter poll, the poll of the port
configuration, the message of class 0x06 and id 0x00 with the 20-byte body
`frame`, and the counter poll again; the bit-map written back at offsets 14
and 15 of `frame` has all 16 bits set (`FF FF`), the other bytes being sent
back as polled.  And `uGnssPrivateSetProtocolOut` rejects ALL with the state
off with InvalidParameter before the procedure is reached, the state outside
being untouched. -/
theorem setProtocolOutUbxCfgPrt_all {σ : Type}
    (setProtocolOutUbxCfgVal : σ → uGnssPrivateInstance_t → uGnssProtocol_t → Bool →
      errorCodeOrLength_t × σ)
    (uGnssPrivateSendReceiveUbxMessage : σ → uGnssPrivateInstance_t → Int → Int →
      Option (List Nat) → Nat → Option (List Nat) → Nat → (errorCodeOrLength_t × List Nat) × σ)
    (other : uGnssProtocol_t → Nat) (s s1 s2 : σ) (inst : uGnssPrivateInstance_t)
    (onNotOff : Bool) (m1 m2 : List Nat)
    (h1 : uGnssPrivateSendReceiveUbxMessage s inst 0x0a 0x06 none 0
      (some (List.replicate 120 0)) 120 = ((.length 120, m1), s1))
    (h2 : uGnssPrivateSendReceiveUbxMessage s1 inst 0x06 0x00
      (some (m1.set 0 (inst.portNumber % 256).toNat)) 1
      (some (m1.set 0 (inst.portNumber % 256).toNat)) 20 = ((.length 20, m2), s2))
    (hlen : 20 ≤ m2.length) :
    (∃ frame : List Nat,
      (setProtocolOutUbxCfgPrt (recordCalls uGnssPrivateSendReceiveUbxMessage) other (s, [])
          inst U_GNSS_PROTOCOL_ALL onNotOff).2.2 =
        [(0x0a, 0x06, []),
         (0x06, 0x00, (m1.set 0 (inst.portNumber % 256).toNat).take 1),
         (0x06, 0x00, frame),
         (0x0a, 0x06, [])] ∧
      (setProtocolOutUbxCfgPrt (recordCalls uGnssPrivateSendReceiveUbxMessage) other (s, [])
          inst U_GNSS_PROTOCOL_ALL onNotOff).1 =
        (setProtocolOutUbxCfgPrt uGnssPrivateSendReceiveUbxMessage other s inst
          U_GNSS_PROTOCOL_ALL onNotOff).1 ∧
      frame.length = 20 ∧
      (∀ i, i < 20 → i ≠ 14 → i ≠ 15 → frame.getD i 0 = m2.getD i 0) ∧
      frame.getD 14 0 = 0xFF ∧ frame.getD 15 0 = 0xFF ∧
      (∀ j, j < 16 → (uUbxProtocolUint16Decode (frame.drop 14)).testBit j = true)) ∧
    uGnssPrivateSetProtocolOut setProtocolOutUbxCfgVal uGnssPrivateSendReceiveUbxMessage other
        s (some inst) U_GNSS_PROTOCOL_ALL false =
      (.error (.common U_ERROR_COMMON_INVALID_PARAMETER), s) := by
  have hmask : ∀ m, cfgPrtMask other m U_GNSS_PROTOCOL_ALL onNotOff = 0xFFFF := by
    intro m
    simp only [cfgPrtMask, if_true]
  obtain ⟨f1, f2, f3, f4, f5⟩ := cfgPrtStoreMask_take m2 0xFFFF (by norm_num) hlen
  have hcalls := setProtocolOutUbxCfgPrt_calls uGnssPrivateSendReceiveUbxMessage other s s1 s2
    inst U_GNSS_PROTOCOL_ALL onNotOff m1 m2 h1 h2
  rw [hmask] at hcalls
  refine ⟨⟨(cfgPrtStoreMask m2 0xFFFF).take 20, hcalls,
    (setProtocolOutUbxCfgPrt_recordCalls uGnssPrivateSendReceiveUbxMessage other s [] inst
      U_GNSS_PROTOCOL_ALL onNotOff).1, f1, f2, ?_, ?_, ?_⟩, ?_⟩
  · rw [f3]
  · rw [f4]
  · intro j hj
    rw [f5]
    interval_cases j <;> rfl
  · simp [uGnssPrivateSetProtocolOut]

set_option maxRecDepth 100000 in
/-- Witness of C31, amended: ALL switched off at the example chip, whose polled
bit-map is 0x0003. -/
theorem setProtocolOutUbxCfgPrt_all_witness :
    (∃ frame : List Nat,
      (setProtocolOutUbxCfgPrt (recordCalls lossyChip) (fun _ => 3) (0, [])
          ⟨U_GNSS_TRANSPORT_UART, 0, 1, 1000, false, 0, false⟩ U_GNSS_PROTOCOL_ALL false).2.2 =
        [(0x0a, 0x06, []),
         (0x06, 0x00, (((List.replicate 120 0).set 16 1).set 0 ((1 : Int) % 256).toNat).take 1),
         (0x06, 0x00, frame),
         (0x0a, 0x06, [])] ∧
      (setProtocolOutUbxCfgPrt (recordCalls lossyChip) (fun _ => 3) (0, [])
          ⟨U_GNSS_TRANSPORT_UART, 0, 1, 1000, false, 0, false⟩ U_GNSS_PROTOCOL_ALL false).1 =
        (setProtocolOutUbxCfgPrt lossyChip (fun _ => 3) 0
          ⟨U_GNSS_TRANSPORT_UART, 0, 1, 1000, false, 0, false⟩ U_GNSS_PROTOCOL_ALL false).1 ∧
      frame.length = 20 ∧
      (∀ i, i < 20 → i ≠ 14 → i ≠ 15 → frame.getD i 0 =
        ([1, 0, 0, 0, 0xC0, 0x08, 0, 0, 0x80, 0x25, 0, 0, 7, 0, 3, 0, 0, 0, 0, 0] ++
          List.replicate 100 0).getD i 0) ∧
      frame.getD 14 0 = 0xFF ∧ frame.getD 15 0 = 0xFF ∧
      (∀ j, j < 16 → (uUbxProtocolUint16Decode (frame.drop 14)).testBit j = true)) ∧
    uGnssPrivateSetProtocolOut (fun s _ _ _ => (.length 0, s)) lossyChip (fun _ => 3) 0
        (some ⟨U_GNSS_TRANSPORT_UART, 0, 1, 1000, false, 0, false⟩) U_GNSS_PROTOCOL_ALL false =
      (.error (.common U_ERROR_COMMON_INVALID_PARAMETER), 0) :=
  setProtocolOutUbxCfgPrt_all (fun s _ _ _ => (.length 0, s)) lossyChip (fun _ => 3) 0 1 2
    ⟨U_GNSS_TRANSPORT_UART, 0, 1, 1000, false, 0, false⟩ false
    ((List.replicate 120 0).set 16 1)
    ([1, 0, 0, 0, 0xC0, 0x08, 0, 0, 0x80, 0x25, 0, 0, 7, 0, 3, 0, 0, 0, 0, 0] ++
      List.replicate 100 0)
    (by decide) (by decide) (by decide)

/-! ## Theorems: the legacy bit-maps, set against get -/

/-- Moving bit 5 to bit 2 the way `getProtocolOutUbxCfgPrt` does: the bits 0
to 4 of the result. -/
theorem testBit_move_bit (w j : Nat) (hj : j < 5) :
    (((w &&& ((2 ^ 32 - 1) ^^^ 2 ^ 5)) ||| 2 ^ 2) % 2 ^ 32).testBit j =
      (decide (j = 2) || w.testBit j) := by
  have h32 : j < 32 := by omega
  have h5 : ¬ 5 = j := by omega
  simp only [Nat.testBit_mod_two_pow, Nat.testBit_or, Nat.testBit_and, Nat.testBit_xor,
    Nat.testBit_two_pow, Nat.testBit_two_pow_sub_one]
  by_cases h2 : j = 2
  · subst h2
    simp
  · have h2b : ¬ 2 = j := fun h => h2 h.symm
    simp [h32, h5, h2, h2b]

/-- The bit-map of `getProtocolOutUbxCfgPrt` for a 16-bit number `w`, as a bit
operation. -/
theorem cfgPrtBitMap_eq (other : uGnssProtocol_t → Nat) (w : Nat) (hw : w < 65536) :
    cfgPrtBitMap other w =
      if w.testBit 5 then some (((w &&& ((2 ^ 32 - 1) ^^^ 2 ^ 5)) ||| 2 ^ 2) % 2 ^ 32)
      else some w := by
  have hlt : w < 2147483648 := by omega
  have h5 : (w &&& 1 <<< 5 ≠ 0) ↔ w.testBit 5 = true := by
    have := and_two_pow_ne_zero w 5
    simpa using this
  by_cases hb : w.testBit 5 = true
  · simp only [cfgPrtBitMap, if_pos hlt, if_pos (h5.mpr hb), hb, if_true, uGnssProtocolValue]
    simp
  · have hb2 : w.testBit 5 = false := by simpa using hb
    simp only [cfgPrtBitMap, if_pos hlt, if_neg (fun h => hb (h5.mp h)), hb2]
    simp

/-- C38, as stated, fails: from the polled bit-map 0x0004, the bit-map written
by `setProtocolOutUbxCfgPrt` for RTCM off is 0x0004, and the bit-map that
`getProtocolOutUbxCfgPrt` derives from it is 0x0004, in which the bit of RTCM
(bit 2) is set. -/
theorem cfgPrt_rtcm_off_reads_on :
    cfgPrtMask (fun _ => 3) 0x0004 U_GNSS_PROTOCOL_RTCM false = 0x0004 ∧
    cfgPrtBitMap (fun _ => 3) (cfgPrtMask (fun _ => 3) 0x0004 U_GNSS_PROTOCOL_RTCM false) =
      some 0x0004 ∧
    Nat.testBit 0x0004 (uGnssProtocolValue (fun _ => 3) U_GNSS_PROTOCOL_RTCM) = true := by
  refine ⟨?_, ?_, ?_⟩ <;> decide

/-- C38, amended: for every polled 16-bit bit-map `m`, every protocol `P` of
UBX, NMEA and RTCM and every state `v`, `getProtocolOutUbxCfgPrt` derives a
bit-map `bm` from the bit-map written by `setProtocolOutUbxCfgPrt` (it returns
`bm` when the frame it polls holds the written bit-map at offsets 14 and 15).
For UBX and NMEA bit `P` of `bm` is `v`; for RTCM switched on bit RTCM of `bm`
is set; for RTCM switched off bit RTCM of `bm` is bit 2 of `m`, so that it is
clear exactly when `m` has bit 2 clear. -/
theorem cfgPrt_set_get (other : uGnssProtocol_t → Nat) (m : Nat) (protocol : uGnssProtocol_t)
    (onNotOff : Bool) (hm : m < 65536)
    (hp : protocol = U_GNSS_PROTOCOL_UBX ∨ protocol = U_GNSS_PROTOCOL_NMEA ∨
      protocol = U_GNSS_PROTOCOL_RTCM) :
    ∃ bm : Nat,
      cfgPrtBitMap other (cfgPrtMask other m protocol onNotOff) = some bm ∧
      (∀ {σ : Type} (uGnssPrivateSendReceiveUbxMessage : σ → uGnssPrivateInstance_t → Int →
          Int → Option (List Nat) → Nat → Option (List Nat) → Nat →
          (errorCodeOrLength_t × List Nat) × σ) (s s1 : σ) (inst : uGnssPrivateInstance_t)
          (frame : List Nat),
        uGnssPrivateSendReceiveUbxMessage s inst 0x06 0x00
          (some ((List.replicate 20 0).set 0 (inst.portNumber % 256).toNat)) 1
          (some ((List.replicate 20 0).set 0 (inst.portNumber % 256).toNat)) 20 =
            ((.length 20, frame), s1) →
        uUbxProtocolUint16Decode (frame.drop 14) = cfgPrtMask other m protocol onNotOff →
        getProtocolOutUbxCfgPrt uGnssPrivateSendReceiveUbxMessage other s inst =
          (.length bm, s1)) ∧
      (protocol ≠ U_GNSS_PROTOCOL_RTCM →
        bm.testBit (uGnssProtocolValue other protocol) = onNotOff) ∧
      (protocol = U_GNSS_PROTOCOL_RTCM → onNotOff = true →
        bm.testBit (uGnssProtocolValue other protocol) = true) ∧
      (protocol = U_GNSS_PROTOCOL_RTCM → onNotOff = false →
        bm.testBit (uGnssProtocolValue other protocol) = m.testBit 2) := by
  have hw := cfgPrtMask_lt other m protocol onNotOff
  have hbits : ∀ b j, ((protocol = U_GNSS_PROTOCOL_UBX ∧ b = 0) ∨
      (protocol = U_GNSS_PROTOCOL_NMEA ∧ b = 1) ∨ (protocol = U_GNSS_PROTOCOL_RTCM ∧ b = 5)) →
      (cfgPrtMask other m protocol onNotOff).testBit j =
        if j = b then onNotOff else m.testBit j :=
    fun b j hb => cfgPrtMask_testBit other m protocol onNotOff b j hm hb
  have hget : ∀ bm, cfgPrtBitMap other (cfgPrtMask other m protocol onNotOff) = some bm →
      ∀ {σ : Type} (uGnssPrivateSendReceiveUbxMessage : σ → uGnssPrivateInstance_t → Int →
          Int → Option (List Nat) → Nat → Option (List Nat) → Nat →
          (errorCodeOrLength_t × List Nat) × σ) (s s1 : σ) (inst : uGnssPrivateInstance_t)
          (frame : List Nat),
        uGnssPrivateSendReceiveUbxMessage s inst 0x06 0x00
          (some ((List.replicate 20 0).set 0 (inst.portNumber % 256).toNat)) 1
          (some ((List.replicate 20 0).set 0 (inst.portNumber % 256).toNat)) 20 =
            ((.length 20, frame), s1) →
        uUbxProtocolUint16Decode (frame.drop 14) = cfgPrtMask other m protocol onNotOff →
        getProtocolOutUbxCfgPrt uGnssPrivateSendReceiveUbxMessage other s inst =
          (.length bm, s1) := by
    intro bm hbm σ call s s1 inst frame hcall hdec
    simp only [getProtocolOutUbxCfgPrt, hcall, if_true, hdec, hbm]
  rw [cfgPrtBitMap_eq other _ hw]
  by_cases h5 : (cfgPrtMask other m protocol onNotOff).testBit 5 = true
  · rw [if_pos h5]
    refine ⟨_, rfl, hget _ (by rw [cfgPrtBitMap_eq other _ hw, if_pos h5]), ?_, ?_, ?_⟩
    · intro hne
      rcases hp with hp | hp | hp
      · subst hp
        rw [show uGnssProtocolValue other U_GNSS_PROTOCOL_UBX = 0 from rfl,
          testBit_move_bit _ 0 (by norm_num), hbits 0 0 (Or.inl ⟨rfl, rfl⟩)]
        simp
      · subst hp
        rw [show uGnssProtocolValue other U_GNSS_PROTOCOL_NMEA = 1 from rfl,
          testBit_move_bit _ 1 (by norm_num), hbits 1 1 (Or.inr (Or.inl ⟨rfl, rfl⟩))]
        simp
      · exact absurd hp hne
    · intro hp2 _
      subst hp2
      rw [show uGnssProtocolValue other U_GNSS_PROTOCOL_RTCM = 2 from rfl,
        testBit_move_bit _ 2 (by norm_num)]
      simp
    · intro hp2 hoff
      subst hp2
      subst hoff
      rw [hbits 5 5 (Or.inr (Or.inr ⟨rfl, rfl⟩))] at h5
      simp at h5
  · have h5f : (cfgPrtMask other m protocol onNotOff).testBit 5 = false := by simpa using h5
    rw [h5f]
    refine ⟨_, rfl, hget _ (by rw [cfgPrtBitMap_eq other _ hw, h5f]; rfl), ?_, ?_, ?_⟩
    · intro hne
      rcases hp with hp | hp | hp
      · subst hp
        rw [show uGnssProtocolValue other U_GNSS_PROTOCOL_UBX = 0 from rfl,
          hbits 0 0 (Or.inl ⟨rfl, rfl⟩)]
        simp
      · subst hp
        rw [show uGnssProtocolValue other U_GNSS_PROTOCOL_NMEA = 1 from rfl,
          hbits 1 1 (Or.inr (Or.inl ⟨rfl, rfl⟩))]
        simp
      · exact absurd hp hne
    · intro hp2 hon
      subst hp2
      subst hon
      rw [hbits 5 5 (Or.inr (Or.inr ⟨rfl, rfl⟩))] at h5f
      simp at h5f
    · intro hp2 _
      subst hp2
      rw [show uGnssProtocolValue other U_GNSS_PROTOCOL_RTCM = 2 from rfl,
        hbits 5 2 (Or.inr (Or.inr ⟨rfl, rfl⟩))]
      simp

/-- Witness of C38, amended: NMEA switched off from the polled bit-map 0x0003. -/
theorem cfgPrt_set_get_witness :
    ∃ bm : Nat,
      cfgPrtBitMap (fun _ => 3) (cfgPrtMask (fun _ => 3) 0x0003 U_GNSS_PROTOCOL_NMEA false) =
        some bm ∧
      bm.testBit (uGnssProtocolValue (fun _ => 3) U_GNSS_PROTOCOL_NMEA) = false :=
  match cfgPrt_set_get (fun _ => 3) 0x0003 U_GNSS_PROTOCOL_NMEA false (by decide)
    (Or.inr (Or.inl rfl)) with
  | ⟨bm, h1, _, h3, _, _⟩ => ⟨bm, h1, h3 (by decide)⟩

/-! ## Theorems: a single changed byte in a UBX frame -/

/-- The first running sum of the UBX checksum is the sum of the bytes modulo
256. -/
theorem foldl_ubxSumStep_fst (bs : List Nat) (s : Nat × Nat) :
    (bs.foldl ubxSumStep s).1 = (s.1 + bs.sum) % 256 ∨ bs = [] := by
  induction bs generalizing s with
  | nil => exact Or.inr rfl
  | cons b t ih =>
    left
    rw [List.foldl_cons, List.sum_cons]
    rcases ih (ubxSumStep s b) with h | h
    · rw [h]
      simp only [ubxSumStep]
      omega
    · subst h
      simp only [List.foldl_nil, List.sum_nil, ubxSumStep]
      omega

/-- The first checksum byte of the bytes covered by a UBX frame. -/
theorem ubxChecksum_covered_fst (c i : Nat) (body : List Nat) :
    (ubxChecksum (ubxCovered c i body)).1 =
      (c + i + body.length % 256 + body.length / 256 + body.sum) % 256 := by
  rcases foldl_ubxSumStep_fst (ubxCovered c i body) (0, 0) with h | h
  · rw [ubxChecksum, h]
    simp only [ubxCovered, List.sum_append, List.sum_cons, List.sum_nil]
    congr 1
    omega
  · simp [ubxCovered] at h

/-- Replacing one element of a list of numbers changes the sum by the
difference. -/
theorem sum_set_add (l : List Nat) (j x : Nat) (hj : j < l.length) :
    (l.set j x).sum + l.getD j 0 = l.sum + x := by
  induction l generalizing j with
  | nil => simp at hj
  | cons a t ih =>
    cases j with
    | zero => simp; omega
    | succ j =>
      have := ih j (by simpa using hj)
      simp only [List.set_cons_succ, List.sum_cons, List.getD_cons_succ]
      omega

/-- A UBX frame with its class byte replaced. -/
theorem ubxFrame_set_cls (c i : Nat) (body : List Nat) (x : Nat) :
    (ubxFrame c i body).set 2 x =
      [0xB5, 0x62] ++ ubxCovered x i body ++
        [(ubxChecksum (ubxCovered c i body)).1, (ubxChecksum (ubxCovered c i body)).2] := by
  simp [ubxFrame, ubxCovered]

/-- A UBX frame with its id byte replaced. -/
theorem ubxFrame_set_id (c i : Nat) (body : List Nat) (x : Nat) :
    (ubxFrame c i body).set 3 x =
      [0xB5, 0x62] ++ ubxCovered c x body ++
        [(ubxChecksum (ubxCovered c i body)).1, (ubxChecksum (ubxCovered c i body)).2] := by
  simp [ubxFrame, ubxCovered]

/-- A UBX frame with the body byte `j` replaced. -/
theorem ubxFrame_set_body (c i : Nat) (body : List Nat) (j x : Nat) (hj : j < body.length) :
    (ubxFrame c i body).set (6 + j) x =
      [0xB5, 0x62] ++ ubxCovered c i (body.set j x) ++
        [(ubxChecksum (ubxCovered c i body)).1, (ubxChecksum (ubxCovered c i body)).2] := by
  have e : 6 + j = j + 1 + 1 + 1 + 1 + 1 + 1 := by omega
  simp only [ubxFrame, ubxCovered, List.cons_append, List.nil_append, e, List.set_cons_succ,
    List.length_set, List.append_assoc]
  rw [List.set_append_left _ _ hj]

/-- The byte `j` of the body in a UBX frame. -/
theorem ubxFrame_get_body (c i : Nat) (body : List Nat) (j : Nat) (hj : j < body.length) :
    (ubxFrame c i body)[6 + j]? = body[j]? := by
  have e : 6 + j = j + 1 + 1 + 1 + 1 + 1 + 1 := by omega
  simp only [ubxFrame, ubxCovered, List.cons_append, List.nil_append, e,
    List.getElem?_cons_succ, List.append_assoc]
  rw [List.getElem?_append_left hj]

/-- When the first checksum byte read differs from the running sum,
`parseUbxTail` returns NotFound. -/
theorem parseUbxTail_cka_mismatch (tl : List Nat) (d cka ckb b x : Nat)
    (m : uGnssPrivateMessageId_t) (hcka : cka < 256) (hne : b ≠ cka) :
    (parseUbxTail ⟨⟨b :: tl, d⟩, cka, ckb, x⟩ m).code = U_ERROR_COMMON_NOT_FOUND := by
  simp [parseUbxTail, getByte_cons, and_255, Nat.mod_eq_of_lt hcka, hne]

/-- C35: in a valid, complete UBX frame at the cursor (class, id and body bytes
below 256), replacing the class byte (position 2), the id byte (position 3) or
a body byte (positions 6 to `n + 5`) by a different byte value makes `parseUbx`
return NotFound, whatever follows the frame and whatever was discarded before
it. -/
theorem parseUbx_covered_byte_changed (c i : Nat) (body rest : List Nat) (d : Nat)
    (m : uGnssPrivateMessageId_t) (k x : Nat)
    (hc : c < 256) (hi : i < 256) (hbody : ∀ b ∈ body, b < 256) (hn : body.length ≤ 65535)
    (hk : k = 2 ∨ k = 3 ∨ (6 ≤ k ∧ k < 6 + body.length))
    (hx256 : x < 256) (hx : (ubxFrame c i body)[k]? ≠ some x) :
    (parseUbx ⟨(ubxFrame c i body).set k x ++ rest, d⟩ m).code = U_ERROR_COMMON_NOT_FOUND := by
  rcases hk with hk | hk | ⟨hk1, hk2⟩
  · subst hk
    have hxc : x ≠ c := by
      intro h
      apply hx
      simp [ubxFrame, ubxCovered, h]
    rw [ubxFrame_set_cls, List.append_assoc, parseUbx_reaches_tail x i body _ d m hx256 hi hn]
    apply parseUbxTail_cka_mismatch
    · exact (ubxChecksum_lt _ (0, 0) (by decide) (by decide)).1
    · rw [ubxChecksum_covered_fst, ubxChecksum_covered_fst]
      omega
  · subst hk
    have hxi : x ≠ i := by
      intro h
      apply hx
      simp [ubxFrame, ubxCovered, h]
    rw [ubxFrame_set_id, List.append_assoc, parseUbx_reaches_tail c x body _ d m hc hx256 hn]
    apply parseUbxTail_cka_mismatch
    · exact (ubxChecksum_lt _ (0, 0) (by decide) (by decide)).1
    · rw [ubxChecksum_covered_fst, ubxChecksum_covered_fst]
      omega
  · obtain ⟨j, rfl⟩ : ∃ j, k = 6 + j := ⟨k - 6, by omega⟩
    have hj : j < body.length := by omega
    rw [ubxFrame_get_body c i body j hj] at hx
    have hold : body.getD j 0 < 256 := by
      apply hbody
      rw [List.getD_eq_getElem?_getD, List.getElem?_eq_getElem hj]
      exact List.getElem_mem hj
    have hxo : x ≠ body.getD j 0 := by
      intro h
      apply hx
      rw [h, List.getD_eq_getElem?_getD, List.getElem?_eq_getElem hj]
      rfl
    have hsum := sum_set_add body j x hj
    rw [ubxFrame_set_body c i body j x hj, List.append_assoc,
      parseUbx_reaches_tail c i (body.set j x) _ d m hc hi (by simpa using hn)]
    apply parseUbxTail_cka_mismatch
    · exact (ubxChecksum_lt _ (0, 0) (by decide) (by decide)).1
    · rw [ubxChecksum_covered_fst, ubxChecksum_covered_fst, List.length_set]
      omega

/-- Witness of C35: the frame of class 6, id 1 with body `10 20`, its second
body byte replaced by `21`. -/
theorem parseUbx_covered_byte_changed_witness :
    (parseUbx ⟨(ubxFrame 6 1 [0x10, 0x20]).set 7 0x21 ++ [0x55], 0⟩
      ⟨U_GNSS_PROTOCOL_UNKNOWN, 0, [], 0⟩).code = U_ERROR_COMMON_NOT_FOUND :=
  parseUbx_covered_byte_changed 6 1 [0x10, 0x20] [0x55] 0 ⟨U_GNSS_PROTOCOL_UNKNOWN, 0, [], 0⟩
    7 0x21 (by decide) (by decide) (by decide) (by decide) (by decide) (by decide) (by decide)

/-! ## Theorems: the order of the parser list -/

/-- On a first byte other than 0xB5 `parseUbx` returns NotFound, having read
that byte and written nothing. -/
theorem parseUbx_other_first_byte (b : Nat) (bs : List Nat) (d : Nat)
    (m : uGnssPrivateMessageId_t) (hb : b ≠ 0xB5) :
    parseUbx ⟨b :: bs, d⟩ m = ⟨U_ERROR_COMMON_NOT_FOUND, ⟨bs, d⟩, m⟩ := by
  have h : ¬ 181 = b := fun h => hb h.symm
  simp [parseUbx, getByte_cons, h]

/-- On a first byte other than `$` `parseNmea` returns NotFound, having read
that byte and written nothing. -/
theorem parseNmea_other_first_byte (maxLen b : Nat) (bs : List Nat) (d : Nat)
    (m : uGnssPrivateMessageId_t) (hb : b ≠ 0x24) :
    parseNmea maxLen ⟨b :: bs, d⟩ m = ⟨U_ERROR_COMMON_NOT_FOUND, ⟨bs, d⟩, m⟩ := by
  have h : ¬ 36 = b := fun h => hb h.symm
  simp [parseNmea, getByte_cons, h]

/-- On a first byte other than 0xD3 `parseRtcm` returns NotFound, having read
that byte and written nothing. -/
theorem parseRtcm_other_first_byte (b : Nat) (bs : List Nat) (d : Nat)
    (m : uGnssPrivateMessageId_t) (hb : b ≠ 0xD3) :
    parseRtcm ⟨b :: bs, d⟩ m = ⟨U_ERROR_COMMON_NOT_FOUND, ⟨bs, d⟩, m⟩ := by
  have h : ¬ 211 = b := fun h => hb h.symm
  simp [parseRtcm, getByte_cons, h]

/-- The parser list of the code, in the order of the code, is `tryParserList`. -/
theorem tryParsers_eq_tryParserList (maxLen : Nat) (h : uParseHandle_t)
    (m : uGnssPrivateMessageId_t) :
    tryParsers [parseUbx, parseNmea maxLen, parseRtcm] h m = tryParserList maxLen h m := by
  simp only [tryParsers, tryParserList]

/-- C36: on a cursor with at least one byte, at most one of `parseUbx`,
`parseNmea` and `parseRtcm` returns something other than NotFound (first
part), and the three parsers tried in turn give the same result in each of the
six orders of the parser list (second part): the same return code, the same
identifier and, when the code is not NotFound, the same cursor. -/
theorem parsers_order_irrelevant (maxLen b : Nat) (bs : List Nat) (d : Nat)
    (m : uGnssPrivateMessageId_t) :
    (((parseUbx ⟨b :: bs, d⟩ m).code ≠ U_ERROR_COMMON_NOT_FOUND →
        (parseNmea maxLen ⟨b :: bs, d⟩ m).code = U_ERROR_COMMON_NOT_FOUND ∧
        (parseRtcm ⟨b :: bs, d⟩ m).code = U_ERROR_COMMON_NOT_FOUND) ∧
      ((parseNmea maxLen ⟨b :: bs, d⟩ m).code ≠ U_ERROR_COMMON_NOT_FOUND →
        (parseUbx ⟨b :: bs, d⟩ m).code = U_ERROR_COMMON_NOT_FOUND ∧
        (parseRtcm ⟨b :: bs, d⟩ m).code = U_ERROR_COMMON_NOT_FOUND) ∧
      ((parseRtcm ⟨b :: bs, d⟩ m).code ≠ U_ERROR_COMMON_NOT_FOUND →
        (parseUbx ⟨b :: bs, d⟩ m).code = U_ERROR_COMMON_NOT_FOUND ∧
        (parseNmea maxLen ⟨b :: bs, d⟩ m).code = U_ERROR_COMMON_NOT_FOUND)) ∧
    sameParseResult (tryParsers [parseUbx, parseRtcm, parseNmea maxLen] ⟨b :: bs, d⟩ m)
      (tryParserList maxLen ⟨b :: bs, d⟩ m) ∧
    sameParseResult (tryParsers [parseNmea maxLen, parseUbx, parseRtcm] ⟨b :: bs, d⟩ m)
      (tryParserList maxLen ⟨b :: bs, d⟩ m) ∧
    sameParseResult (tryParsers [parseNmea maxLen, parseRtcm, parseUbx] ⟨b :: bs, d⟩ m)
      (tryParserList maxLen ⟨b :: bs, d⟩ m) ∧
    sameParseResult (tryParsers [parseRtcm, parseUbx, parseNmea maxLen] ⟨b :: bs, d⟩ m)
      (tryParserList maxLen ⟨b :: bs, d⟩ m) ∧
    sameParseResult (tryParsers [parseRtcm, parseNmea maxLen, parseUbx] ⟨b :: bs, d⟩ m)
      (tryParserList maxLen ⟨b :: bs, d⟩ m) ∧
    sameParseResult (tryParsers [parseUbx, parseNmea maxLen, parseRtcm] ⟨b :: bs, d⟩ m)
      (tryParserList maxLen ⟨b :: bs, d⟩ m) := by
  by_cases hu : b = 0xB5
  · have hn := fun m => parseNmea_other_first_byte maxLen b bs d m (by omega)
    have hr := fun m => parseRtcm_other_first_byte b bs d m (by omega)
    simp only [tryParsers, tryParserList, sameParseResult, hn, hr]
    refine ⟨⟨fun _ => ⟨trivial, trivial⟩, fun h => absurd rfl h, fun h => absurd rfl h⟩,
      ?_, ?_, ?_, ?_, ?_, ?_⟩ <;>
    · by_cases hc : (parseUbx ⟨b :: bs, d⟩ m).code = U_ERROR_COMMON_NOT_FOUND <;> simp [hc]
  · have hub := fun m => parseUbx_other_first_byte b bs d m hu
    by_cases hn : b = 0x24
    · have hr := fun m => parseRtcm_other_first_byte b bs d m (by omega)
      simp only [tryParsers, tryParserList, sameParseResult, hub, hr]
      refine ⟨⟨fun h => absurd rfl h, fun _ => ⟨trivial, trivial⟩, fun h => absurd rfl h⟩,
        ?_, ?_, ?_, ?_, ?_, ?_⟩ <;>
      · by_cases hc : (parseNmea maxLen ⟨b :: bs, d⟩ m).code = U_ERROR_COMMON_NOT_FOUND <;>
          simp [hc]
    · have hnm := fun m => parseNmea_other_first_byte maxLen b bs d m hn
      simp only [tryParsers, tryParserList, sameParseResult, hub, hnm]
      refine ⟨⟨fun h => absurd rfl h, fun h => absurd rfl h, fun _ => ⟨trivial, trivial⟩⟩,
        ?_, ?_, ?_, ?_, ?_, ?_⟩ <;>
      · by_cases hc : (parseRtcm ⟨b :: bs, d⟩ m).code = U_ERROR_COMMON_NOT_FOUND <;>
          simp [hc]

/-! ## Theorems: read attempts of the RTCM parser -/

/-- On a cursor without bytes the body loop of `parseRtcm` leaves the cursor as
it is, every one of its reads failing. -/
theorem parseRtcmBody_empty (l d crc x : Nat) :
    (parseRtcmBody l ⟨⟨[], d⟩, crc, x⟩).handle = ⟨[], d⟩ := by
  induction l generalizing crc with
  | zero => rfl
  | succ l ih =>
    rw [parseRtcmBody]
    simp only [getByteIgnoringResult, uRingBufferGetByteUnprotected]
    exact ih _

/-- The read attempts of `parseRtcm` on a cursor of five bytes `D3 00 L a b`
with `L` below 6: three for the header, two for the identifier, one for each
turn of the body loop, whose counter starts from `L - 2` on 16 bits, and one
for the CRC loop, which ends on its first read. -/
theorem parseRtcmReads_five (L a b d : Nat) (hL : L < 6) :
    parseRtcmReads ⟨[0xD3, 0x00, L, a, b], d⟩ = 5 + (L + 65534) % 65536 + 1 := by
  have h4 : ((0 &&& 3) <<< 8 % 65536 + L) % 65536 = L := by
    have : ((0 : Nat) &&& 3) <<< 8 % 65536 = 0 := by decide
    rw [this]
    omega
  have h5 : ¬ L > [a, b].length + 3 := by
    simp only [List.length_cons, List.length_nil]
    omega
  simp only [parseRtcmReads, getByte_cons, uRingBufferBytesAvailableUnprotected]
  rw [if_neg (by decide), if_neg (by decide), h4, if_neg h5]
  have h6 : (((L + 65535) % 65536 + 65535) % 65536) = (L + 65534) % 65536 := by omega
  rw [h6]
  generalize RTCM_CRC (RTCM_CRC (RTCM_CRC (RTCM_CRC (RTCM_CRC 0 211) 0) L) a) b = crc
  generalize (L + 65534) % 65536 = n
  rw [parseRtcmBody_empty]
  simp only [parseRtcmCompareReads, getByte_nil]

/-- C37: the code at the cursors `D3 00 00 01 02` and `D3 00 01 01 02`, whose
length field is 0 and 1: `parseRtcm` makes 65540 and 65541 read attempts, not
at most 6 and 7.  The two `l--` after the identifier bytes take the 16-bit
counter from 0 to 65534 (from 1 to 65535) and the body loop `while (l--)` runs
that many times, its reads failing once the cursor is empty. -/
theorem parseRtcm_short_length_wraps :
    parseRtcmReads ⟨[0xD3, 0x00, 0x00, 0x01, 0x02], 0⟩ = 65540 ∧
    parseRtcmReads ⟨[0xD3, 0x00, 0x01, 0x01, 0x02], 0⟩ = 65541 :=
  ⟨parseRtcmReads_five 0 1 2 0 (by decide), parseRtcmReads_five 1 1 2 0 (by decide)⟩

/-! ## Theorems: the key/value procedure, set -/

/-- A 32-bit number is encoded on four bytes. -/
theorem uUbxProtocolUint32Encode_length (x : Nat) : (uUbxProtocolUint32Encode x).length = 4 :=
  rfl

/-- The key that `packUbxCfgValLogicalEntry` builds fits 32 bits. -/
theorem cfgValKey_lt (g item : Nat) (hitem : item < 65536) :
    (0x10 <<< 24) ||| ((g &&& 0xFF) <<< 16) ||| item < 4294967296 := by
  have h1 : g &&& 0xFF < 2 ^ 8 := Nat.and_lt_two_pow _ (by norm_num)
  have h2 : (g &&& 0xFF) <<< 16 < 2 ^ 32 := by
    rw [Nat.shiftLeft_eq]
    have : (g &&& 0xFF) * 2 ^ 16 < 2 ^ 8 * 2 ^ 16 := Nat.mul_lt_mul_of_pos_right h1 (by norm_num)
    omega
  have h3 : (0x10 <<< 24 : Nat) < 2 ^ 32 := by decide
  have h4 : item < 2 ^ 32 := by omega
  exact Nat.or_lt_two_pow (Nat.or_lt_two_pow h3 h2) h4

/-- The five bytes of `packUbxCfgValLogicalEntry`: the key
`(0x10 << 24) | ((groupId & 0xFF) << 16) | itemId` in little-endian order and
one byte holding the boolean. -/
theorem packUbxCfgValLogicalEntry_eq (g item : Nat) (v : Bool) (hitem : item < 65536) :
    packUbxCfgValLogicalEntry g item v =
      uUbxProtocolUint32Encode ((0x10 <<< 24) ||| ((g &&& 0xFF) <<< 16) ||| item) ++
        [if v then 1 else 0] := by
  simp only [packUbxCfgValLogicalEntry, Nat.mod_eq_of_lt hitem,
    Nat.mod_eq_of_lt (cfgValKey_lt g item hitem)]

/-- C32: in `setProtocolOutUbxCfgVal`, for a port number from 0 to 4 with group
ID `g`, the body sent (class 0x06, id 0x8a) is the header `00 RAM 00 00`
followed, for ALL, by the three entries of the item IDs 1, 2 and 4 in that
order (19 bytes) and, for UBX, NMEA or RTCM, by the one entry of its item ID 1,
2 or 4 (9 bytes); an entry is the key `(0x10 << 24) | ((g & 0xFF) << 16) | item`
in little-endian order followed by one byte, 1 for on and 0 for off.  Whatever
the protocol, either nothing is sent and an error is returned or the body is
of at most 19 bytes.  For any other port number, a negative one included,
nothing is sent and the platform error is returned. -/
theorem setProtocolOutUbxCfgVal_body {σ : Type} (k : CfgValConstants)
    (uGnssPrivateSendUbxMessage : σ → uGnssPrivateInstance_t → Int → Int → List Nat → Nat →
      errorCodeOrLength_t × σ)
    (other : uGnssProtocol_t → Nat) (s : σ) (inst : uGnssPrivateInstance_t)
    (protocol : uGnssProtocol_t) (onNotOff : Bool) (g : Nat)
    (hg : g = k.groupId (gPortToCfgValGroupIdOutProt.getD inst.portNumber.toNat
      U_GNSS_CFG_VAL_KEY_GROUP_ID_I2COUTPROT)) :
    ((0 ≤ inst.portNumber ∧ inst.portNumber < 5) →
      (protocol = U_GNSS_PROTOCOL_ALL →
        setProtocolOutUbxCfgVal k uGnssPrivateSendUbxMessage other s inst protocol onNotOff =
          uGnssPrivateSendUbxMessage s inst 0x06 0x8a
            ([0, k.U_GNSS_CFG_VAL_LAYER_RAM % 256, 0, 0] ++
              (uUbxProtocolUint32Encode ((0x10 <<< 24) ||| ((g &&& 0xFF) <<< 16) ||| 1) ++
                [if onNotOff then 1 else 0]) ++
              (uUbxProtocolUint32Encode ((0x10 <<< 24) ||| ((g &&& 0xFF) <<< 16) ||| 2) ++
                [if onNotOff then 1 else 0]) ++
              (uUbxProtocolUint32Encode ((0x10 <<< 24) ||| ((g &&& 0xFF) <<< 16) ||| 4) ++
                [if onNotOff then 1 else 0])) 19) ∧
      (∀ item : Nat, (protocol = U_GNSS_PROTOCOL_UBX ∧ item = 1) ∨
          (protocol = U_GNSS_PROTOCOL_NMEA ∧ item = 2) ∨
          (protocol = U_GNSS_PROTOCOL_RTCM ∧ item = 4) →
        setProtocolOutUbxCfgVal k uGnssPrivateSendUbxMessage other s inst protocol onNotOff =
          uGnssPrivateSendUbxMessage s inst 0x06 0x8a
            ([0, k.U_GNSS_CFG_VAL_LAYER_RAM % 256, 0, 0] ++
              (uUbxProtocolUint32Encode ((0x10 <<< 24) ||| ((g &&& 0xFF) <<< 16) ||| item) ++
                [if onNotOff then 1 else 0])) 9)) ∧
    ((∃ e, setProtocolOutUbxCfgVal k uGnssPrivateSendUbxMessage other s inst protocol
          onNotOff = (.error e, s)) ∨
      ∃ body : List Nat, body.length ≤ 19 ∧
        setProtocolOutUbxCfgVal k uGnssPrivateSendUbxMessage other s inst protocol onNotOff =
          uGnssPrivateSendUbxMessage s inst 0x06 0x8a body body.length) ∧
    (¬ (0 ≤ inst.portNumber ∧ inst.portNumber < 5) →
      setProtocolOutUbxCfgVal k uGnssPrivateSendUbxMessage other s inst protocol onNotOff =
        (.error (.common U_ERROR_COMMON_PLATFORM), s)) := by
  have hlen : (gPortToCfgValGroupIdOutProt.length : Int) = 5 := rfl
  have hpack : ∀ item, item < 65536 → (packUbxCfgValLogicalEntry g item onNotOff).length = 5 := by
    intro item hitem
    rw [packUbxCfgValLogicalEntry_eq g item onNotOff hitem]
    rfl
  have h1 := packUbxCfgValLogicalEntry_eq g 1 onNotOff (by norm_num)
  have h2 := packUbxCfgValLogicalEntry_eq g 2 onNotOff (by norm_num)
  have h4 := packUbxCfgValLogicalEntry_eq g 4 onNotOff (by norm_num)
  have l1 := hpack 1 (by norm_num)
  have l2 := hpack 2 (by norm_num)
  have l4 := hpack 4 (by norm_num)
  refine ⟨fun hport => ⟨fun hall => ?_, fun item hitem => ?_⟩, ?_, fun hport => ?_⟩
  · subst hall
    have hp : 0 ≤ inst.portNumber ∧ inst.portNumber < (gPortToCfgValGroupIdOutProt.length : Int) := by
      rw [hlen]; exact hport
    simp only [setProtocolOutUbxCfgVal, if_pos hp, if_true, ← hg,
      gProtocolTypeToCfgValItemIdOutProt, List.foldl_cons, List.foldl_nil]
    rw [if_pos (by simp [l1, l2, l4])]
    simp only [List.length_append, l1, l2, l4, List.length_cons, List.length_nil, h1, h2, h4]
    simp [uUbxProtocolUint32Encode]
  · have hp : 0 ≤ inst.portNumber ∧ inst.portNumber < (gPortToCfgValGroupIdOutProt.length : Int) := by
      rw [hlen]; exact hport
    rcases hitem with ⟨rfl, rfl⟩ | ⟨rfl, rfl⟩ | ⟨rfl, rfl⟩
    · simp only [setProtocolOutUbxCfgVal, if_pos hp, ← hg, uGnssProtocolValue,
        gProtocolTypeToCfgValItemIdOutProt, reduceCtorEq, if_false, List.length_cons,
        List.length_nil, List.getD_cons_zero, Nat.zero_lt_succ, if_true, List.length_append, l1]
      rw [h1]
      simp [uUbxProtocolUint32Encode_length]
    · simp only [setProtocolOutUbxCfgVal, if_pos hp, ← hg, uGnssProtocolValue,
        gProtocolTypeToCfgValItemIdOutProt, reduceCtorEq, if_false, List.length_cons,
        List.length_nil, List.getD_cons_zero, List.getD_cons_succ, Nat.one_lt_ofNat, if_true,
        List.length_append, l2]
      rw [h2]
      simp [uUbxProtocolUint32Encode_length]
    · simp only [setProtocolOutUbxCfgVal, if_pos hp, ← hg, uGnssProtocolValue,
        gProtocolTypeToCfgValItemIdOutProt, reduceCtorEq, if_false, List.length_cons,
        List.length_nil, List.getD_cons_zero, List.getD_cons_succ, if_true,
        List.length_append, l4]
      rw [h4]
      simp [uUbxProtocolUint32Encode_length]
  · by_cases hp : 0 ≤ inst.portNumber ∧ inst.portNumber < (gPortToCfgValGroupIdOutProt.length : Int)
    · simp only [setProtocolOutUbxCfgVal, if_pos hp, ← hg]
      by_cases hall : protocol = U_GNSS_PROTOCOL_ALL
      · right
        simp only [if_pos hall, gProtocolTypeToCfgValItemIdOutProt, List.foldl_cons,
          List.foldl_nil]
        rw [if_pos (by simp [l1, l2, l4])]
        exact ⟨_, by simp [l1, l2, l4], rfl⟩
      · by_cases hv : uGnssProtocolValue other protocol < gProtocolTypeToCfgValItemIdOutProt.length
        · right
          have hit : gProtocolTypeToCfgValItemIdOutProt.getD (uGnssProtocolValue other protocol) 0
              < 65536 := by
            have h3 : uGnssProtocolValue other protocol < 3 := hv
            generalize uGnssProtocolValue other protocol = v at h3
            interval_cases v <;> decide
          simp only [if_neg hall, if_pos hv]
          have hl := hpack _ hit
          rw [if_pos (by
            simp only [List.length_append, hl, List.length_cons, List.length_nil]
            omega)]
          refine ⟨_, ?_, rfl⟩
          simp only [List.length_append, hl, List.length_cons, List.length_nil]
          omega
        · left
          simp only [if_neg hall, if_neg hv]
          rw [if_neg (by simp)]
          exact ⟨_, rfl⟩
    · left
      refine ⟨.common U_ERROR_COMMON_PLATFORM, ?_⟩
      simp only [setProtocolOutUbxCfgVal, if_neg hp]
  · have hp : ¬ (0 ≤ inst.portNumber ∧
        inst.portNumber < (gPortToCfgValGroupIdOutProt.length : Int)) := by
      rw [hlen]; exact hport
    simp only [setProtocolOutUbxCfgVal, if_neg hp]

/-- Witness of C32: NMEA switched off on port 1, with the constants of the
u-blox interface description: the body is `00 01 00 00 02 00 74 10 00`. -/
theorem setProtocolOutUbxCfgVal_body_witness :
    setProtocolOutUbxCfgVal ubloxCfgVal (fun (_ : List Nat) _ _ _ body _ => (.length 0, body))
        (fun _ => 3) [] ⟨U_GNSS_TRANSPORT_UART, 0, 1, 1000, false, 0, true⟩
        U_GNSS_PROTOCOL_NMEA false =
      (.length 0, [0, 1, 0, 0, 2, 0, 0x74, 0x10, 0]) :=
  ((setProtocolOutUbxCfgVal_body ubloxCfgVal
    (fun (_ : List Nat) _ _ _ body _ => (.length 0, body)) (fun _ => 3) []
    ⟨U_GNSS_TRANSPORT_UART, 0, 1, 1000, false, 0, true⟩ U_GNSS_PROTOCOL_NMEA false 0x74
    rfl).1 (by decide)).2 2 (Or.inr (Or.inl ⟨rfl, rfl⟩))

/-! ## Theorems: the key/value procedure, get -/

/-- Decoding the four bytes of an encoded 32-bit number gives the number. -/
theorem uUbxProtocolUint32Decode_encode (x : Nat) (rest : List Nat) (hx : x < 4294967296) :
    uUbxProtocolUint32Decode (uUbxProtocolUint32Encode x ++ rest) = x := by
  simp only [uUbxProtocolUint32Decode, uUbxProtocolUint32Encode, List.cons_append,
    List.nil_append, List.take_succ_cons, List.take_zero, List.foldr_cons, List.foldr_nil]
  omega

/-- One turn of the loop of `getProtocolOutUbxCfgVal` on a well-formed entry
at the read position: the entry is taken into the bit-map and the position
moves to the byte after the entry. -/
theorem cfgValLoop_entry (k : CfgValConstants) (other : uGnssProtocol_t → Nat) (keyId : Nat)
    (pre post : List Nat) (e : Nat × List Nat) (turns bm N : Nat) (vis : List Nat)
    (hN : N = (pre ++ cfgValEntryBytes e ++ post).length) (hN32 : N < 4294967296)
    (hkey : e.1 < 4294967296) (hsize : cfgValSize k (e.1 >>> 28) = e.2.length)
    (hval : 1 ≤ e.2.length) :
    cfgValLoop k other keyId (pre ++ cfgValEntryBytes e ++ post) N (turns + 1) pre.length bm vis =
      cfgValLoop k other keyId (pre ++ cfgValEntryBytes e ++ post) N turns
        (pre.length + 4 + e.2.length) (cfgValEntryUpdate other keyId bm e)
        (vis ++ [pre.length]) := by
  obtain ⟨key, val⟩ := e
  simp only at hkey hsize hval
  have hlen : N = pre.length + 4 + val.length + post.length := by
    rw [hN]
    simp only [cfgValEntryBytes, List.length_append, uUbxProtocolUint32Encode_length]
    omega
  have hcond : (N + 4294967296 - pre.length) % 4294967296 ≥ 4 + 1 := by omega
  have hin : ¬ pre.length + 4 > N := by omega
  have hdec : uUbxProtocolUint32Decode ((pre ++ cfgValEntryBytes (key, val) ++ post).drop
      pre.length) = key := by
    rw [List.append_assoc, List.drop_left, cfgValEntryBytes, List.append_assoc]
    exact uUbxProtocolUint32Decode_encode key _ hkey
  have hv : (pre ++ cfgValEntryBytes (key, val) ++ post).getD (pre.length + 4) 0 =
      val.getD 0 0 := by
    obtain ⟨v, vs, rfl⟩ : ∃ v vs, val = v :: vs := by
      cases val with
      | nil => simp at hval
      | cons v vs => exact ⟨v, vs, rfl⟩
    rw [List.append_assoc, List.getD_eq_getElem?_getD,
      List.getElem?_append_right (by omega)]
    simp [cfgValEntryBytes, uUbxProtocolUint32Encode]
  rw [cfgValLoop, if_pos hcond, if_neg hin]
  simp only [hdec, hv, hsize, cfgValEntryUpdate]

/-- The loop of `getProtocolOutUbxCfgVal` on a response that, from the read
position on, is made of well-formed entries: it decodes a key at the first
byte of each entry and nowhere else, takes each entry into the bit-map and
ends at the end of the response, given as many turns as there are entries
plus one. -/
theorem cfgValLoop_entries (k : CfgValConstants) (other : uGnssProtocol_t → Nat) (keyId : Nat)
    (es : List (Nat × List Nat)) :
    ∀ (pre : List Nat) (turns bm N : Nat) (vis : List Nat),
      N = (pre ++ cfgValEntriesBytes es).length → N < 4294967296 →
      (∀ e ∈ es, e.1 < 4294967296 ∧ cfgValSize k (e.1 >>> 28) = e.2.length ∧ 1 ≤ e.2.length) →
      es.length < turns →
      cfgValLoop k other keyId (pre ++ cfgValEntriesBytes es) N turns pre.length bm vis =
        .done (es.foldl (cfgValEntryUpdate other keyId) bm)
          (vis ++ cfgValOffsets pre.length es) := by
  induction es with
  | nil =>
    intro pre turns bm N vis hN _ _ hturns
    obtain ⟨t, rfl⟩ : ∃ t, turns = t + 1 := ⟨turns - 1, by simp at hturns; omega⟩
    simp only [cfgValEntriesBytes, List.append_nil] at hN ⊢
    have hcond : ¬ (N + 4294967296 - pre.length) % 4294967296 ≥ 4 + 1 := by
      rw [hN]
      omega
    rw [cfgValLoop, if_neg hcond]
    simp [cfgValOffsets]
  | cons e es ih =>
    intro pre turns bm N vis hN hN32 hwf hturns
    obtain ⟨t, rfl⟩ : ∃ t, turns = t + 1 := ⟨turns - 1, by simp at hturns; omega⟩
    have he := hwf e (List.mem_cons_self _ _)
    have hes : ∀ e' ∈ es, e'.1 < 4294967296 ∧ cfgValSize k (e'.1 >>> 28) = e'.2.length ∧
        1 ≤ e'.2.length := fun e' h => hwf e' (List.mem_cons_of_mem _ h)
    have hbytes : pre ++ cfgValEntriesBytes (e :: es) =
        pre ++ cfgValEntryBytes e ++ cfgValEntriesBytes es := by
      simp only [cfgValEntriesBytes, List.append_assoc]
    have hprelen : (pre ++ cfgValEntryBytes e).length = pre.length + 4 + e.2.length := by
      simp only [cfgValEntryBytes, List.length_append, uUbxProtocolUint32Encode_length]
      omega
    rw [hbytes] at hN ⊢
    rw [cfgValLoop_entry k other keyId pre _ e t bm N vis hN hN32 he.1 he.2.1 he.2.2,
      ← hprelen, ih (pre ++ cfgValEntryBytes e) t _ N _ hN hN32 hes
        (by simp at hturns; omega)]
    simp only [List.foldl_cons, cfgValOffsets, hprelen, List.append_assoc, List.singleton_append]

/-- A bit of the bit-map that the loop of `getProtocolOutUbxCfgVal` builds from
a list of entries: it is set when it was set at the start or when an entry of
the group of the key, with a non-zero first value byte, has a low key byte
that the table `gCfgValItemIdOutProtToProtocolType` maps to a protocol with
that bit as its number. -/
theorem cfgValEntryUpdate_foldl_testBit (other : uGnssProtocol_t → Nat) (keyId p : Nat)
    (es : List (Nat × List Nat)) :
    ∀ bm : Nat, (es.foldl (cfgValEntryUpdate other keyId) bm).testBit p = true ↔
      (bm.testBit p = true ∨ ∃ e ∈ es, e.1 &&& 0xFFFF0000 = keyId &&& 0xFFFF0000 ∧
        e.2.getD 0 0 ≠ 0 ∧ ∃ P, gCfgValItemIdOutProtToProtocolType.getD (e.1 &&& 0xFF) none =
          some P ∧ uGnssProtocolValue other P = p) := by
  induction es with
  | nil => intro bm; simp
  | cons e es ih =>
    intro bm
    rw [List.foldl_cons, ih]
    have hstep : (cfgValEntryUpdate other keyId bm e).testBit p = true ↔
        (bm.testBit p = true ∨ (e.1 &&& 0xFFFF0000 = keyId &&& 0xFFFF0000 ∧
          e.2.getD 0 0 ≠ 0 ∧ ∃ P, gCfgValItemIdOutProtToProtocolType.getD (e.1 &&& 0xFF) none =
            some P ∧ uGnssProtocolValue other P = p)) := by
      unfold cfgValEntryUpdate
      dsimp only
      by_cases hg : e.1 &&& 0xFFFF0000 = keyId &&& 0xFFFF0000
      · by_cases hv : e.2.getD 0 0 ≠ 0
        · cases hitem : gCfgValItemIdOutProtToProtocolType.getD (e.1 &&& 0xFF) none with
          | none => simp [hg, hv, hitem]
          | some P =>
            have hlt : e.1 &&& 0xFF < gCfgValItemIdOutProtToProtocolType.length := by
              by_contra hge
              rw [List.getD_eq_getElem?_getD, List.getElem?_eq_none (by omega)] at hitem
              simp at hitem
            rw [if_pos ⟨hg, hlt, by simp⟩, if_pos hv]
            simp only [Option.getD_some, Nat.testBit_or, Bool.or_eq_true, Nat.one_shiftLeft,
              Nat.testBit_two_pow, decide_eq_true_eq, Option.some.injEq, exists_eq_left',
              hg, hv, true_and, ne_eq, not_false_eq_true]
        · split_ifs with h1
          · constructor
            · exact Or.inl
            · rintro (h | ⟨_, h, _⟩)
              · exact h
              · exact absurd h hv
          · constructor
            · exact Or.inl
            · rintro (h | ⟨_, h, _⟩)
              · exact h
              · exact absurd h hv
      · simp [hg]
    rw [hstep]
    constructor
    · rintro ((h | h) | ⟨e', he', h⟩)
      · exact Or.inl h
      · exact Or.inr ⟨e, List.mem_cons_self _ _, h⟩
      · exact Or.inr ⟨e', List.mem_cons_of_mem _ he', h⟩
    · rintro (h | ⟨e', he', h⟩)
      · exact Or.inl (Or.inl h)
      · rcases List.mem_cons.mp he' with rfl | hmem
        · exact Or.inl (Or.inr h)
        · exact Or.inr ⟨e', hmem, h⟩

/-- The low key bytes that the table `gCfgValItemIdOutProtToProtocolType` maps
to a protocol, with the number of the protocol: 1 to UBX, 2 to NMEA, 4 to
RTCM. -/
theorem cfgVal_item_protocol (other : uGnssProtocol_t → Nat) (low p : Nat) :
    (∃ P, gCfgValItemIdOutProtToProtocolType.getD low none = some P ∧
        uGnssProtocolValue other P = p) ↔
      ((low = 1 ∧ p = 0) ∨ (low = 2 ∧ p = 1) ∨ (low = 4 ∧ p = 2)) := by
  by_cases hlow : low < 5
  · interval_cases low <;>
      simp [gCfgValItemIdOutProtToProtocolType, uGnssProtocolValue, eq_comm]
  · have hnone : gCfgValItemIdOutProtToProtocolType.getD low none = none := by
      rw [List.getD_eq_getElem?_getD, List.getElem?_eq_none (by
        simp only [gCfgValItemIdOutProtToProtocolType, List.length_cons, List.length_nil]
        omega)]
      rfl
    rw [hnone]
    constructor
    · rintro ⟨P, h, _⟩
      cases h
    · rintro (⟨h, _⟩ | ⟨h, _⟩ | ⟨h, _⟩) <;> omega

/-- C33, as stated, fails, twice.  The response `00 00 00 00 01 01 74 10 01` for
port 1 holds one well-formed entry, of the group of the port, whose item ID is
0x0101 and whose value is 1: no entry has the item ID 1 of UBX, and the loop of
`getProtocolOutUbxCfgVal` returns the bit-map 1, with the bit of UBX set,
because it looks at the low byte of the key only.  And for a response of a
header and no entry the function returns the platform error, not the empty
bit-map. -/
theorem getProtocolOutUbxCfgVal_low_byte_only :
    getProtocolOutUbxCfgVal ubloxCfgVal
        (fun (s : Unit) _ _ _ _ _ =>
          ((.length 9, some ([0, 0, 0, 0] ++ cfgValEntriesBytes [(0x10740101, [1])])), s))
        (fun _ => 3) () ⟨U_GNSS_TRANSPORT_UART, 0, 1, 1000, false, 0, true⟩ =
      some (.length 1, ()) ∧
    (0x10740101 &&& 0xFFFF ≠ 1 ∧ cfgValSize ubloxCfgVal (0x10740101 >>> 28) = [1].length) ∧
    getProtocolOutUbxCfgVal ubloxCfgVal
        (fun (s : Unit) _ _ _ _ _ => ((.length 4, some [0, 0, 0, 0]), s))
        (fun _ => 3) () ⟨U_GNSS_TRANSPORT_UART, 0, 1, 1000, false, 0, true⟩ =
      some (.error (.common U_ERROR_COMMON_PLATFORM), ()) := by
  refine ⟨?_, ⟨?_, ?_⟩, ?_⟩ <;> decide

/-- C33, amended: in `getProtocolOutUbxCfgVal`, for a port number from 0 to 4
and a response made of a 4-byte header followed by at least one well-formed
key/value entry (a 4-byte little-endian key followed by a value whose length,
1, 1, 2, 4 or 8 bytes, is the one that the size tag in the top 4 bits of the
key stands for), the loop decodes a key at the first byte of every entry and
nowhere else, and the function returns the bit-map in which the bit of
protocol `P` (UBX, NMEA, RTCM) is set exactly when some entry has the upper 16
key bits of the key of the port, has the low byte of its key equal to the item
ID of `P` (1, 2 or 4) and has a non-zero first value byte; no other bit is
set. -/
theorem getProtocolOutUbxCfgVal_entries {σ : Type} (k : CfgValConstants)
    (uGnssPrivateSendReceiveUbxMessageAlloc : σ → uGnssPrivateInstance_t → Int → Int →
      List Nat → Nat → (errorCodeOrLength_t × Option (List Nat)) × σ)
    (other : uGnssProtocol_t → Nat) (s s1 : σ) (inst : uGnssPrivateInstance_t)
    (header : List Nat) (es : List (Nat × List Nat)) (keyId : Nat)
    (hport : 0 ≤ inst.portNumber ∧ inst.portNumber < 5)
    (hkeyId : keyId = ((0x10 <<< 24) |||
      ((k.groupId (gPortToCfgValGroupIdOutProt.getD inst.portNumber.toNat
        U_GNSS_CFG_VAL_KEY_GROUP_ID_I2COUTPROT) &&& 0xFF) <<< 16) |||
      k.U_GNSS_CFG_VAL_KEY_ITEM_ID_ALL) % 4294967296)
    (hheader : header.length = 4) (hne : es ≠ [])
    (hwf : ∀ e ∈ es, e.1 < 4294967296 ∧ cfgValSize k (e.1 >>> 28) = e.2.length ∧
      1 ≤ e.2.length)
    (hsize : (header ++ cfgValEntriesBytes es).length < 2147483648)
    (hrecv : uGnssPrivateSendReceiveUbxMessageAlloc s inst 0x06 0x8b
      ([0, 0, 0, 0] ++ uUbxProtocolUint32Encode keyId) 8 =
        ((.length (header ++ cfgValEntriesBytes es).length,
          some (header ++ cfgValEntriesBytes es)), s1)) :
    ∃ bm : Nat,
      getProtocolOutUbxCfgVal k uGnssPrivateSendReceiveUbxMessageAlloc other s inst =
        some (.length bm, s1) ∧
      cfgValLoop k other keyId (header ++ cfgValEntriesBytes es)
          (header ++ cfgValEntriesBytes es).length (header ++ cfgValEntriesBytes es).length 4 0
          [] = .done bm (cfgValOffsets 4 es) ∧
      (∀ (P : uGnssProtocol_t) (item : Nat),
        (P = U_GNSS_PROTOCOL_UBX ∧ item = 1) ∨ (P = U_GNSS_PROTOCOL_NMEA ∧ item = 2) ∨
          (P = U_GNSS_PROTOCOL_RTCM ∧ item = 4) →
        (bm.testBit (uGnssProtocolValue other P) = true ↔
          ∃ e ∈ es, e.1 &&& 0xFFFF0000 = keyId &&& 0xFFFF0000 ∧ e.1 &&& 0xFF = item ∧
            e.2.getD 0 0 ≠ 0)) ∧
      (∀ j, 3 ≤ j → bm.testBit j = false) := by
  have hlen5 : (gPortToCfgValGroupIdOutProt.length : Int) = 5 := rfl
  have hp : 0 ≤ inst.portNumber ∧ inst.portNumber < (gPortToCfgValGroupIdOutProt.length : Int) := by
    rw [hlen5]; exact hport
  have hentry : ∀ e ∈ es, 5 ≤ (cfgValEntryBytes e).length := by
    intro e he
    have := (hwf e he).2.2
    simp only [cfgValEntryBytes, List.length_append, uUbxProtocolUint32Encode_length]
    omega
  have hbytes : ∀ l : List (Nat × List Nat), (∀ e ∈ l, 5 ≤ (cfgValEntryBytes e).length) →
      5 * l.length ≤ (cfgValEntriesBytes l).length := by
    intro l
    induction l with
    | nil => intro _; simp [cfgValEntriesBytes]
    | cons e l ih =>
      intro h
      have h1 := h e (List.mem_cons_self _ _)
      have h2 := ih (fun e' he' => h e' (List.mem_cons_of_mem _ he'))
      simp only [cfgValEntriesBytes, List.length_append, List.length_cons]
      omega
  have hN := hbytes es hentry
  have hes : 1 ≤ es.length := by
    cases es with
    | nil => exact absurd rfl hne
    | cons _ _ => simp
  have hloop := cfgValLoop_entries k other keyId es header
    (header ++ cfgValEntriesBytes es).length 0 (header ++ cfgValEntriesBytes es).length []
    rfl (by omega) hwf (by
      simp only [List.length_append, hheader]
      omega)
  rw [hheader, List.nil_append] at hloop
  refine ⟨_, ?_, hloop, ?_, ?_⟩
  · have hgt : (header ++ cfgValEntriesBytes es).length > 4 := by
      simp only [List.length_append, hheader]
      omega
    simp only [getProtocolOutUbxCfgVal, if_pos hp, ← hkeyId]
    have hout : ([0, 0, 0, 0] ++ uUbxProtocolUint32Encode keyId).length = 8 := rfl
    rw [hout, hrecv]
    simp only [if_pos hgt, hloop]
  · intro P item hP
    rw [cfgValEntryUpdate_foldl_testBit]
    simp only [Nat.zero_testBit, Bool.false_eq_true, false_or]
    constructor
    · rintro ⟨e, he, hg, hv, hex⟩
      refine ⟨e, he, hg, ?_, hv⟩
      have := (cfgVal_item_protocol other (e.1 &&& 0xFF) (uGnssProtocolValue other P)).mp hex
      rcases hP with ⟨rfl, rfl⟩ | ⟨rfl, rfl⟩ | ⟨rfl, rfl⟩ <;>
        simp only [uGnssProtocolValue] at this <;> omega
    · rintro ⟨e, he, hg, hitem, hv⟩
      refine ⟨e, he, hg, hv, ?_⟩
      apply (cfgVal_item_protocol other (e.1 &&& 0xFF) (uGnssProtocolValue other P)).mpr
      rcases hP with ⟨rfl, rfl⟩ | ⟨rfl, rfl⟩ | ⟨rfl, rfl⟩ <;>
        simp [uGnssProtocolValue, hitem]
  · intro j hj
    by_contra hset
    have hset' : (es.foldl (cfgValEntryUpdate other keyId) 0).testBit j = true := by
      simpa using hset
    rw [cfgValEntryUpdate_foldl_testBit] at hset'
    simp only [Nat.zero_testBit, Bool.false_eq_true, false_or] at hset'
    obtain ⟨e, _, _, _, hex⟩ := hset'
    have := (cfgVal_item_protocol other (e.1 &&& 0xFF) j).mp hex
    omega

/-- The theorem `getProtocolOutUbxCfgVal_entries` at port 1 and the response
`00 01 00 00` followed by the entries UBX on, NMEA off, RTCM on. -/
theorem getProtocolOutUbxCfgVal_entries_witness :
    ∃ bm : Nat,
      getProtocolOutUbxCfgVal ubloxCfgVal
        (fun (s : Unit) _ _ _ _ _ =>
          ((.length 19, some ([0, 1, 0, 0] ++
            cfgValEntriesBytes [(0x10740001, [1]), (0x10740002, [0]), (0x10740004, [1])])), s))
        (fun _ => 3) () ⟨U_GNSS_TRANSPORT_UART, 0, 1, 1000, false, 0, true⟩ =
        some (.length bm, ()) ∧
      bm.testBit 0 = true ∧ bm.testBit 1 = false ∧ bm.testBit 2 = true ∧
      bm.testBit 3 = false :=
  match getProtocolOutUbxCfgVal_entries ubloxCfgVal
      (fun (s : Unit) _ _ _ _ _ =>
        ((.length 19, some ([0, 1, 0, 0] ++
          cfgValEntriesBytes [(0x10740001, [1]), (0x10740002, [0]), (0x10740004, [1])])), s))
      (fun _ => 3) () () ⟨U_GNSS_TRANSPORT_UART, 0, 1, 1000, false, 0, true⟩
      [0, 1, 0, 0] [(0x10740001, [1]), (0x10740002, [0]), (0x10740004, [1])] 0x1074FFFF
      (by decide) (by decide) (by decide) (by decide) (by decide) (by decide) rfl with
  | ⟨bm, h1, _, h3, h4⟩ =>
    ⟨bm, h1,
      (h3 U_GNSS_PROTOCOL_UBX 1 (Or.inl ⟨rfl, rfl⟩)).mpr
        ⟨(0x10740001, [1]), by decide, by decide, by decide, by decide⟩,
      by
        cases hb : bm.testBit 1 with
        | false => rfl
        | true =>
          obtain ⟨e, he, _, h2, hv⟩ :=
            (h3 U_GNSS_PROTOCOL_NMEA 2 (Or.inr (Or.inl ⟨rfl, rfl⟩))).mp hb
          simp only [List.mem_cons, List.mem_singleton, List.mem_nil_iff, or_false] at he
          rcases he with rfl | rfl | rfl
          · exact absurd h2 (by decide)
          · exact absurd rfl hv
          · exact absurd h2 (by decide),
      (h3 U_GNSS_PROTOCOL_RTCM 4 (Or.inr (Or.inr ⟨rfl, rfl⟩))).mpr
        ⟨(0x10740004, [1]), by decide, by decide, by decide, by decide⟩,
      h4 3 (le_refl 3)⟩

/-! ## Theorems: the key/value procedure, the end of the response -/

set_option maxRecDepth 100000 in
/-- C40 fails on the code.  On port 1 the response `00 00 00 00 01 00 74 50 01`
(9 bytes: the header and the key 0x50740001, whose size tag 5 announces a
value of 8 bytes of which one is present) passes the test of the loop of
`getProtocolOutUbxCfgVal` at offset 4; the key moves the read position to
offset 16, past the end; there the unsigned `messageSizeBytes - (pMessage -
pMessageIn)` is `9 - 16`, which wraps around to 4294967289, the test of the
loop passes again and the loop decodes a key at offset 16, outside the
response.  The same happens with the size tag 3 of a 2-byte value of which
one byte is present (`00 00 00 00 01 00 74 30 01`): the next key is read at
offset 10. -/
theorem getProtocolOutUbxCfgVal_reads_past_end :
    (9 + 4294967296 - 16) % 4294967296 = 4294967289 ∧
    cfgValLoop ubloxCfgVal (fun _ => 3) 0x1074FFFF [0, 0, 0, 0, 1, 0, 0x74, 0x50, 1] 9 9 4 0 [] =
      .outside 16 [4] ∧
    getProtocolOutUbxCfgVal ubloxCfgVal
        (fun (s : Unit) _ _ _ _ _ =>
          ((.length 9, some [0, 0, 0, 0, 1, 0, 0x74, 0x50, 1]), s))
        (fun _ => 3) () ⟨U_GNSS_TRANSPORT_UART, 0, 1, 1000, false, 0, true⟩ = none ∧
    cfgValLoop ubloxCfgVal (fun _ => 3) 0x1074FFFF [0, 0, 0, 0, 1, 0, 0x74, 0x30, 1] 9 9 4 0 [] =
      .outside 10 [4] ∧
    getProtocolOutUbxCfgVal ubloxCfgVal
        (fun (s : Unit) _ _ _ _ _ =>
          ((.length 9, some [0, 0, 0, 0, 1, 0, 0x74, 0x30, 1]), s))
        (fun _ => 3) () ⟨U_GNSS_TRANSPORT_UART, 0, 1, 1000, false, 0, true⟩ = none := by
  refine ⟨?_, ?_, ?_, ?_, ?_⟩ <;> decide

/-! ## Theorems: the key/value procedure, set then get -/

/-- The key of an entry as a sum: the three parts do not overlap. -/
theorem cfgValKey_eq (h item : Nat) (hh : h < 256) (hitem : item < 65536) :
    (0x10 <<< 24) ||| (h <<< 16) ||| item = 65536 * (4096 + h) + item := by
  have e1 : (0x10 <<< 24 : Nat) = 2 ^ 24 * 16 := by decide
  have e2 : h <<< 16 = 2 ^ 16 * h := by rw [Nat.shiftLeft_eq, Nat.mul_comm]
  have e3 : 2 ^ 24 * 16 ||| 2 ^ 16 * h = 2 ^ 24 * 16 + 2 ^ 16 * h :=
    (Nat.mul_add_lt_is_or (by omega) 16).symm
  have e4 : 2 ^ 16 * (4096 + h) ||| item = 2 ^ 16 * (4096 + h) + item :=
    (Nat.mul_add_lt_is_or (by omega) _).symm
  have e5 : 2 ^ 24 * 16 + 2 ^ 16 * h = 2 ^ 16 * (4096 + h) := by omega
  rw [e1, e2, e3, e5, e4]
  norm_num

/-- Two numbers with the same bits from bit 16 on have the same bits under the
mask 0xFFFF0000. -/
theorem and_high16_eq (a b : Nat) (h : a / 65536 = b / 65536) :
    a &&& 0xFFFF0000 = b &&& 0xFFFF0000 := by
  apply Nat.eq_of_testBit_eq
  intro j
  simp only [Nat.testBit_and]
  by_cases hj : 16 ≤ j
  · have e : ∀ x : Nat, x.testBit j = (x / 65536).testBit (j - 16) := by
      intro x
      have : x / 65536 = x >>> 16 := by rw [Nat.shiftRight_eq_div_pow]
      rw [this, Nat.testBit_shiftRight]
      congr 1
      omega
    rw [e a, e b, h]
  · have hm : (0xFFFF0000 : Nat).testBit j = false := by
      have hj16 : j < 16 := by omega
      interval_cases j <;> rfl
    rw [hm]
    simp

/-- What the loop body of `getProtocolOutUbxCfgVal` makes of an entry written
by `packUbxCfgValLogicalEntry` for the same group ID: the bit of the protocol
of the item ID is set when the value is 1 and the bit-map is left alone when
it is 0. -/
theorem cfgValEntryUpdate_set (other : uGnssProtocol_t → Nat) (g all item bm : Nat)
    (P : uGnssProtocol_t) (v : Bool) (hall : all < 65536)
    (hP : (P = U_GNSS_PROTOCOL_UBX ∧ item = 1) ∨ (P = U_GNSS_PROTOCOL_NMEA ∧ item = 2) ∨
      (P = U_GNSS_PROTOCOL_RTCM ∧ item = 4)) :
    cfgValEntryUpdate other (((0x10 <<< 24) ||| ((g &&& 0xFF) <<< 16) ||| all) % 4294967296) bm
        ((0x10 <<< 24) ||| ((g &&& 0xFF) <<< 16) ||| item, [if v then 1 else 0]) =
      if v then bm ||| (1 <<< uGnssProtocolValue other P) else bm := by
  have hh : g &&& 0xFF < 256 := by
    rw [and_255]
    omega
  have hitem : item < 256 := by
    rcases hP with ⟨_, rfl⟩ | ⟨_, rfl⟩ | ⟨_, rfl⟩ <;> norm_num
  have hk := cfgValKey_eq _ item hh (by omega)
  have hka := cfgValKey_eq _ all hh hall
  have hmod := Nat.mod_eq_of_lt (cfgValKey_lt g all hall)
  have hhigh : ((0x10 <<< 24) ||| ((g &&& 0xFF) <<< 16) ||| item) &&& 0xFFFF0000 =
      ((0x10 <<< 24) ||| ((g &&& 0xFF) <<< 16) ||| all) &&& 0xFFFF0000 :=
    and_high16_eq _ _ (by rw [hk, hka]; omega)
  have hlow : ((0x10 <<< 24) ||| ((g &&& 0xFF) <<< 16) ||| item) &&& 0xFF = item := by
    rw [and_255, hk]
    omega
  unfold cfgValEntryUpdate
  simp only [hmod, hhigh, hlow]
  rcases hP with ⟨rfl, rfl⟩ | ⟨rfl, rfl⟩ | ⟨rfl, rfl⟩ <;> cases v <;>
    simp [gCfgValItemIdOutProtToProtocolType, uGnssProtocolValue]

/-- The size tag of a key written by `packUbxCfgValLogicalEntry` is 1. -/
theorem cfgValKey_tag (g item : Nat) (hitem : item < 65536) :
    ((0x10 <<< 24) ||| ((g &&& 0xFF) <<< 16) ||| item) >>> 28 = 1 := by
  have hh : g &&& 0xFF < 256 := by
    rw [and_255]
    omega
  rw [cfgValKey_eq _ item hh hitem, Nat.shiftRight_eq_div_pow]
  omega

/-- The body that `setProtocolOutUbxCfgVal` sends for a port number from 0 to
4, as a header followed by key/value entries. -/
theorem cfgValSetBody_eq (k : CfgValConstants) (other : uGnssProtocol_t → Nat)
    (inst : uGnssPrivateInstance_t) (protocol : uGnssProtocol_t) (onNotOff : Bool) (g : Nat)
    (hg : g = k.groupId (gPortToCfgValGroupIdOutProt.getD inst.portNumber.toNat
      U_GNSS_CFG_VAL_KEY_GROUP_ID_I2COUTPROT))
    (hport : 0 ≤ inst.portNumber ∧ inst.portNumber < 5) :
    (protocol = U_GNSS_PROTOCOL_ALL →
      cfgValSetBody k other inst protocol onNotOff =
        [0, k.U_GNSS_CFG_VAL_LAYER_RAM % 256, 0, 0] ++ cfgValEntriesBytes
          [((0x10 <<< 24) ||| ((g &&& 0xFF) <<< 16) ||| 1, [if onNotOff then 1 else 0]),
           ((0x10 <<< 24) ||| ((g &&& 0xFF) <<< 16) ||| 2, [if onNotOff then 1 else 0]),
           ((0x10 <<< 24) ||| ((g &&& 0xFF) <<< 16) ||| 4, [if onNotOff then 1 else 0])]) ∧
    (∀ item : Nat, (protocol = U_GNSS_PROTOCOL_UBX ∧ item = 1) ∨
        (protocol = U_GNSS_PROTOCOL_NMEA ∧ item = 2) ∨
        (protocol = U_GNSS_PROTOCOL_RTCM ∧ item = 4) →
      cfgValSetBody k other inst protocol onNotOff =
        [0, k.U_GNSS_CFG_VAL_LAYER_RAM % 256, 0, 0] ++ cfgValEntriesBytes
          [((0x10 <<< 24) ||| ((g &&& 0xFF) <<< 16) ||| item,
            [if onNotOff then 1 else 0])]) := by
  have hlen : (gPortToCfgValGroupIdOutProt.length : Int) = 5 := rfl
  have hp : 0 ≤ inst.portNumber ∧ inst.portNumber < (gPortToCfgValGroupIdOutProt.length : Int) := by
    rw [hlen]; exact hport
  have hpack : ∀ item, item < 65536 → (packUbxCfgValLogicalEntry g item onNotOff).length = 5 := by
    intro item hitem
    rw [packUbxCfgValLogicalEntry_eq g item onNotOff hitem]
    rfl
  have h1 := packUbxCfgValLogicalEntry_eq g 1 onNotOff (by norm_num)
  have h2 := packUbxCfgValLogicalEntry_eq g 2 onNotOff (by norm_num)
  have h4 := packUbxCfgValLogicalEntry_eq g 4 onNotOff (by norm_num)
  have l1 := hpack 1 (by norm_num)
  have l2 := hpack 2 (by norm_num)
  have l4 := hpack 4 (by norm_num)
  refine ⟨fun hall => ?_, fun item hitem => ?_⟩
  · subst hall
    simp only [cfgValSetBody, setProtocolOutUbxCfgVal, if_pos hp, if_true, ← hg,
      gProtocolTypeToCfgValItemIdOutProt, List.foldl_cons, List.foldl_nil]
    rw [if_pos (by simp [l1, l2, l4])]
    simp only [h1, h2, h4, cfgValEntriesBytes, cfgValEntryBytes]
    simp [uUbxProtocolUint32Encode]
  · rcases hitem with ⟨rfl, rfl⟩ | ⟨rfl, rfl⟩ | ⟨rfl, rfl⟩
    · simp only [cfgValSetBody, setProtocolOutUbxCfgVal, if_pos hp, ← hg, uGnssProtocolValue,
        gProtocolTypeToCfgValItemIdOutProt, reduceCtorEq, if_false, List.length_cons,
        List.length_nil, List.getD_cons_zero, Nat.zero_lt_succ, if_true, List.length_append, l1]
      rw [h1]
      simp [cfgValEntriesBytes, cfgValEntryBytes]
    · simp only [cfgValSetBody, setProtocolOutUbxCfgVal, if_pos hp, ← hg, uGnssProtocolValue,
        gProtocolTypeToCfgValItemIdOutProt, reduceCtorEq, if_false, List.length_cons,
        List.length_nil, List.getD_cons_zero, List.getD_cons_succ, Nat.one_lt_ofNat, if_true,
        List.length_append, l2]
      rw [h2]
      simp [cfgValEntriesBytes, cfgValEntryBytes]
    · simp only [cfgValSetBody, setProtocolOutUbxCfgVal, if_pos hp, ← hg, uGnssProtocolValue,
        gProtocolTypeToCfgValItemIdOutProt, reduceCtorEq, if_false, List.length_cons,
        List.length_nil, List.getD_cons_zero, List.getD_cons_succ, if_true,
        List.length_append, l4]
      rw [h4]
      simp [cfgValEntriesBytes, cfgValEntryBytes]

/-- The size tag 1 stands for a value of one byte when it is the tag of a
one-bit or of a one-byte value. -/
theorem cfgValSize_one (k : CfgValConstants)
    (htag : k.U_GNSS_CFG_VAL_KEY_SIZE_ONE_BIT = 1 ∨ k.U_GNSS_CFG_VAL_KEY_SIZE_ONE_BYTE = 1) :
    cfgValSize k 1 = 1 := by
  unfold cfgValSize
  rcases htag with h | h <;> simp [h]

/-- The function `getProtocolOutUbxCfgVal` returns the bit-map of its loop when
the loop ends inside the response. -/
theorem getProtocolOutUbxCfgVal_of_loop {σ : Type} (k : CfgValConstants)
    (uGnssPrivateSendReceiveUbxMessageAlloc : σ → uGnssPrivateInstance_t → Int → Int →
      List Nat → Nat → (errorCodeOrLength_t × Option (List Nat)) × σ)
    (other : uGnssProtocol_t → Nat) (s s1 : σ) (inst : uGnssPrivateInstance_t)
    (keyId n bm : Nat) (messageIn vis : List Nat)
    (hport : 0 ≤ inst.portNumber ∧ inst.portNumber < 5)
    (hkeyId : keyId = ((0x10 <<< 24) |||
      ((k.groupId (gPortToCfgValGroupIdOutProt.getD inst.portNumber.toNat
        U_GNSS_CFG_VAL_KEY_GROUP_ID_I2COUTPROT) &&& 0xFF) <<< 16) |||
      k.U_GNSS_CFG_VAL_KEY_ITEM_ID_ALL) % 4294967296)
    (hrecv : uGnssPrivateSendReceiveUbxMessageAlloc s inst 0x06 0x8b
      ([0, 0, 0, 0] ++ uUbxProtocolUint32Encode keyId) 8 = ((.length n, some messageIn), s1))
    (hn : n > 4)
    (hloop : cfgValLoop k other keyId messageIn n n 4 0 [] = .done bm vis) :
    getProtocolOutUbxCfgVal k uGnssPrivateSendReceiveUbxMessageAlloc other s inst =
      some (.length bm, s1) := by
  have hlen5 : (gPortToCfgValGroupIdOutProt.length : Int) = 5 := rfl
  have hp : 0 ≤ inst.portNumber ∧ inst.portNumber < (gPortToCfgValGroupIdOutProt.length : Int) := by
    rw [hlen5]; exact hport
  simp only [getProtocolOutUbxCfgVal, if_pos hp, ← hkeyId]
  have hout : ([0, 0, 0, 0] ++ uUbxProtocolUint32Encode keyId).length = 8 := rfl
  rw [hout, hrecv]
  simp only [if_pos hn, hloop]

/-- C39: the key/value set and get agree.  For a port number from 0 to 4, let
the body that `setProtocolOutUbxCfgVal` sends for protocol `P` and flag `v` be
the response that `getProtocolOutUbxCfgVal` receives for the same port.  For
`P` one of UBX, NMEA and RTCM the loop of the get decodes the one key at
offset 4 and the function returns the bit-map `1 << P` when `v` is on and 0
when it is off; for ALL the loop decodes the keys at offsets 4, 9 and 14 and
the function returns the bit-map of exactly the bits of UBX, NMEA and RTCM
when `v` is on and 0 when it is off.  The constants that the sources at hand
do not hold are taken as given, under what the code written around them
takes for granted: the size tag 1 that `packUbxCfgValLogicalEntry` writes
(`0x10 << 24`) is the tag of a one-bit or of a one-byte value, and the
wild-card item ID fits the 16 bits of an item ID. -/
theorem cfgVal_set_get {σ : Type} (k : CfgValConstants)
    (uGnssPrivateSendReceiveUbxMessageAlloc : σ → uGnssPrivateInstance_t → Int → Int →
      List Nat → Nat → (errorCodeOrLength_t × Option (List Nat)) × σ)
    (other : uGnssProtocol_t → Nat) (s s1 : σ) (inst : uGnssPrivateInstance_t)
    (P : uGnssProtocol_t) (v : Bool) (keyId : Nat)
    (hport : 0 ≤ inst.portNumber ∧ inst.portNumber < 5)
    (htag : k.U_GNSS_CFG_VAL_KEY_SIZE_ONE_BIT = 1 ∨ k.U_GNSS_CFG_VAL_KEY_SIZE_ONE_BYTE = 1)
    (hall : k.U_GNSS_CFG_VAL_KEY_ITEM_ID_ALL < 65536)
    (hkeyId : keyId = ((0x10 <<< 24) |||
      ((k.groupId (gPortToCfgValGroupIdOutProt.getD inst.portNumber.toNat
        U_GNSS_CFG_VAL_KEY_GROUP_ID_I2COUTPROT) &&& 0xFF) <<< 16) |||
      k.U_GNSS_CFG_VAL_KEY_ITEM_ID_ALL) % 4294967296)
    (hrecv : uGnssPrivateSendReceiveUbxMessageAlloc s inst 0x06 0x8b
      ([0, 0, 0, 0] ++ uUbxProtocolUint32Encode keyId) 8 =
        ((.length (cfgValSetBody k other inst P v).length,
          some (cfgValSetBody k other inst P v)), s1)) :
    (P = U_GNSS_PROTOCOL_UBX ∨ P = U_GNSS_PROTOCOL_NMEA ∨ P = U_GNSS_PROTOCOL_RTCM →
      cfgValLoop k other keyId (cfgValSetBody k other inst P v)
          (cfgValSetBody k other inst P v).length (cfgValSetBody k other inst P v).length 4 0
          [] = .done (if v then 1 <<< uGnssProtocolValue other P else 0) [4] ∧
      getProtocolOutUbxCfgVal k uGnssPrivateSendReceiveUbxMessageAlloc other s inst =
        some (.length (if v then 1 <<< uGnssProtocolValue other P else 0), s1)) ∧
    (P = U_GNSS_PROTOCOL_ALL →
      cfgValLoop k other keyId (cfgValSetBody k other inst P v)
          (cfgValSetBody k other inst P v).length (cfgValSetBody k other inst P v).length 4 0
          [] = .done (if v then (1 <<< uGnssProtocolValue other U_GNSS_PROTOCOL_UBX) |||
            (1 <<< uGnssProtocolValue other U_GNSS_PROTOCOL_NMEA) |||
            (1 <<< uGnssProtocolValue other U_GNSS_PROTOCOL_RTCM) else 0) [4, 9, 14] ∧
      getProtocolOutUbxCfgVal k uGnssPrivateSendReceiveUbxMessageAlloc other s inst =
        some (.length (if v then (1 <<< uGnssProtocolValue other U_GNSS_PROTOCOL_UBX) |||
            (1 <<< uGnssProtocolValue other U_GNSS_PROTOCOL_NMEA) |||
            (1 <<< uGnssProtocolValue other U_GNSS_PROTOCOL_RTCM) else 0), s1)) := by
  have hbody := cfgValSetBody_eq k other inst P v _ rfl hport
  have hwf : ∀ item, item < 65536 → ∀ b : Nat,
      ((0x10 <<< 24) ||| ((k.groupId (gPortToCfgValGroupIdOutProt.getD inst.portNumber.toNat
        U_GNSS_CFG_VAL_KEY_GROUP_ID_I2COUTPROT) &&& 0xFF) <<< 16) ||| item, [b]).1 < 4294967296 ∧
      cfgValSize k (((0x10 <<< 24) |||
        ((k.groupId (gPortToCfgValGroupIdOutProt.getD inst.portNumber.toNat
          U_GNSS_CFG_VAL_KEY_GROUP_ID_I2COUTPROT) &&& 0xFF) <<< 16) ||| item, [b]).1 >>> 28) =
        ((0x10 <<< 24) ||| ((k.groupId (gPortToCfgValGroupIdOutProt.getD inst.portNumber.toNat
          U_GNSS_CFG_VAL_KEY_GROUP_ID_I2COUTPROT) &&& 0xFF) <<< 16) ||| item, [b]).2.length ∧
      1 ≤ ((0x10 <<< 24) ||| ((k.groupId (gPortToCfgValGroupIdOutProt.getD inst.portNumber.toNat
        U_GNSS_CFG_VAL_KEY_GROUP_ID_I2COUTPROT) &&& 0xFF) <<< 16) ||| item, [b]).2.length := by
    intro item hitem b
    refine ⟨cfgValKey_lt _ item hitem, ?_, le_refl 1⟩
    simp only [cfgValKey_tag _ item hitem, cfgValSize_one k htag, List.length_cons,
      List.length_nil]
  constructor
  · intro hP
    have hitem : ∃ item, (P = U_GNSS_PROTOCOL_UBX ∧ item = 1) ∨
        (P = U_GNSS_PROTOCOL_NMEA ∧ item = 2) ∨ (P = U_GNSS_PROTOCOL_RTCM ∧ item = 4) := by
      rcases hP with h | h | h
      · exact ⟨1, Or.inl ⟨h, rfl⟩⟩
      · exact ⟨2, Or.inr (Or.inl ⟨h, rfl⟩)⟩
      · exact ⟨4, Or.inr (Or.inr ⟨h, rfl⟩)⟩
    obtain ⟨item, hitem⟩ := hitem
    have hlt : item < 65536 := by
      rcases hitem with ⟨_, rfl⟩ | ⟨_, rfl⟩ | ⟨_, rfl⟩ <;> norm_num
    have hb := hbody.2 item hitem
    have hloop := cfgValLoop_entries k other keyId
      [((0x10 <<< 24) ||| ((k.groupId (gPortToCfgValGroupIdOutProt.getD inst.portNumber.toNat
        U_GNSS_CFG_VAL_KEY_GROUP_ID_I2COUTPROT) &&& 0xFF) <<< 16) ||| item,
        [if v then 1 else 0])]
      [0, k.U_GNSS_CFG_VAL_LAYER_RAM % 256, 0, 0] 9 0 9 [] rfl (by norm_num)
      (by
        intro e he
        rw [List.mem_singleton] at he
        subst he
        exact hwf item hlt _)
      (by simp)
    have hlen : (cfgValSetBody k other inst P v).length = 9 := by
      rw [hb]
      rfl
    rw [← hb] at hloop
    simp only [List.length_cons, List.length_nil, List.foldl_cons, List.foldl_nil,
      List.nil_append, cfgValOffsets] at hloop
    rw [hkeyId, cfgValEntryUpdate_set other _ _ item 0 P v hall hitem, ← hkeyId] at hloop
    simp only [Nat.zero_or] at hloop
    rw [hlen]
    rw [hlen] at hrecv
    exact ⟨hloop, getProtocolOutUbxCfgVal_of_loop k _ other s s1 inst keyId 9 _ _ _ hport hkeyId
      hrecv (by norm_num) hloop⟩
  · intro hP
    have hb := hbody.1 hP
    have hloop := cfgValLoop_entries k other keyId
      [((0x10 <<< 24) ||| ((k.groupId (gPortToCfgValGroupIdOutProt.getD inst.portNumber.toNat
        U_GNSS_CFG_VAL_KEY_GROUP_ID_I2COUTPROT) &&& 0xFF) <<< 16) ||| 1, [if v then 1 else 0]),
       ((0x10 <<< 24) ||| ((k.groupId (gPortToCfgValGroupIdOutProt.getD inst.portNumber.toNat
        U_GNSS_CFG_VAL_KEY_GROUP_ID_I2COUTPROT) &&& 0xFF) <<< 16) ||| 2, [if v then 1 else 0]),
       ((0x10 <<< 24) ||| ((k.groupId (gPortToCfgValGroupIdOutProt.getD inst.portNumber.toNat
        U_GNSS_CFG_VAL_KEY_GROUP_ID_I2COUTPROT) &&& 0xFF) <<< 16) ||| 4, [if v then 1 else 0])]
      [0, k.U_GNSS_CFG_VAL_LAYER_RAM % 256, 0, 0] 19 0 19 [] rfl (by norm_num)
      (by
        intro e he
        simp only [List.mem_cons, List.mem_singleton, List.mem_nil_iff, or_false] at he
        rcases he with rfl | rfl | rfl
        · exact hwf 1 (by norm_num) _
        · exact hwf 2 (by norm_num) _
        · exact hwf 4 (by norm_num) _)
      (by simp)
    have hlen : (cfgValSetBody k other inst P v).length = 19 := by
      rw [hb]
      rfl
    rw [← hb] at hloop
    simp only [List.length_cons, List.length_nil, List.foldl_cons, List.foldl_nil,
      List.nil_append, cfgValOffsets] at hloop
    rw [hkeyId,
      cfgValEntryUpdate_set other _ _ 1 0 U_GNSS_PROTOCOL_UBX v hall (Or.inl ⟨rfl, rfl⟩),
      cfgValEntryUpdate_set other _ _ 2 _ U_GNSS_PROTOCOL_NMEA v hall
        (Or.inr (Or.inl ⟨rfl, rfl⟩)),
      cfgValEntryUpdate_set other _ _ 4 _ U_GNSS_PROTOCOL_RTCM v hall
        (Or.inr (Or.inr ⟨rfl, rfl⟩)), ← hkeyId] at hloop
    have hbm : (if v = true then
        (if v = true then
          (if v = true then 0 ||| 1 <<< uGnssProtocolValue other U_GNSS_PROTOCOL_UBX else 0) |||
            1 <<< uGnssProtocolValue other U_GNSS_PROTOCOL_NMEA
          else if v = true then 0 ||| 1 <<< uGnssProtocolValue other U_GNSS_PROTOCOL_UBX else 0) |||
          1 <<< uGnssProtocolValue other U_GNSS_PROTOCOL_RTCM
        else if v = true then
          (if v = true then 0 ||| 1 <<< uGnssProtocolValue other U_GNSS_PROTOCOL_UBX else 0) |||
            1 <<< uGnssProtocolValue other U_GNSS_PROTOCOL_NMEA
          else if v = true then 0 ||| 1 <<< uGnssProtocolValue other U_GNSS_PROTOCOL_UBX else 0) =
        (if v = true then (1 <<< uGnssProtocolValue other U_GNSS_PROTOCOL_UBX) |||
            (1 <<< uGnssProtocolValue other U_GNSS_PROTOCOL_NMEA) |||
            (1 <<< uGnssProtocolValue other U_GNSS_PROTOCOL_RTCM) else 0) := by
      cases v <;> simp
    rw [hbm] at hloop
    rw [hlen]
    rw [hlen] at hrecv
    exact ⟨hloop, getProtocolOutUbxCfgVal_of_loop k _ other s s1 inst keyId 19 _ _ _ hport hkeyId
      hrecv (by norm_num) hloop⟩

/-- Witness of C39: ALL switched on for port 1, with the constants of the
u-blox interface description: the body sent is `00 01 00 00` followed by the
entries `01 00 74 10 01`, `02 00 74 10 01` and `04 00 74 10 01`, and reading it
back gives the bit-map 7. -/
theorem cfgVal_set_get_witness :
    cfgValSetBody ubloxCfgVal (fun _ => 3) ⟨U_GNSS_TRANSPORT_UART, 0, 1, 1000, false, 0, true⟩
        U_GNSS_PROTOCOL_ALL true =
      [0, 1, 0, 0, 1, 0, 0x74, 0x10, 1, 2, 0, 0x74, 0x10, 1, 4, 0, 0x74, 0x10, 1] ∧
    getProtocolOutUbxCfgVal ubloxCfgVal
        (fun (s : Unit) _ _ _ _ _ =>
          ((.length 19, some [0, 1, 0, 0, 1, 0, 0x74, 0x10, 1, 2, 0, 0x74, 0x10, 1,
            4, 0, 0x74, 0x10, 1]), s))
        (fun _ => 3) () ⟨U_GNSS_TRANSPORT_UART, 0, 1, 1000, false, 0, true⟩ =
      some (.length 7, ()) :=
  ⟨by decide,
    ((cfgVal_set_get ubloxCfgVal
      (fun (s : Unit) _ _ _ _ _ =>
        ((.length 19, some [0, 1, 0, 0, 1, 0, 0x74, 0x10, 1, 2, 0, 0x74, 0x10, 1,
          4, 0, 0x74, 0x10, 1]), s))
      (fun _ => 3) () () ⟨U_GNSS_TRANSPORT_UART, 0, 1, 1000, false, 0, true⟩
      U_GNSS_PROTOCOL_ALL true 0x1074FFFF (by decide) (Or.inl rfl) (by decide) (by decide)
      (by decide)).2 rfl).2⟩

/-! ## Theorems: send and receive over AT -/

/-- The check for a NACK of `sendReceiveUbxMessageAt` looks at the return value
of `uUbxProtocolDecode` and at the two bytes of the body only: when the reply
decodes to a body of two bytes that are the class and the id of `pResponse`,
the function returns `U_GNSS_ERROR_NACK`, whatever class `c` and id `i` the
decoding has stored in `clsNack` and `idNack`. -/
theorem sendReceiveUbxMessageAt_nack (maxBody : Nat) (charIsSigned : Bool) (env : AtEnv)
    (pSend : List Nat)
    (sendLengthBytes : Nat) (pResponse : uGnssPrivateUbxReceiveMessage_t) (timeoutMs : Int)
    (ppBody : Option (List Nat)) (bytesRead c i : Int) (buf bin ackBody : List Nat)
    (hmalloc : ∀ n, env.pUPortMalloc n = true)
    (hpp : pResponse.ppBody = some ppBody)
    (hcap : ppBody = none ∨ pResponse.bodySize > 0)
    (hexchange : ∀ size, env.atExchange (env.uBinToHex pSend sendLengthBytes ++ [0]) timeoutMs
      size = (bytesRead, buf, 0))
    (hread : bytesRead ≥ 0)
    (hbin : env.uHexToBin buf bytesRead.toNat = bin) (hne : bin ≠ [])
    (hdec : env.uUbxProtocolDecode bin bin.length 0x05 0x00 [0, 0] 2 = (.length 2, c, i, ackBody))
    (hack : charValue charIsSigned (ackBody.getD 0 0) = pResponse.cls ∧
      charValue charIsSigned (ackBody.getD 1 0) = pResponse.id) :
    (sendReceiveUbxMessageAt maxBody charIsSigned env pSend sendLengthBytes pResponse
      timeoutMs).1 = .error (.gnss .U_GNSS_ERROR_NACK) := by
  have hx : bin.length > 0 := List.length_pos.mpr hne
  have hcs : (match ppBody with
      | some _ => if bin.length > pResponse.bodySize then pResponse.bodySize else bin.length
      | none => bin.length) > 0 := by
    cases ppBody with
    | none => exact hx
    | some b =>
      rcases hcap with h | h
      · cases h
      · simp only
        split_ifs <;> omega
  simp only [sendReceiveUbxMessageAt, hmalloc, if_true, hpp, hexchange, hread, hbin, hx, hcs,
    hdec, hack, and_self, ge_iff_le]

set_option maxRecDepth 100000 in
/-- C34 fails on the code.  The command UBX-CFG-MSG (class 0x06, id 0x01) is
sent over AT with a response wanted (`pResponse` with class 0x06, id 0x01 and
a NULL `*ppBody`) and the module answers with the hex string of the ACK-ACK
frame `B5 62 05 01 02 00 06 01 0F 38` (class 0x05, id 0x01, body `06 01`):
`sendReceiveUbxMessageAt` returns `U_GNSS_ERROR_NACK`, where the plain `char`
is unsigned and where it is signed.  The decoding stores the class and the id
of the reply in `clsNack` and `idNack`, over the 0x05 and 0x00 they were
given, and the code compares neither afterwards. -/
theorem sendReceiveUbxMessageAt_ack_is_nack :
    uHexToBin (uBinToHex (ubxFrame 5 1 [6, 1]) 10 ++ [0]) 20 =
      [0xB5, 0x62, 0x05, 0x01, 0x02, 0x00, 0x06, 0x01, 0x0F, 0x38] ∧
    uUbxProtocolDecode [0xB5, 0x62, 0x05, 0x01, 0x02, 0x00, 0x06, 0x01, 0x0F, 0x38] 10 0x05 0x00
        [0, 0] 2 = (.length 2, 0x05, 0x01, [0x06, 0x01]) ∧
    sendReceiveUbxMessageAt 1024 false (replyingAt (ubxFrame 5 1 [6, 1]))
        (ubxFrame 6 1 [0xF0, 0, 1]) 11 ⟨0x06, 0x01, some none, 0⟩ 1000 =
      (.error (.gnss .U_GNSS_ERROR_NACK),
        ⟨0x06, 0x01, some (some [0xB5, 0x62, 0x05, 0x01, 0x02, 0x00, 0x06, 0x01, 0x0F, 0x38]),
          0⟩) ∧
    sendReceiveUbxMessageAt 1024 true (replyingAt (ubxFrame 5 1 [6, 1]))
        (ubxFrame 6 1 [0xF0, 0, 1]) 11 ⟨0x06, 0x01, some none, 0⟩ 1000 =
      (.error (.gnss .U_GNSS_ERROR_NACK),
        ⟨0x06, 0x01, some (some [0xB5, 0x62, 0x05, 0x01, 0x02, 0x00, 0x06, 0x01, 0x0F, 0x38]),
          0⟩) := by
  refine ⟨?_, ?_, ?_, ?_⟩ <;> decide

end UGnss
